import Mathlib

/-!
# OUTPUTMANAGER: presentation and synchronisation pipeline

A shallow embedding of `src/OutputManager.cpp` / `src/OutputManager.h`.

* The member variables of `OUTPUTMANAGER` that carry protocol state are the fields of the
  structure `OUTPUTMANAGER`.
* Every call into a collaborator (keyed mutex, D3D device and context, display task pool,
  fences, Win32 wait) is recorded as a `Call` in the list a method returns; what the
  collaborator answers (an HRESULT, a wait result, a completed fence value) is read from
  an environment record passed to the method.
* `uint64_t` and `uint32_t` members are natural numbers reduced modulo `2^64` / `2^32`
  where the source does arithmetic on them.
* Calls through the WinRT projection (`CreateTask`, `SetScanout`, `SetWait`, `ExecuteTask`)
  are taken to return normally.
-/

namespace DDHMD

/-! ## Win32 / COM status codes -/

/-- Signed 32-bit COM status code. -/
abbrev HRESULT := Int

/-- The `FAILED(hr)` test: the severity bit is set, i.e. the signed value is negative. -/
def FAILED (hr : HRESULT) : Bool := decide (hr < 0)

def S_OK : HRESULT := 0

/-- Value `0x8000FFFF` read as a signed 32-bit integer. -/
def E_UNEXPECTED : HRESULT := -2147418113

/-- Value `0x8007000E` read as a signed 32-bit integer. -/
def E_OUTOFMEMORY : HRESULT := -2147024882

/-- Value `0x887A0002` read as a signed 32-bit integer. -/
def DXGI_ERROR_NOT_FOUND : HRESULT := -2005270526

/-- Wait result `WAIT_TIMEOUT` (`0x102`), a `DWORD`. -/
def WAIT_TIMEOUT : Nat := 258

/-- Wait result `WAIT_OBJECT_0`, a `DWORD`. -/
def WAIT_OBJECT_0 : Nat := 0

/-- The conversion `static_cast<HRESULT>(dw)` of a `DWORD`: the same 32 bits read as signed. -/
def castHRESULT (dw : Nat) : HRESULT :=
  if dw % 2 ^ 32 < 2 ^ 31 then ((dw % 2 ^ 32 : Nat) : Int) else ((dw % 2 ^ 32 : Nat) : Int) - 2 ^ 32

/-- Modulus of `uint64_t` arithmetic. -/
def UINT64_MOD : Nat := 2 ^ 64

/-- Modulus of `uint32_t` / `UINT` arithmetic. -/
def UINT32_MOD : Nat := 2 ^ 32

/-! ## Result type and failure processing -/

/-- Modelled from the spec: the enumeration `DUPL_RETURN` is declared in `CommonTypes.h`,
which is not among the source files. The source names `DUPL_RETURN_SUCCESS` and
`DUPL_RETURN_ERROR_EXPECTED`; the spec (section 6) gives the three outcomes
`Ok | RecoverableError | FatalError`, the third being `DUPL_RETURN_ERROR_UNEXPECTED` here. -/
inductive DUPL_RETURN where
  | DUPL_RETURN_SUCCESS
  | DUPL_RETURN_ERROR_EXPECTED
  | DUPL_RETURN_ERROR_UNEXPECTED
  deriving DecidableEq, Repr

open DUPL_RETURN

/-- Modelled from the spec: `ProcessFailure` is called by the source files but defined
elsewhere in the repository. Spec section 7: a failure is propagated upward as a typed
failure, recoverable-session or fatal, and is never swallowed. `hr` is the status code
passed at the call site; `ExpectedErrors` is the table argument of the call
(`some SystemTransitionsExpectedErrors`, or `none` where the call passes no table).
The device, message and title arguments only serve the report and are left out. -/
def ProcessFailure (hr : HRESULT) (ExpectedErrors : Option (List HRESULT)) : DUPL_RETURN :=
  match ExpectedErrors with
  | some tbl => if hr ∈ tbl then DUPL_RETURN_ERROR_EXPECTED else DUPL_RETURN_ERROR_UNEXPECTED
  | none => DUPL_RETURN_ERROR_UNEXPECTED

/-! ## Collaborator calls -/

/-- A display task as built by `Present`: the scanout it was given by `SetScanout` and the
fence value it was given by `SetWait`. -/
structure DisplayTask where
  scanout : Option Nat
  wait : Option Nat
  deriving DecidableEq, Repr

/-- One entry of `m_OutputSurfaces`. The three handles of an entry are created from one
primary (`CreatePrimary`, `CreateSimpleScanout` of that primary, `OpenSharedResource1` of a
handle to that primary); each field holds the number of the primary it belongs to. -/
structure OutputSurface where
  primary : Nat
  scanout : Nat
  surface : Nat
  deriving DecidableEq, Repr

/-- Initial data handed to `CreateTexture2D` for the cursor texture: the raw shape buffer
(bytes) for a colour shape, the resolved buffer (32-bit words) otherwise, `null` when the
resolved buffer pointer is `nullptr` or its contents are undefined. -/
inductive SysMem where
  | null
  | bytes (b : List Nat)
  | words (w : List Nat)
  deriving DecidableEq, Repr

/-- Calls made by the methods of `OUTPUTMANAGER`, in program order. `DrawFrame`,
`DrawMouse`, `Present`, `OpenOutput`, `CreateSharedSurf`, `MakeRTV` and `InitShaders` mark
the entry into the method of that name; the other constructors are calls into
collaborators, with the arguments the source passes. -/
inductive Call where
  | AcquireSync (Key : Nat) (dwMilliseconds : Nat)
  | ReleaseSync (Key : Nat)
  | DrawFrame
  | DrawMouse
  | Present
  | Signal (Value : Nat)
  | Flush
  | CreateTask
  | SetScanout (OutputSurfaceIndex : Nat)
  | SetWait (Value : Nat)
  | ExecuteTask (task : DisplayTask)
  | SetEventOnCompletion (Value : Nat)
  | WaitForSingleObject (dwMilliseconds : Nat)
  | GetCompletedValue
  | CreateShaderResourceView
  | CreateBuffer
  | OMSetBlendState (blend : Bool)
  | OMSetRenderTargets (rtv : Option Nat)
  | IASetVertexBuffers
  | Draw (VertexCount : Nat)
  | CreateStagingTexture (Width Height : Int)
  | CopySubresourceRegion (left top right bottom : Int)
  | Map
  | Unmap
  | CreateTexture2D (Width Height : Nat) (pSysMem : SysMem) (SysMemPitch : Nat)
  | CreateRenderTargetView (surface : Option Nat)
  | RSSetViewports (Width Height : Nat)
  | CreateSamplerState
  | CreateBlendState
  | CreateSharedTexture (Width Height : Nat)
  | OpenOutput
  | CreateSharedSurf
  | MakeRTV
  | InitShaders
  deriving DecidableEq, Repr

/-! ## Manager state -/

/-- The member variables of `OUTPUTMANAGER` that the modelled methods read or write.
`m_Device` and `m_KeyMutex` tell whether the pointer is set.
`m_RTV` holds the number of the primary whose texture the render-target view was created
on (`none` for `nullptr`); `m_SharedSurf` holds the width and height of the shared
texture (`none` for `nullptr`). -/
structure OUTPUTMANAGER where
  m_DisplayWidth : Nat
  m_DisplayHeight : Nat
  m_Device : Bool
  m_RTV : Option Nat
  m_SharedSurf : Option (Nat × Nat)
  m_KeyMutex : Bool
  m_OutputSurfaces : List OutputSurface
  m_OutputSurfaceIndex : Nat
  m_VBlankFenceValue : Nat
  m_DisplayFenceValue : Nat
  deriving DecidableEq, Repr

/-- The constructor together with the default member initialisers of the header. -/
def OUTPUTMANAGER.new : OUTPUTMANAGER :=
  { m_DisplayWidth := 0
    m_DisplayHeight := 0
    m_Device := false
    m_RTV := none
    m_SharedSurf := none
    m_KeyMutex := false
    m_OutputSurfaces := []
    m_OutputSurfaceIndex := 0
    m_VBlankFenceValue := 0
    m_DisplayFenceValue := 0 }

/-- What a method leaves behind: the manager state, the calls it made, its return value. -/
structure Outcome where
  state : OUTPUTMANAGER
  calls : List Call
  ret : DUPL_RETURN
  deriving DecidableEq, Repr

/-! ## Present -/

/-- Answers of the collaborators during one `Present`. -/
structure PresentEnv where
  hrSignal : HRESULT
  deriving DecidableEq, Repr

/-- Method `OUTPUTMANAGER::Present` (lines 582-602). -/
def OUTPUTMANAGER.Present (SystemTransitionsExpectedErrors : List HRESULT)
    (self : OUTPUTMANAGER) (env : PresentEnv) : Outcome :=
  -- ++m_DisplayFenceValue;
  let self := { self with m_DisplayFenceValue := (self.m_DisplayFenceValue + 1) % UINT64_MOD }
  let hr := env.hrSignal
  if FAILED hr then
    { state := self
      calls := [Call.Present, Call.Signal self.m_DisplayFenceValue]
      ret := ProcessFailure hr (some SystemTransitionsExpectedErrors) }
  else
    let task : DisplayTask :=
      { scanout := (self.m_OutputSurfaces[self.m_OutputSurfaceIndex]?).map OutputSurface.scanout
        wait := some self.m_DisplayFenceValue }
    { state := { self with m_OutputSurfaceIndex := (self.m_OutputSurfaceIndex ^^^ 1) % UINT32_MOD }
      calls := [Call.Present, Call.Signal self.m_DisplayFenceValue, Call.Flush, Call.CreateTask,
                Call.SetScanout self.m_OutputSurfaceIndex, Call.SetWait self.m_DisplayFenceValue,
                Call.ExecuteTask task]
      ret := DUPL_RETURN_SUCCESS }

/-! ## WaitNextVBlank -/

/-- Answers of the collaborators during one `WaitNextVBlank`: the HRESULT of
`SetEventOnCompletion`, the `DWORD` returned by `WaitForSingleObject`, and the value
returned by `GetCompletedValue`. -/
structure VBlankEnv where
  hrSetEventOnCompletion : HRESULT
  waited : Nat
  completedValue : Nat
  deriving DecidableEq, Repr

/-- Method `OUTPUTMANAGER::WaitNextVBlank` (lines 607-625). -/
def OUTPUTMANAGER.WaitNextVBlank (SystemTransitionsExpectedErrors : List HRESULT)
    (self : OUTPUTMANAGER) (env : VBlankEnv) : Outcome :=
  let hr := env.hrSetEventOnCompletion
  if FAILED hr then
    { state := self
      calls := [Call.SetEventOnCompletion self.m_VBlankFenceValue]
      ret := ProcessFailure hr (some SystemTransitionsExpectedErrors) }
  else
    let waited := env.waited
    if waited ≠ WAIT_OBJECT_0 then
      { state := self
        calls := [Call.SetEventOnCompletion self.m_VBlankFenceValue, Call.WaitForSingleObject 200]
        ret := ProcessFailure E_UNEXPECTED none }
    else
      { state := { self with m_VBlankFenceValue := (env.completedValue % UINT64_MOD + 1) % UINT64_MOD }
        calls := [Call.SetEventOnCompletion self.m_VBlankFenceValue, Call.WaitForSingleObject 200,
                  Call.GetCompletedValue]
        ret := DUPL_RETURN_SUCCESS }

/-! ## Pointer state -/

/-- The fields of `DXGI_OUTDUPL_POINTER_SHAPE_INFO` that the source reads; `ShapeType` is
the member `Type`. All four are `UINT`. -/
structure DXGI_OUTDUPL_POINTER_SHAPE_INFO where
  ShapeType : Nat
  Width : Nat
  Height : Nat
  Pitch : Nat
  deriving DecidableEq, Repr

def DXGI_OUTDUPL_POINTER_SHAPE_TYPE_MONOCHROME : Nat := 1

def DXGI_OUTDUPL_POINTER_SHAPE_TYPE_COLOR : Nat := 2

def DXGI_OUTDUPL_POINTER_SHAPE_TYPE_MASKED_COLOR : Nat := 4

/-- A Win32 `POINT`. -/
structure POINT where
  x : Int
  y : Int
  deriving DecidableEq, Repr

/-- Modelled from the spec: `PTR_INFO` is declared in `CommonTypes.h`, which is not among
the source files. Spec section 3 (PointerState): visible flag, position in desktop
coordinates, shape kind, raw shape bytes, shape width, height and row pitch; these are the
members the source reads. `PtrShapeBuffer` is the list of bytes of the shape buffer. -/
structure PTR_INFO where
  PtrShapeBuffer : List Nat
  ShapeInfo : DXGI_OUTDUPL_POINTER_SHAPE_INFO
  Position : POINT
  Visible : Bool
  deriving DecidableEq, Repr

/-- Modelled from the spec: the constant `BPP` is defined in `CommonTypes.h`; the resolved
image is in 32-bit packed colour (spec section 3), four bytes per pixel. -/
def BPP : Int := 4

/-- Modelled from the spec: the constant `NUMVERTICES` is defined in `CommonTypes.h`; both
draws use a six-vertex quad (spec section 4.3). -/
def NUMVERTICES : Nat := 6

/-- The conversion of a `UINT` to `INT`: the same 32 bits read as signed. -/
def castINT (u : Nat) : Int := castHRESULT u

/-- The conversion of an `INT` to `UINT`: reduction modulo `2^32`. -/
def castUINT (z : Int) : Nat := (z % (2 ^ 32 : Int)).toNat

/-- The conversion of an `INT` to `size_t` (64 bits): reduction modulo `2^64`. -/
def castSIZE_T (z : Int) : Nat := (z % (2 ^ 64 : Int)).toNat

/-! ## ProcessMonoMask -/

/-- Answers of the collaborators during one `ProcessMonoMask`. `pBits` is the mapped
staging surface read as 32-bit words (`Desktop32`), `Pitch` its row pitch in bytes, and
`allocated` tells whether `new (std::nothrow)` returned a buffer. -/
structure MonoMaskEnv where
  hrCreateTexture2D : HRESULT
  hrQueryInterface : HRESULT
  hrMap : HRESULT
  pBits : List Nat
  Pitch : Int
  allocated : Bool
  hrUnmap : HRESULT
  deriving DecidableEq, Repr

/-- The word `Buffer32[i]` of the shape buffer reinterpreted as `UINT*` (little endian). -/
def Buffer32 (PtrShapeBuffer : List Nat) (i : Nat) : Option Nat := do
  let b0 ← PtrShapeBuffer[4 * i]?
  let b1 ← PtrShapeBuffer[4 * i + 1]?
  let b2 ← PtrShapeBuffer[4 * i + 2]?
  let b3 ← PtrShapeBuffer[4 * i + 3]?
  pure (b0 + 256 * b1 + 65536 * b2 + 16777216 * b3)

/-- Inner loop of the monochrome branch (lines 855-875) from column `Col` on, with `n`
columns left and the running bit mask `Mask`. The result is the list of words stored at
`InitBuffer32[Row * PtrWidth + Col ..]`; `none` when a read leaves its buffer. -/
def monoCols (PtrInfo : PTR_INFO) (Desktop32 : List Nat) (DesktopPitchInPixels SkipX SkipY : Nat)
    (Row : Nat) : Nat → Nat → Nat → Option (List Nat)
  | 0, _, _ => some []
  | n + 1, Col, Mask => do
    let Pitch := PtrInfo.ShapeInfo.Pitch
    let col8 := ((Col + SkipX) % UINT32_MOD) / 8
    let AndByte ← PtrInfo.PtrShapeBuffer[(col8 + (((Row + SkipY) % UINT32_MOD) * Pitch) % UINT32_MOD)
      % UINT32_MOD]?
    let XorByte ← PtrInfo.PtrShapeBuffer[(col8 + (((Row + SkipY + PtrInfo.ShapeInfo.Height / 2)
      % UINT32_MOD) * Pitch) % UINT32_MOD) % UINT32_MOD]?
    let AndMask := AndByte &&& Mask
    let XorMask := XorByte &&& Mask
    let AndMask32 := if AndMask ≠ 0 then 0xFFFFFFFF else 0xFF000000
    let XorMask32 := if XorMask ≠ 0 then 0x00FFFFFF else 0x00000000
    let Desktop ← Desktop32[((Row * DesktopPitchInPixels) % UINT32_MOD + Col) % UINT32_MOD]?
    let pixel := (Desktop &&& AndMask32) ^^^ XorMask32
    let Mask := if Mask = 0x01 then 0x80 else Mask >>> 1
    let rest ← monoCols PtrInfo Desktop32 DesktopPitchInPixels SkipX SkipY Row n (Col + 1) Mask
    pure (pixel :: rest)

/-- Inner loop of the masked-colour branch (lines 885-899) from column `Col` on, with `n`
columns left. -/
def maskedCols (PtrInfo : PTR_INFO) (Desktop32 : List Nat) (DesktopPitchInPixels SkipX SkipY : Nat)
    (Row : Nat) : Nat → Nat → Option (List Nat)
  | 0, _ => some []
  | n + 1, Col => do
    let idx := (((Col + SkipX) % UINT32_MOD)
      + (((Row + SkipY) % UINT32_MOD) * (PtrInfo.ShapeInfo.Pitch / 4)) % UINT64_MOD) % UINT64_MOD
    let shape ← Buffer32 PtrInfo.PtrShapeBuffer idx
    let MaskVal := 0xFF000000 &&& shape
    let Desktop ← Desktop32[((Row * DesktopPitchInPixels) % UINT32_MOD + Col) % UINT32_MOD]?
    let pixel := if MaskVal ≠ 0 then (Desktop ^^^ shape) ||| 0xFF000000 else shape ||| 0xFF000000
    let rest ← maskedCols PtrInfo Desktop32 DesktopPitchInPixels SkipX SkipY Row n (Col + 1)
    pure (pixel :: rest)

/-- Outer loop of both branches (lines 850 and 883) from row `Row` on, with `n` rows left:
the rows are stored one after the other, `PtrWidth` words each. -/
def maskRows (IsMono : Bool) (PtrInfo : PTR_INFO) (Desktop32 : List Nat)
    (DesktopPitchInPixels SkipX SkipY : Nat) (PtrWidth : Nat) : Nat → Nat → Option (List Nat)
  | 0, _ => some []
  | n + 1, Row => do
    let row ←
      if IsMono then
        monoCols PtrInfo Desktop32 DesktopPitchInPixels SkipX SkipY Row PtrWidth 0
          (0x80 >>> (SkipX % 8))
      else
        maskedCols PtrInfo Desktop32 DesktopPitchInPixels SkipX SkipY Row PtrWidth 0
    let rest ← maskRows IsMono PtrInfo Desktop32 DesktopPitchInPixels SkipX SkipY PtrWidth n (Row + 1)
    pure (row ++ rest)

/-- What `ProcessMonoMask` leaves behind: its return value, the pointer state, the four
out-parameters, the buffer `*InitBuffer` as a list of 32-bit words (`none` for `nullptr`,
and for contents left undefined by a read outside a buffer), and the calls it made. -/
structure MonoMaskResult where
  ret : DUPL_RETURN
  PtrInfo : PTR_INFO
  PtrWidth : Int
  PtrHeight : Int
  PtrLeft : Int
  PtrTop : Int
  InitBuffer : Option (List Nat)
  calls : List Call
  deriving DecidableEq, Repr

/-- The clipping results of `ProcessMonoMask`: the pointer state after the transient
halving and doubling of `ShapeInfo.Height`, the four out-parameters, and the two skip
offsets. -/
structure Clip where
  PtrInfo : PTR_INFO
  PtrWidth : Int
  PtrHeight : Int
  PtrLeft : Int
  PtrTop : Int
  SkipX : Nat
  SkipY : Nat
  deriving DecidableEq, Repr

/-- The clipping arithmetic of `ProcessMonoMask` (lines 735-783 and 845-846), which makes
no collaborator call apart from reading the size of the shared texture. `INT` arithmetic
is done in the integers (signed overflow is undefined in the source language); `UINT`
arithmetic is reduced modulo `2^32`. -/
def OUTPUTMANAGER.ProcessMonoMask.clip (self : OUTPUTMANAGER) (IsMono : Bool)
    (PtrInfo : PTR_INFO) : Clip :=
  let FullDesc := self.m_SharedSurf.getD (0, 0)
  let DesktopWidth : Int := castINT FullDesc.1
  let DesktopHeight : Int := castINT FullDesc.2
  let GivenLeft : Int := PtrInfo.Position.x
  let GivenTop : Int := PtrInfo.Position.y
  let PtrWidth : Int :=
    if GivenLeft < 0 then GivenLeft + castINT PtrInfo.ShapeInfo.Width
    else if GivenLeft + castINT PtrInfo.ShapeInfo.Width > DesktopWidth then DesktopWidth - GivenLeft
    else castINT PtrInfo.ShapeInfo.Width
  let Height0 := PtrInfo.ShapeInfo.Height
  let Height1 := if IsMono then Height0 / 2 else Height0
  let PtrHeight : Int :=
    if GivenTop < 0 then GivenTop + castINT Height1
    else if GivenTop + castINT Height1 > DesktopHeight then DesktopHeight - GivenTop
    else castINT Height1
  let Height2 := if IsMono then (Height1 * 2) % UINT32_MOD else Height1
  { PtrInfo := { PtrInfo with ShapeInfo := { PtrInfo.ShapeInfo with Height := Height2 } }
    PtrWidth := PtrWidth
    PtrHeight := PtrHeight
    PtrLeft := if GivenLeft < 0 then 0 else GivenLeft
    PtrTop := if GivenTop < 0 then 0 else GivenTop
    SkipX := if GivenLeft < 0 then castUINT (-1 * GivenLeft) else 0
    SkipY := if GivenTop < 0 then castUINT (-1 * GivenTop) else 0 }

/-- Method `OUTPUTMANAGER::ProcessMonoMask` (lines 733-913), with its clipping arithmetic
in `ProcessMonoMask.clip` and its decode loops in `maskRows`. The allocation yields no
buffer when the requested size is negative as an `INT` (it converts to a `size_t` beyond
any allocation) or when the environment says so; `size_t` arithmetic is reduced modulo
`2^64`. -/
def OUTPUTMANAGER.ProcessMonoMask (SystemTransitionsExpectedErrors : List HRESULT)
    (self : OUTPUTMANAGER) (env : MonoMaskEnv) (IsMono : Bool) (PtrInfo : PTR_INFO) :
    MonoMaskResult :=
  let k := OUTPUTMANAGER.ProcessMonoMask.clip self IsMono PtrInfo
  let fail (hr : HRESULT) (tbl : Option (List HRESULT)) (calls : List Call) : MonoMaskResult :=
    { ret := ProcessFailure hr tbl, PtrInfo := k.PtrInfo, PtrWidth := k.PtrWidth,
      PtrHeight := k.PtrHeight, PtrLeft := k.PtrLeft, PtrTop := k.PtrTop, InitBuffer := none,
      calls := calls }
  let c1 := [Call.CreateStagingTexture k.PtrWidth k.PtrHeight]
  if FAILED env.hrCreateTexture2D then
    fail env.hrCreateTexture2D (some SystemTransitionsExpectedErrors) c1
  else
    let c2 := c1 ++ [Call.CopySubresourceRegion k.PtrLeft k.PtrTop (k.PtrLeft + k.PtrWidth)
      (k.PtrTop + k.PtrHeight)]
    if FAILED env.hrQueryInterface then
      fail env.hrQueryInterface (some SystemTransitionsExpectedErrors) c2
    else
      let c3 := c2 ++ [Call.Map]
      if FAILED env.hrMap then
        fail env.hrMap (some SystemTransitionsExpectedErrors) c3
      else if k.PtrWidth * k.PtrHeight * BPP < 0 ∨ env.allocated = false then
        fail E_OUTOFMEMORY none c3
      else
        let DesktopPitchInPixels := (castSIZE_T env.Pitch / 4) % UINT32_MOD
        let InitBuffer := maskRows IsMono k.PtrInfo env.pBits DesktopPitchInPixels k.SkipX k.SkipY
          k.PtrWidth.toNat k.PtrHeight.toNat 0
        let c4 := c3 ++ [Call.Unmap]
        { ret := if FAILED env.hrUnmap then
                   ProcessFailure env.hrUnmap (some SystemTransitionsExpectedErrors)
                 else DUPL_RETURN_SUCCESS
          PtrInfo := k.PtrInfo, PtrWidth := k.PtrWidth, PtrHeight := k.PtrHeight,
          PtrLeft := k.PtrLeft, PtrTop := k.PtrTop, InitBuffer := InitBuffer, calls := c4 }

/-! ## DrawFrame -/

/-- Answers of the device during one `DrawFrame`. -/
structure DrawFrameEnv where
  hrCreateShaderResourceView : HRESULT
  hrCreateBuffer : HRESULT
  deriving DecidableEq, Repr

/-- Method `OUTPUTMANAGER::DrawFrame` (lines 651-728). It writes no member variable, so it
returns only its calls and its return value. Of the pipeline binds, the blend state and
the render target are recorded. -/
def OUTPUTMANAGER.DrawFrame (SystemTransitionsExpectedErrors : List HRESULT)
    (self : OUTPUTMANAGER) (env : DrawFrameEnv) : List Call × DUPL_RETURN :=
  if FAILED env.hrCreateShaderResourceView then
    ([Call.DrawFrame, Call.CreateShaderResourceView],
      ProcessFailure env.hrCreateShaderResourceView (some SystemTransitionsExpectedErrors))
  else if FAILED env.hrCreateBuffer then
    ([Call.DrawFrame, Call.CreateShaderResourceView, Call.OMSetBlendState false,
      Call.OMSetRenderTargets self.m_RTV, Call.CreateBuffer],
      ProcessFailure env.hrCreateBuffer (some SystemTransitionsExpectedErrors))
  else
    ([Call.DrawFrame, Call.CreateShaderResourceView, Call.OMSetBlendState false,
      Call.OMSetRenderTargets self.m_RTV, Call.CreateBuffer, Call.IASetVertexBuffers,
      Call.Draw NUMVERTICES],
      DUPL_RETURN_SUCCESS)

/-! ## DrawMouse -/

/-- Answers of the collaborators during one `DrawMouse`. -/
structure DrawMouseEnv where
  monoMask : MonoMaskEnv
  hrCreateTexture2D : HRESULT
  hrCreateShaderResourceView : HRESULT
  hrCreateBuffer : HRESULT
  deriving DecidableEq, Repr

/-- The clipped cursor rectangle and upload source that `DrawMouse` computes in its
`switch` on the shape type (lines 978-1005), with the pointer state and the calls made. -/
structure MouseShape where
  PtrInfo : PTR_INFO
  PtrWidth : Int
  PtrHeight : Int
  PtrLeft : Int
  PtrTop : Int
  InitBuffer : Option (List Nat)
  calls : List Call
  deriving DecidableEq, Repr

/-- The `switch` of `DrawMouse` (lines 978-1005). The return value of `ProcessMonoMask` is
not read by the source. -/
def OUTPUTMANAGER.DrawMouse.shape (SystemTransitionsExpectedErrors : List HRESULT)
    (self : OUTPUTMANAGER) (env : DrawMouseEnv) (PtrInfo : PTR_INFO) : MouseShape :=
  if PtrInfo.ShapeInfo.ShapeType = DXGI_OUTDUPL_POINTER_SHAPE_TYPE_COLOR then
    { PtrInfo := PtrInfo
      PtrWidth := castINT PtrInfo.ShapeInfo.Width
      PtrHeight := castINT PtrInfo.ShapeInfo.Height
      PtrLeft := PtrInfo.Position.x
      PtrTop := PtrInfo.Position.y
      InitBuffer := none
      calls := [] }
  else if PtrInfo.ShapeInfo.ShapeType = DXGI_OUTDUPL_POINTER_SHAPE_TYPE_MONOCHROME
      ∨ PtrInfo.ShapeInfo.ShapeType = DXGI_OUTDUPL_POINTER_SHAPE_TYPE_MASKED_COLOR then
    let r := self.ProcessMonoMask SystemTransitionsExpectedErrors env.monoMask
      (decide (PtrInfo.ShapeInfo.ShapeType = DXGI_OUTDUPL_POINTER_SHAPE_TYPE_MONOCHROME)) PtrInfo
    { PtrInfo := r.PtrInfo, PtrWidth := r.PtrWidth, PtrHeight := r.PtrHeight, PtrLeft := r.PtrLeft,
      PtrTop := r.PtrTop, InitBuffer := r.InitBuffer, calls := r.calls }
  else
    { PtrInfo := PtrInfo, PtrWidth := 0, PtrHeight := 0, PtrLeft := 0, PtrTop := 0,
      InitBuffer := none, calls := [] }

/-- Method `OUTPUTMANAGER::DrawMouse` (lines 918-1105). It writes no member variable; it
returns the pointer state (which `ProcessMonoMask` receives by pointer), its calls and its
return value. The vertex positions are floating-point values and are not part of the
recorded `CreateBuffer` call. -/
def OUTPUTMANAGER.DrawMouse (SystemTransitionsExpectedErrors : List HRESULT)
    (self : OUTPUTMANAGER) (env : DrawMouseEnv) (PtrInfo : PTR_INFO) :
    PTR_INFO × List Call × DUPL_RETURN :=
  let sh := OUTPUTMANAGER.DrawMouse.shape SystemTransitionsExpectedErrors self env PtrInfo
  let PtrInfo := sh.PtrInfo
  let IsColor : Bool := decide (PtrInfo.ShapeInfo.ShapeType = DXGI_OUTDUPL_POINTER_SHAPE_TYPE_COLOR)
  let pSysMem : SysMem :=
    if IsColor then SysMem.bytes PtrInfo.PtrShapeBuffer
    else match sh.InitBuffer with
      | some w => SysMem.words w
      | none => SysMem.null
  let SysMemPitch : Nat := if IsColor then PtrInfo.ShapeInfo.Pitch else castUINT (sh.PtrWidth * BPP)
  let c1 := [Call.DrawMouse] ++ sh.calls
    ++ [Call.CreateTexture2D (castUINT sh.PtrWidth) (castUINT sh.PtrHeight) pSysMem SysMemPitch]
  if FAILED env.hrCreateTexture2D then
    (PtrInfo, c1, ProcessFailure env.hrCreateTexture2D (some SystemTransitionsExpectedErrors))
  else
    let c2 := c1 ++ [Call.CreateShaderResourceView]
    if FAILED env.hrCreateShaderResourceView then
      (PtrInfo, c2,
        ProcessFailure env.hrCreateShaderResourceView (some SystemTransitionsExpectedErrors))
    else
      let c3 := c2 ++ [Call.CreateBuffer]
      if FAILED env.hrCreateBuffer then
        (PtrInfo, c3, ProcessFailure env.hrCreateBuffer (some SystemTransitionsExpectedErrors))
      else
        (PtrInfo, c3 ++ [Call.IASetVertexBuffers, Call.OMSetBlendState true,
          Call.OMSetRenderTargets self.m_RTV, Call.Draw NUMVERTICES], DUPL_RETURN_SUCCESS)

/-! ## UpdateApplicationWindow -/

/-- Answers of the collaborators during one `UpdateApplicationWindow`. The records for
`DrawFrame`, `DrawMouse` and `Present` are read only if the method is reached. -/
structure UpdateEnv where
  hrAcquireSync : HRESULT
  drawFrame : DrawFrameEnv
  drawMouse : DrawMouseEnv
  hrReleaseSync : HRESULT
  present : PresentEnv
  deriving DecidableEq, Repr

/-- What `UpdateApplicationWindow` leaves behind: manager state, calls, return value, and
the pointer state it was handed by pointer. -/
structure UpdateOutcome where
  state : OUTPUTMANAGER
  calls : List Call
  ret : DUPL_RETURN
  PointerInfo : PTR_INFO
  deriving DecidableEq, Repr

/-- Method `OUTPUTMANAGER::UpdateApplicationWindow` (lines 532-577). -/
def OUTPUTMANAGER.UpdateApplicationWindow (SystemTransitionsExpectedErrors : List HRESULT)
    (self : OUTPUTMANAGER) (env : UpdateEnv) (PointerInfo : PTR_INFO) : UpdateOutcome :=
  let hr := env.hrAcquireSync
  let c0 := [Call.AcquireSync 1 100]
  if hr = castHRESULT WAIT_TIMEOUT then
    { state := self, calls := c0, ret := DUPL_RETURN_SUCCESS, PointerInfo := PointerInfo }
  else if FAILED hr then
    { state := self, calls := c0, ret := ProcessFailure hr (some SystemTransitionsExpectedErrors),
      PointerInfo := PointerInfo }
  else
    let df := self.DrawFrame SystemTransitionsExpectedErrors env.drawFrame
    let dm : PTR_INFO × List Call × DUPL_RETURN :=
      if df.2 = DUPL_RETURN_SUCCESS then
        if PointerInfo.Visible then
          self.DrawMouse SystemTransitionsExpectedErrors env.drawMouse PointerInfo
        else (PointerInfo, [], df.2)
      else (PointerInfo, [], df.2)
    let Ret := dm.2.2
    let c1 := c0 ++ df.1 ++ dm.2.1 ++ [Call.ReleaseSync 0]
    let hr := env.hrReleaseSync
    if FAILED hr then
      { state := self, calls := c1, ret := ProcessFailure hr (some SystemTransitionsExpectedErrors),
        PointerInfo := dm.1 }
    else if Ret = DUPL_RETURN_SUCCESS then
      let p := self.Present SystemTransitionsExpectedErrors env.present
      { state := p.state, calls := c1 ++ p.calls, ret := p.ret, PointerInfo := dm.1 }
    else
      { state := self, calls := c1, ret := Ret, PointerInfo := dm.1 }

/-! ## Initialisation -/

/-- A Win32 `RECT`. -/
structure RECT where
  left : Int
  top : Int
  right : Int
  bottom : Int
  deriving DecidableEq, Repr

def INT_MAX : Int := 2147483647

def INT_MIN : Int := -2147483648

/-- Answers of the collaborators during one `OpenOutput`. `targetFound` tells whether a
current target carries the requested vendor and product id, `bestMode` whether the mode
search selected a mode; the two per-surface answers are indexed by the loop counter. -/
structure OpenOutputEnv where
  targetFound : Bool
  hrCreateEmptyState : HRESULT
  bestMode : Bool
  hrApply : HRESULT
  hrReadCurrentState : HRESULT
  hrCreateDXGIFactory2 : HRESULT
  hrEnumAdapterByLuid : HRESULT
  hrD3D11CreateDevice : HRESULT
  sourceResolution : Nat × Nat
  hrCreateSharedHandle : Nat → HRESULT
  hrOpenSharedResource1 : Nat → HRESULT
  hrCreateFence : HRESULT
  hrFenceCreateSharedHandle : HRESULT
  hrOpenSharedHandle : HRESULT
  hrVBlankCreateSharedHandle : HRESULT
  hrOpenSharedFence : HRESULT

/-- The loop creating the output surfaces (lines 303-344) from counter `i` on, with `n`
iterations left: the vector after the loop, and the return value if the loop returned. -/
def OUTPUTMANAGER.OpenOutput.surfaces (SystemTransitionsExpectedErrors : List HRESULT)
    (env : OpenOutputEnv) : Nat → Nat → List OutputSurface → List OutputSurface × Option DUPL_RETURN
  | 0, _, acc => (acc, none)
  | n + 1, i, acc =>
    if FAILED (env.hrCreateSharedHandle i) then
      (acc, some (ProcessFailure (env.hrCreateSharedHandle i) (some SystemTransitionsExpectedErrors)))
    else if FAILED (env.hrOpenSharedResource1 i) then
      (acc, some (ProcessFailure (env.hrOpenSharedResource1 i) (some SystemTransitionsExpectedErrors)))
    else
      OUTPUTMANAGER.OpenOutput.surfaces SystemTransitionsExpectedErrors env n (i + 1)
        (acc ++ [{ primary := i, scanout := i, surface := i }])

/-- Method `OUTPUTMANAGER::OpenOutput` (lines 114-393), as far as it writes the modelled
member variables: the sequence of steps that can return early, the device pointer, the
display size and the two output surfaces. -/
def OUTPUTMANAGER.OpenOutput (SystemTransitionsExpectedErrors : List HRESULT)
    (self : OUTPUTMANAGER) (env : OpenOutputEnv) : Outcome :=
  let tbl := some SystemTransitionsExpectedErrors
  let c := [Call.OpenOutput]
  if env.targetFound = false then
    { state := self, calls := c, ret := ProcessFailure E_UNEXPECTED none }
  else if FAILED env.hrCreateEmptyState then
    { state := self, calls := c, ret := ProcessFailure env.hrCreateEmptyState tbl }
  else if env.bestMode = false then
    { state := self, calls := c, ret := ProcessFailure E_UNEXPECTED none }
  else if FAILED env.hrApply then
    { state := self, calls := c, ret := ProcessFailure env.hrApply tbl }
  else if FAILED env.hrReadCurrentState then
    { state := self, calls := c, ret := ProcessFailure env.hrReadCurrentState tbl }
  else if FAILED env.hrCreateDXGIFactory2 then
    { state := self, calls := c, ret := ProcessFailure env.hrCreateDXGIFactory2 tbl }
  else if FAILED env.hrEnumAdapterByLuid then
    { state := self, calls := c, ret := ProcessFailure env.hrEnumAdapterByLuid tbl }
  else if FAILED env.hrD3D11CreateDevice then
    { state := self, calls := c, ret := ProcessFailure env.hrD3D11CreateDevice tbl }
  else
    let self := { self with m_Device := true }
    let self := { self with m_DisplayWidth := env.sourceResolution.1 % UINT32_MOD,
                            m_DisplayHeight := env.sourceResolution.2 % UINT32_MOD }
    let r := OUTPUTMANAGER.OpenOutput.surfaces SystemTransitionsExpectedErrors env 2 0
      self.m_OutputSurfaces
    let self := { self with m_OutputSurfaces := r.1 }
    match r.2 with
    | some Ret => { state := self, calls := c, ret := Ret }
    | none =>
      if FAILED env.hrCreateFence then
        { state := self, calls := c, ret := ProcessFailure env.hrCreateFence tbl }
      else if FAILED env.hrFenceCreateSharedHandle then
        { state := self, calls := c, ret := ProcessFailure env.hrFenceCreateSharedHandle tbl }
      else if FAILED env.hrOpenSharedHandle then
        { state := self, calls := c, ret := ProcessFailure env.hrOpenSharedHandle tbl }
      else if FAILED env.hrVBlankCreateSharedHandle then
        { state := self, calls := c, ret := ProcessFailure env.hrVBlankCreateSharedHandle tbl }
      else if FAILED env.hrOpenSharedFence then
        { state := self, calls := c, ret := ProcessFailure env.hrOpenSharedFence tbl }
      else
        { state := self, calls := c, ret := DUPL_RETURN_SUCCESS }

/-- Answers of the collaborators during one `CreateSharedSurf`. `outputs` lists the
desktop coordinates of the outputs the adapter enumerates: `EnumOutputs(i)` succeeds for
`i` below its length and returns `DXGI_ERROR_NOT_FOUND` from there on. -/
structure SharedSurfEnv where
  hrQueryInterfaceDevice : HRESULT
  hrGetParent : HRESULT
  outputs : List RECT
  hrCreateTexture2D : HRESULT
  hrQueryInterfaceKeyedMutex : HRESULT
  deriving DecidableEq, Repr

/-- What a method with the out-parameters `OutCount` and `DeskBounds` leaves behind. -/
structure InitOutcome where
  state : OUTPUTMANAGER
  calls : List Call
  ret : DUPL_RETURN
  OutCount : Nat
  DeskBounds : RECT
  deriving DecidableEq, Repr

/-- Method `OUTPUTMANAGER::CreateSharedSurf` (lines 398-527). `OutCount` and `DeskBounds`
are the values behind the two out-pointers on entry. -/
def OUTPUTMANAGER.CreateSharedSurf (SystemTransitionsExpectedErrors : List HRESULT)
    (self : OUTPUTMANAGER) (env : SharedSurfEnv) (SingleOutput : Int) (OutCount : Nat)
    (DeskBounds : RECT) : InitOutcome :=
  let tbl := some SystemTransitionsExpectedErrors
  let c := [Call.CreateSharedSurf]
  if FAILED env.hrQueryInterfaceDevice then
    { state := self, calls := c, ret := ProcessFailure env.hrQueryInterfaceDevice none,
      OutCount := OutCount, DeskBounds := DeskBounds }
  else if FAILED env.hrGetParent then
    { state := self, calls := c, ret := ProcessFailure env.hrGetParent tbl,
      OutCount := OutCount, DeskBounds := DeskBounds }
  else
    let DeskBounds : RECT := { left := INT_MAX, right := INT_MIN, top := INT_MAX, bottom := INT_MIN }
    if SingleOutput ≥ 0 ∧ env.outputs[SingleOutput.toNat]? = none then
      { state := self, calls := c, ret := ProcessFailure DXGI_ERROR_NOT_FOUND none,
        OutCount := OutCount, DeskBounds := DeskBounds }
    else
      let DeskBounds : RECT :=
        if SingleOutput < 0 then
          env.outputs.foldl (fun b d =>
            { left := min d.left b.left, top := min d.top b.top,
              right := max d.right b.right, bottom := max d.bottom b.bottom }) DeskBounds
        else (env.outputs[SingleOutput.toNat]?).getD DeskBounds
      let OutputCount : Nat := if SingleOutput < 0 then env.outputs.length % UINT32_MOD else 1
      if OutputCount = 0 then
        { state := self, calls := c, ret := DUPL_RETURN_ERROR_EXPECTED,
          OutCount := OutputCount, DeskBounds := DeskBounds }
      else
        let Width := castUINT (DeskBounds.right - DeskBounds.left)
        let Height := castUINT (DeskBounds.bottom - DeskBounds.top)
        let c := c ++ [Call.CreateSharedTexture Width Height]
        if FAILED env.hrCreateTexture2D then
          { state := self, calls := c, ret := ProcessFailure env.hrCreateTexture2D tbl,
            OutCount := OutputCount, DeskBounds := DeskBounds }
        else
          let self := { self with m_SharedSurf := some (Width, Height) }
          if FAILED env.hrQueryInterfaceKeyedMutex then
            { state := self, calls := c, ret := ProcessFailure env.hrQueryInterfaceKeyedMutex none,
              OutCount := OutputCount, DeskBounds := DeskBounds }
          else
            { state := { self with m_KeyMutex := true }, calls := c, ret := DUPL_RETURN_SUCCESS,
              OutCount := OutputCount, DeskBounds := DeskBounds }

/-- Method `OUTPUTMANAGER::MakeRTV` (lines 1147-1164): the view is created on the texture
of `m_OutputSurfaces[m_OutputSurfaceIndex]`. -/
def OUTPUTMANAGER.MakeRTV (SystemTransitionsExpectedErrors : List HRESULT)
    (self : OUTPUTMANAGER) (hrCreateRenderTargetView : HRESULT) : Outcome :=
  let BackBuffer := (self.m_OutputSurfaces[self.m_OutputSurfaceIndex]?).map OutputSurface.surface
  let c := [Call.MakeRTV, Call.CreateRenderTargetView BackBuffer]
  if FAILED hrCreateRenderTargetView then
    { state := self, calls := c,
      ret := ProcessFailure hrCreateRenderTargetView (some SystemTransitionsExpectedErrors) }
  else
    let self := { self with m_RTV := BackBuffer }
    { state := self, calls := c ++ [Call.OMSetRenderTargets self.m_RTV], ret := DUPL_RETURN_SUCCESS }

/-- Answers of the device during one `InitShaders`. -/
structure InitShadersEnv where
  hrCreateVertexShader : HRESULT
  hrCreateInputLayout : HRESULT
  hrCreatePixelShader : HRESULT
  deriving DecidableEq, Repr

/-- Method `OUTPUTMANAGER::InitShaders` (lines 1110-1142); it writes none of the modelled
member variables. -/
def OUTPUTMANAGER.InitShaders (SystemTransitionsExpectedErrors : List HRESULT)
    (env : InitShadersEnv) : List Call × DUPL_RETURN :=
  let tbl := some SystemTransitionsExpectedErrors
  if FAILED env.hrCreateVertexShader then
    ([Call.InitShaders], ProcessFailure env.hrCreateVertexShader tbl)
  else if FAILED env.hrCreateInputLayout then
    ([Call.InitShaders], ProcessFailure env.hrCreateInputLayout tbl)
  else if FAILED env.hrCreatePixelShader then
    ([Call.InitShaders], ProcessFailure env.hrCreatePixelShader tbl)
  else
    ([Call.InitShaders], DUPL_RETURN_SUCCESS)

/-- Answers of the collaborators during one `InitOutput`. -/
structure InitEnv where
  openOutput : OpenOutputEnv
  sharedSurf : SharedSurfEnv
  hrCreateRenderTargetView : HRESULT
  hrCreateSamplerState : HRESULT
  hrCreateBlendState : HRESULT
  initShaders : InitShadersEnv

/-- Method `OUTPUTMANAGER::InitOutput` (lines 43-109). The value returned by `OpenOutput`
is not read by the source. -/
def OUTPUTMANAGER.InitOutput (SystemTransitionsExpectedErrors : List HRESULT)
    (self : OUTPUTMANAGER) (env : InitEnv) (SingleOutput : Int) (OutCount : Nat)
    (DeskBounds : RECT) : InitOutcome :=
  let tbl := some SystemTransitionsExpectedErrors
  let oo := self.OpenOutput SystemTransitionsExpectedErrors env.openOutput
  let ss := oo.state.CreateSharedSurf SystemTransitionsExpectedErrors env.sharedSurf SingleOutput
    OutCount DeskBounds
  let c := oo.calls ++ ss.calls
  if ss.ret ≠ DUPL_RETURN_SUCCESS then
    { ss with calls := c }
  else
    let rtv := ss.state.MakeRTV SystemTransitionsExpectedErrors env.hrCreateRenderTargetView
    let c := c ++ rtv.calls
    let out (self : OUTPUTMANAGER) (c : List Call) (Return : DUPL_RETURN) : InitOutcome :=
      { state := self, calls := c, ret := Return, OutCount := ss.OutCount,
        DeskBounds := ss.DeskBounds }
    if rtv.ret ≠ DUPL_RETURN_SUCCESS then
      out rtv.state c rtv.ret
    else
      let self := rtv.state
      let c := c ++ [Call.RSSetViewports self.m_DisplayWidth self.m_DisplayHeight,
        Call.CreateSamplerState]
      if FAILED env.hrCreateSamplerState then
        out self c (ProcessFailure env.hrCreateSamplerState tbl)
      else
        let c := c ++ [Call.CreateBlendState]
        if FAILED env.hrCreateBlendState then
          out self c (ProcessFailure env.hrCreateBlendState tbl)
        else
          let sh := OUTPUTMANAGER.InitShaders SystemTransitionsExpectedErrors env.initShaders
          out self (c ++ sh.1) sh.2

/-! ## Runs and projections of the call list -/

/-- The calls that `UpdateApplicationWindow` itself makes: the two keyed-mutex calls and
the entries into `DrawFrame`, `DrawMouse` and `Present`. -/
def Call.isOperation : Call → Bool
  | Call.AcquireSync _ _ => true
  | Call.ReleaseSync _ => true
  | Call.DrawFrame => true
  | Call.DrawMouse => true
  | Call.Present => true
  | _ => false

/-- The sequence of operations of a cycle: the calls list restricted to the calls that
`UpdateApplicationWindow` itself makes, in order. -/
def operations (calls : List Call) : List Call := calls.filter Call.isOperation

/-- The values of `m_OutputSurfaceIndex` used by `SetScanout`, in order. -/
def scanoutIndices : List Call → List Nat
  | [] => []
  | Call.SetScanout i :: cs => i :: scanoutIndices cs
  | _ :: cs => scanoutIndices cs

/-- The tasks handed to `ExecuteTask`, in order. -/
def executedTasks : List Call → List DisplayTask
  | [] => []
  | Call.ExecuteTask t :: cs => t :: executedTasks cs
  | _ :: cs => executedTasks cs

/-- The values handed to `Signal`, in order. -/
def signalledValues : List Call → List Nat
  | [] => []
  | Call.Signal v :: cs => v :: signalledValues cs
  | _ :: cs => signalledValues cs

/-- Consecutive `Present` calls, one per environment record: the outcome of each call. -/
def OUTPUTMANAGER.presentOutcomes (SystemTransitionsExpectedErrors : List HRESULT) :
    OUTPUTMANAGER → List PresentEnv → List Outcome
  | _, [] => []
  | self, env :: envs =>
    (self.Present SystemTransitionsExpectedErrors env) ::
      OUTPUTMANAGER.presentOutcomes SystemTransitionsExpectedErrors
        (self.Present SystemTransitionsExpectedErrors env).state envs

/-- Consecutive `Present` calls: the state after the last one. -/
def OUTPUTMANAGER.afterPresents (SystemTransitionsExpectedErrors : List HRESULT) :
    OUTPUTMANAGER → List PresentEnv → OUTPUTMANAGER
  | self, [] => self
  | self, env :: envs =>
    OUTPUTMANAGER.afterPresents SystemTransitionsExpectedErrors
      (self.Present SystemTransitionsExpectedErrors env).state envs

/-- Number of outcomes that returned `DUPL_RETURN_SUCCESS`. -/
def successes (os : List Outcome) : Nat :=
  (os.filter (fun o => decide (o.ret = DUPL_RETURN_SUCCESS))).length

/-- All calls of a list of outcomes, in order. -/
def allCalls (os : List Outcome) : List Call := (os.map Outcome.calls).flatten

/-- A call of one of the two per-cycle public methods, with the answers of the
collaborators during that call. -/
inductive MethodCall where
  | UpdateApplicationWindow (env : UpdateEnv) (PointerInfo : PTR_INFO)
  | WaitNextVBlank (env : VBlankEnv)
  deriving DecidableEq, Repr

/-- The manager state after one public method call. -/
def OUTPUTMANAGER.step (SystemTransitionsExpectedErrors : List HRESULT) (self : OUTPUTMANAGER) :
    MethodCall → OUTPUTMANAGER
  | MethodCall.UpdateApplicationWindow env PointerInfo =>
    (self.UpdateApplicationWindow SystemTransitionsExpectedErrors env PointerInfo).state
  | MethodCall.WaitNextVBlank env => (self.WaitNextVBlank SystemTransitionsExpectedErrors env).state

/-- The manager state after a sequence of public method calls. -/
def OUTPUTMANAGER.run (SystemTransitionsExpectedErrors : List HRESULT) :
    OUTPUTMANAGER → List MethodCall → OUTPUTMANAGER
  | self, [] => self
  | self, m :: ms =>
    OUTPUTMANAGER.run SystemTransitionsExpectedErrors
      (self.step SystemTransitionsExpectedErrors m) ms

/-- The manager state that `InitOutput` leaves when called on a freshly constructed
manager. -/
def OUTPUTMANAGER.afterInit (SystemTransitionsExpectedErrors : List HRESULT) (env : InitEnv)
    (SingleOutput : Int) (OutCount : Nat) (DeskBounds : RECT) : OUTPUTMANAGER :=
  (OUTPUTMANAGER.new.InitOutput SystemTransitionsExpectedErrors env SingleOutput OutCount
    DeskBounds).state

/-! ## Sample inputs -/

/-- A 2x2 colour pointer at (10, 10), visible. -/
def samplePointer : PTR_INFO :=
  { PtrShapeBuffer := List.replicate 16 255
    ShapeInfo := { ShapeType := DXGI_OUTDUPL_POINTER_SHAPE_TYPE_COLOR, Width := 2, Height := 2,
                   Pitch := 8 }
    Position := { x := 10, y := 10 }
    Visible := true }

/-- Collaborator answers for `ProcessMonoMask` in which every call succeeds. -/
def sampleMonoMaskEnv : MonoMaskEnv :=
  { hrCreateTexture2D := S_OK, hrQueryInterface := S_OK, hrMap := S_OK, pBits := [], Pitch := 0,
    allocated := true, hrUnmap := S_OK }

/-- Collaborator answers for `DrawMouse` in which every call succeeds. -/
def sampleDrawMouseEnv : DrawMouseEnv :=
  { monoMask := sampleMonoMaskEnv, hrCreateTexture2D := S_OK, hrCreateShaderResourceView := S_OK,
    hrCreateBuffer := S_OK }

/-- Collaborator answers for one cycle in which every call succeeds. -/
def sampleUpdateEnv : UpdateEnv :=
  { hrAcquireSync := S_OK
    drawFrame := { hrCreateShaderResourceView := S_OK, hrCreateBuffer := S_OK }
    drawMouse := sampleDrawMouseEnv
    hrReleaseSync := S_OK
    present := { hrSignal := S_OK } }

/-- Collaborator answers for `InitOutput` in which every call succeeds, with one
1920x1080 desktop output and a 2160x1200 display. -/
def sampleInitEnv : InitEnv :=
  { openOutput :=
      { targetFound := true, hrCreateEmptyState := S_OK, bestMode := true, hrApply := S_OK,
        hrReadCurrentState := S_OK, hrCreateDXGIFactory2 := S_OK, hrEnumAdapterByLuid := S_OK,
        hrD3D11CreateDevice := S_OK, sourceResolution := (2160, 1200),
        hrCreateSharedHandle := fun _ => S_OK, hrOpenSharedResource1 := fun _ => S_OK,
        hrCreateFence := S_OK, hrFenceCreateSharedHandle := S_OK, hrOpenSharedHandle := S_OK,
        hrVBlankCreateSharedHandle := S_OK, hrOpenSharedFence := S_OK }
    sharedSurf :=
      { hrQueryInterfaceDevice := S_OK, hrGetParent := S_OK,
        outputs := [{ left := 0, top := 0, right := 1920, bottom := 1080 }],
        hrCreateTexture2D := S_OK, hrQueryInterfaceKeyedMutex := S_OK }
    hrCreateRenderTargetView := S_OK
    hrCreateSamplerState := S_OK
    hrCreateBlendState := S_OK
    initShaders := { hrCreateVertexShader := S_OK, hrCreateInputLayout := S_OK,
                     hrCreatePixelShader := S_OK } }

/-- The manager state that `InitOutput` leaves with `sampleInitEnv`. -/
def sampleManager : OUTPUTMANAGER :=
  (OUTPUTMANAGER.new.InitOutput [] sampleInitEnv (-1) 0
    { left := 0, top := 0, right := 0, bottom := 0 }).state

/-- Value `0x80004005` read as a signed 32-bit integer. -/
def E_FAIL : HRESULT := -2147467259

/-- The shape height used for clipping: half the stated height for a monochrome shape
(the buffer holds the AND mask followed by the XOR mask), the stated height otherwise. -/
def logicalHeight (IsMono : Bool) (Height : Nat) : Nat := if IsMono then Height / 2 else Height

/-- The sample manager with an 800x600 shared desktop texture. -/
def desktop800x600 : OUTPUTMANAGER := { sampleManager with m_SharedSurf := some (800, 600) }

/-- A monochrome 16x32 pointer (logical height 16, two mask bytes per row) at (-5, 590). -/
def monoPointer16x32 : PTR_INFO :=
  { PtrShapeBuffer := List.replicate 64 0
    ShapeInfo := { ShapeType := DXGI_OUTDUPL_POINTER_SHAPE_TYPE_MONOCHROME, Width := 16,
                   Height := 32, Pitch := 2 }
    Position := { x := -5, y := 590 }
    Visible := true }

/-- A masked-colour 32x32 pointer lying to the left of the desktop, at (-40, 10). -/
def maskedPointerOutside : PTR_INFO :=
  { PtrShapeBuffer := List.replicate 4096 0
    ShapeInfo := { ShapeType := DXGI_OUTDUPL_POINTER_SHAPE_TYPE_MASKED_COLOR, Width := 32,
                   Height := 32, Pitch := 128 }
    Position := { x := -40, y := 10 }
    Visible := true }

/-- A masked-colour pointer 1000 pixels wide that starts left of an 800 pixel wide desktop
and ends right of it. -/
def maskedPointerWide : PTR_INFO :=
  { PtrShapeBuffer := []
    ShapeInfo := { ShapeType := DXGI_OUTDUPL_POINTER_SHAPE_TYPE_MASKED_COLOR, Width := 1000,
                   Height := 32, Pitch := 4000 }
    Position := { x := -100, y := 10 }
    Visible := true }

/-- A colour 32x32 pointer at (100, 100). -/
def colorPointer32x32 : PTR_INFO :=
  { PtrShapeBuffer := List.replicate 4096 255
    ShapeInfo := { ShapeType := DXGI_OUTDUPL_POINTER_SHAPE_TYPE_COLOR, Width := 32, Height := 32,
                   Pitch := 128 }
    Position := { x := 100, y := 100 }
    Visible := true }

/-- A monochrome pointer two pixels wide and two high (stated height 4, one mask byte per
row): AND rows `00`, `FF`, XOR rows `00`, `C0`; at (10, 10). -/
def monoPointer2x2 : PTR_INFO :=
  { PtrShapeBuffer := [0x00, 0xFF, 0x00, 0xC0]
    ShapeInfo := { ShapeType := DXGI_OUTDUPL_POINTER_SHAPE_TYPE_MONOCHROME, Width := 2,
                   Height := 4, Pitch := 1 }
    Position := { x := 10, y := 10 }
    Visible := true }

/-- Collaborator answers for `ProcessMonoMask` with a mapped 2x2 background of row pitch 8
bytes, every call succeeding. -/
def monoMaskEnv2x2 : MonoMaskEnv :=
  { sampleMonoMaskEnv with
    pBits := [0x11223344, 0x55667788, 0x01020304, 0x05060708], Pitch := 8 }

/-! ## The decode in the words of the specification -/

/-- The row pitch of the mapped staging surface in pixels, `DesktopPitchInPixels`
(line 842). -/
def DesktopPitchInPixels (env : MonoMaskEnv) : Nat := (castSIZE_T env.Pitch / 4) % UINT32_MOD

/-- The monochrome output pixel for row `r`, column `c`, following the specification:
`(background AND A) XOR X`, where `A` is `0xFFFFFFFF` if the AND bit is set and
`0xFF000000` if not, `X` is `0x00FFFFFF` if the XOR bit is set and 0 if not, the AND bit
is bit `7 - ((c + SkipX) mod 8)` of the shape byte `(c + SkipX) / 8 + (r + SkipY) * Pitch`,
and the XOR bit is the same bit of the byte `(Height / 2) * Pitch` further on. -/
def monoPixel (shape : List Nat) (background : Nat) (Pitch Height SkipX SkipY r c : Nat) : Nat :=
  let byte := (c + SkipX) / 8 + (r + SkipY) * Pitch
  let bit := 7 - (c + SkipX) % 8
  let A := if (shape.getD byte 0).testBit bit then 0xFFFFFFFF else 0xFF000000
  let X := if (shape.getD (byte + (Height / 2) * Pitch) 0).testBit bit then 0x00FFFFFF else 0
  (background &&& A) ^^^ X

/-- The 32-bit shape pixel number `i` of the shape buffer, bytes in little-endian order. -/
def shapePixel (shape : List Nat) (i : Nat) : Nat :=
  shape.getD (4 * i) 0 + 256 * shape.getD (4 * i + 1) 0 + 65536 * shape.getD (4 * i + 2) 0
    + 16777216 * shape.getD (4 * i + 3) 0

/-- The top byte (bits 24 to 31) of a 32-bit pixel. -/
def topByte (s : Nat) : Nat := s / 2 ^ 24 % 256

/-- The masked-colour output pixel for row `r`, column `c`, following the specification:
with `s` the shape pixel at `(c + SkipX) + (r + SkipY) * (Pitch / 4)`, it is
`(background XOR s) OR 0xFF000000` when the top byte of `s` is nonzero and
`s OR 0xFF000000` when it is zero. -/
def maskedPixel (shape : List Nat) (background : Nat) (Pitch SkipX SkipY r c : Nat) : Nat :=
  let s := shapePixel shape ((c + SkipX) + (r + SkipY) * (Pitch / 4))
  if topByte s ≠ 0 then (background ^^^ s) ||| 0xFF000000 else s ||| 0xFF000000

/-- The reads of the monochrome decode for row `r`, column `c` stay inside their buffers:
the XOR mask byte (which lies beyond the AND mask byte) inside the shape buffer, the
background word inside the mapped surface. -/
def monoReadsInBounds (shape Desktop32 : List Nat) (Pitch Height dp SkipX SkipY r c : Nat) :
    Prop :=
  (c + SkipX) / 8 + (r + SkipY) * Pitch + (Height / 2) * Pitch < shape.length ∧
  r * dp + c < Desktop32.length

/-- The reads of the masked-colour decode for row `r`, column `c` stay inside their
buffers: the four bytes of the shape pixel inside the shape buffer, the background word
inside the mapped surface. -/
def maskedReadsInBounds (shape Desktop32 : List Nat) (Pitch dp SkipX SkipY r c : Nat) : Prop :=
  4 * ((c + SkipX) + (r + SkipY) * (Pitch / 4)) + 3 < shape.length ∧
  r * dp + c < Desktop32.length

/-- A masked-colour pointer two pixels wide and two high, eight bytes per row: pixels
`0x11223344`, `0x00223344`, `0xFF030201`, `0x00090909`; at (10, 10). -/
def maskedPointer2x2 : PTR_INFO :=
  { PtrShapeBuffer := [0x44, 0x33, 0x22, 0x11, 0x44, 0x33, 0x22, 0x00,
                       0x01, 0x02, 0x03, 0xFF, 0x09, 0x09, 0x09, 0x00]
    ShapeInfo := { ShapeType := DXGI_OUTDUPL_POINTER_SHAPE_TYPE_MASKED_COLOR, Width := 2,
                   Height := 2, Pitch := 8 }
    Position := { x := 10, y := 10 }
    Visible := true }

/-- A monochrome pointer two pixels wide and two high whose AND mask and XOR mask are
all zero (one byte per mask row); at (10, 10). -/
def monoPointerNull2x2 : PTR_INFO :=
  { PtrShapeBuffer := [0x00, 0x00, 0x00, 0x00]
    ShapeInfo := { ShapeType := DXGI_OUTDUPL_POINTER_SHAPE_TYPE_MONOCHROME, Width := 2,
                   Height := 4, Pitch := 1 }
    Position := { x := 10, y := 10 }
    Visible := true }

/-- The staging surface of `monoMaskEnv2x2` holding the words that resolving
`monoPointerNull2x2` over it leaves. -/
def monoMaskEnvResolved2x2 : MonoMaskEnv :=
  { monoMaskEnv2x2 with pBits := [0x11000000, 0x55000000, 0x01000000, 0x05000000] }

/-- The staging surface of `monoMaskEnv2x2` with an all-zero background. -/
def monoMaskEnvBlack2x2 : MonoMaskEnv :=
  { monoMaskEnv2x2 with pBits := [0, 0, 0, 0] }

/-- A monochrome pointer with the odd stated height 5 (two rows per mask and one byte
left over); at (10, 10). -/
def monoPointerOddHeight : PTR_INFO :=
  { PtrShapeBuffer := [0x00, 0xFF, 0x00, 0xC0, 0x00]
    ShapeInfo := { ShapeType := DXGI_OUTDUPL_POINTER_SHAPE_TYPE_MONOCHROME, Width := 2,
                   Height := 5, Pitch := 1 }
    Position := { x := 10, y := 10 }
    Visible := true }

/-! ## Vertex positions of the cursor quad -/

/-- The members `Pos.x` and `Pos.y` of a `VERTEX`. The source holds them as `FLOAT`; here
every `FLOAT` operation is read as exact rational arithmetic. -/
structure VertexPos where
  x : ℚ
  y : ℚ
  deriving DecidableEq

/-- The six vertex positions that `DrawMouse` computes (lines 939-946 and 1007-1019) from
the clipped cursor rectangle. `CenterX` and `CenterY` are `INT` quotients (truncating), the
numerators are `INT` expressions, and each quotient by `(FLOAT)CenterX` or
`(FLOAT)CenterY` is read as an exact rational quotient (for a zero centre the quotient is
not a rational number; the value 0 stands for it). -/
def OUTPUTMANAGER.DrawMouse.Vertices (self : OUTPUTMANAGER)
    (PtrLeft PtrTop PtrWidth PtrHeight : Int) : List VertexPos :=
  let FullDesc := self.m_SharedSurf.getD (0, 0)
  let DesktopWidth : Int := castINT FullDesc.1
  let DesktopHeight : Int := castINT FullDesc.2
  let CenterX : Int := Int.tdiv DesktopWidth 2
  let CenterY : Int := Int.tdiv DesktopHeight 2
  let v0 : VertexPos :=
    { x := ((PtrLeft - CenterX : Int) : ℚ) / (CenterX : ℚ)
      y := ((-1 * ((PtrTop + PtrHeight) - CenterY) : Int) : ℚ) / (CenterY : ℚ) }
  let v1 : VertexPos :=
    { x := ((PtrLeft - CenterX : Int) : ℚ) / (CenterX : ℚ)
      y := ((-1 * (PtrTop - CenterY) : Int) : ℚ) / (CenterY : ℚ) }
  let v2 : VertexPos :=
    { x := (((PtrLeft + PtrWidth) - CenterX : Int) : ℚ) / (CenterX : ℚ)
      y := ((-1 * ((PtrTop + PtrHeight) - CenterY) : Int) : ℚ) / (CenterY : ℚ) }
  let v3 : VertexPos := { x := v2.x, y := v2.y }
  let v4 : VertexPos := { x := v1.x, y := v1.y }
  let v5 : VertexPos :=
    { x := (((PtrLeft + PtrWidth) - CenterX : Int) : ℚ) / (CenterX : ℚ)
      y := ((-1 * (PtrTop - CenterY) : Int) : ℚ) / (CenterY : ℚ) }
  [v0, v1, v2, v3, v4, v5]

/-- The vertex positions of one `DrawMouse`: `Vertices` at the rectangle that the `switch`
on the shape type leaves. -/
def OUTPUTMANAGER.DrawMouse.vertexPositions (SystemTransitionsExpectedErrors : List HRESULT)
    (self : OUTPUTMANAGER) (env : DrawMouseEnv) (PtrInfo : PTR_INFO) : List VertexPos :=
  let sh := OUTPUTMANAGER.DrawMouse.shape SystemTransitionsExpectedErrors self env PtrInfo
  OUTPUTMANAGER.DrawMouse.Vertices self sh.PtrLeft sh.PtrTop sh.PtrWidth sh.PtrHeight

/-- The device X coordinate of the screen column `px`, following the specification:
`(px - CenterX) / CenterX`. -/
def deviceX (CenterX px : Int) : ℚ := ((px : ℚ) - (CenterX : ℚ)) / (CenterX : ℚ)

/-- The device Y coordinate of the screen row `py`, following the specification:
`-(py - CenterY) / CenterY`. -/
def deviceY (CenterY py : Int) : ℚ := -((py : ℚ) - (CenterY : ℚ)) / (CenterY : ℚ)

/-- The manager state of `sampleManager` with a desktop 801 pixels wide and 600 high. -/
def desktop801x600 : OUTPUTMANAGER := { sampleManager with m_SharedSurf := some (801, 600) }

/-- A colour pointer 32 pixels wide and high whose right edge is the right edge of the
801x600 desktop; at (769, 0). -/
def colorPointerAtRightEdge : PTR_INFO :=
  { colorPointer32x32 with Position := { x := 769, y := 0 } }

/-! ## Theorems -/

/-- A value returned by `ProcessFailure` is never `DUPL_RETURN_SUCCESS`. -/
theorem ProcessFailure_ne_success (hr : HRESULT) (ExpectedErrors : Option (List HRESULT)) :
    ProcessFailure hr ExpectedErrors ≠ DUPL_RETURN_SUCCESS := by
  unfold ProcessFailure
  cases ExpectedErrors with
  | none => simp
  | some tbl => by_cases h : hr ∈ tbl <;> simp [h]

/-- On an acquire timeout `UpdateApplicationWindow` does nothing but the acquire. -/
theorem UpdateApplicationWindow_timeout_eq (tbl : List HRESULT) (self : OUTPUTMANAGER)
    (env : UpdateEnv) (PointerInfo : PTR_INFO)
    (h : env.hrAcquireSync = castHRESULT WAIT_TIMEOUT) :
    self.UpdateApplicationWindow tbl env PointerInfo =
      { state := self, calls := [Call.AcquireSync 1 100], ret := DUPL_RETURN_SUCCESS,
        PointerInfo := PointerInfo } := by
  simp [OUTPUTMANAGER.UpdateApplicationWindow, h]

/-- On an acquire failure `UpdateApplicationWindow` returns right after the acquire. -/
theorem UpdateApplicationWindow_failed_eq (tbl : List HRESULT) (self : OUTPUTMANAGER)
    (env : UpdateEnv) (PointerInfo : PTR_INFO)
    (hne : env.hrAcquireSync ≠ castHRESULT WAIT_TIMEOUT) (hf : FAILED env.hrAcquireSync = true) :
    self.UpdateApplicationWindow tbl env PointerInfo =
      { state := self, calls := [Call.AcquireSync 1 100],
        ret := ProcessFailure env.hrAcquireSync (some tbl), PointerInfo := PointerInfo } := by
  simp [OUTPUTMANAGER.UpdateApplicationWindow, hne, hf]

/-- C1: when `AcquireSync(1, 100)` returns `WAIT_TIMEOUT`, `UpdateApplicationWindow`
returns `DUPL_RETURN_SUCCESS`; the acquire is the only call it makes, so there is no
`DrawFrame`, `DrawMouse`, `ReleaseSync` or `Present`; the manager state, and with it the
render-fence counter and the output-surface index, is unchanged. -/
theorem C1_acquire_timeout_skips_cycle (tbl : List HRESULT) (self : OUTPUTMANAGER)
    (env : UpdateEnv) (PointerInfo : PTR_INFO)
    (h : env.hrAcquireSync = castHRESULT WAIT_TIMEOUT) :
    (self.UpdateApplicationWindow tbl env PointerInfo).ret = DUPL_RETURN_SUCCESS ∧
    (self.UpdateApplicationWindow tbl env PointerInfo).calls = [Call.AcquireSync 1 100] ∧
    Call.DrawFrame ∉ (self.UpdateApplicationWindow tbl env PointerInfo).calls ∧
    Call.DrawMouse ∉ (self.UpdateApplicationWindow tbl env PointerInfo).calls ∧
    (∀ Key, Call.ReleaseSync Key ∉ (self.UpdateApplicationWindow tbl env PointerInfo).calls) ∧
    Call.Present ∉ (self.UpdateApplicationWindow tbl env PointerInfo).calls ∧
    (self.UpdateApplicationWindow tbl env PointerInfo).state.m_DisplayFenceValue
      = self.m_DisplayFenceValue ∧
    (self.UpdateApplicationWindow tbl env PointerInfo).state.m_OutputSurfaceIndex
      = self.m_OutputSurfaceIndex ∧
    (self.UpdateApplicationWindow tbl env PointerInfo).state = self := by
  rw [UpdateApplicationWindow_timeout_eq tbl self env PointerInfo h]
  simp

/-- C1 at a concrete input: the sample manager, the acquire answering `WAIT_TIMEOUT`. -/
theorem C1_acquire_timeout_skips_cycle_witness :
    ({ sampleUpdateEnv with hrAcquireSync := 258 } : UpdateEnv).hrAcquireSync
      = castHRESULT WAIT_TIMEOUT ∧
    (sampleManager.UpdateApplicationWindow []
        { sampleUpdateEnv with hrAcquireSync := 258 } samplePointer).calls
      = [Call.AcquireSync 1 100] :=
  ⟨by decide,
   (C1_acquire_timeout_skips_cycle [] sampleManager { sampleUpdateEnv with hrAcquireSync := 258 }
      samplePointer (by decide)).2.1⟩

/-- C2: when `AcquireSync` fails with an HRESULT other than `WAIT_TIMEOUT`,
`UpdateApplicationWindow` returns the `ProcessFailure` result, which is not
`DUPL_RETURN_SUCCESS`; the call list is the single acquire (one attempt, no retry, no
`DrawFrame`, `DrawMouse`, `ReleaseSync` or `Present`) and the manager state is unchanged. -/
theorem C2_acquire_failure_propagates (tbl : List HRESULT) (self : OUTPUTMANAGER)
    (env : UpdateEnv) (PointerInfo : PTR_INFO)
    (hf : FAILED env.hrAcquireSync = true)
    (hne : env.hrAcquireSync ≠ castHRESULT WAIT_TIMEOUT) :
    (self.UpdateApplicationWindow tbl env PointerInfo).ret
      = ProcessFailure env.hrAcquireSync (some tbl) ∧
    (self.UpdateApplicationWindow tbl env PointerInfo).ret ≠ DUPL_RETURN_SUCCESS ∧
    (self.UpdateApplicationWindow tbl env PointerInfo).calls = [Call.AcquireSync 1 100] ∧
    ((self.UpdateApplicationWindow tbl env PointerInfo).calls.filter
      (fun c => match c with | Call.AcquireSync _ _ => true | _ => false)).length = 1 ∧
    Call.DrawFrame ∉ (self.UpdateApplicationWindow tbl env PointerInfo).calls ∧
    Call.DrawMouse ∉ (self.UpdateApplicationWindow tbl env PointerInfo).calls ∧
    (∀ Key, Call.ReleaseSync Key ∉ (self.UpdateApplicationWindow tbl env PointerInfo).calls) ∧
    Call.Present ∉ (self.UpdateApplicationWindow tbl env PointerInfo).calls ∧
    (self.UpdateApplicationWindow tbl env PointerInfo).state = self := by
  rw [UpdateApplicationWindow_failed_eq tbl self env PointerInfo hne hf]
  simp [ProcessFailure_ne_success]

/-- C2 at a concrete input: the acquire answering `E_UNEXPECTED`. -/
theorem C2_acquire_failure_propagates_witness :
    FAILED ({ sampleUpdateEnv with hrAcquireSync := E_UNEXPECTED } : UpdateEnv).hrAcquireSync
      = true ∧
    (sampleManager.UpdateApplicationWindow []
        { sampleUpdateEnv with hrAcquireSync := E_UNEXPECTED } samplePointer).ret
      ≠ DUPL_RETURN_SUCCESS :=
  ⟨by decide,
   (C2_acquire_failure_propagates [] sampleManager
      { sampleUpdateEnv with hrAcquireSync := E_UNEXPECTED } samplePointer
      (by decide) (by decide)).2.1⟩

/-- The operations of a concatenation are the concatenation of the operations. -/
theorem operations_append (a b : List Call) :
    operations (a ++ b) = operations a ++ operations b := by
  simp [operations]

/-- The empty call list has no operations. -/
theorem operations_nil : operations [] = [] := rfl

/-- The operations of a call list with one more call in front. -/
theorem operations_cons (c : Call) (cs : List Call) :
    operations (c :: cs) = if c.isOperation = true then c :: operations cs else operations cs := by
  simp [operations, List.filter_cons]

/-- An operation occurs in a call list exactly if it occurs among its operations. -/
theorem mem_operations (c : Call) (calls : List Call) (hc : c.isOperation = true) :
    c ∈ operations calls ↔ c ∈ calls := by
  simp [operations, List.mem_filter, hc]

/-- An operation occurs as often in a call list as among its operations. -/
theorem count_operations (c : Call) (calls : List Call) (hc : c.isOperation = true) :
    (operations calls).count c = calls.count c := by
  unfold operations
  induction calls with
  | nil => rfl
  | cons d ds ih =>
    by_cases hd : d.isOperation = true
    · rw [List.filter_cons_of_pos hd, List.count_cons, List.count_cons, ih]
    · rw [List.filter_cons_of_neg hd, List.count_cons, ih]
      have : (d == c) = false := by
        apply beq_false_of_ne
        intro h
        exact hd (h ▸ hc)
      simp [this]

/-- The only operation among the calls of `DrawFrame` is its entry. -/
theorem operations_DrawFrame (tbl : List HRESULT) (self : OUTPUTMANAGER) (env : DrawFrameEnv) :
    operations (self.DrawFrame tbl env).1 = [Call.DrawFrame] := by
  unfold OUTPUTMANAGER.DrawFrame
  split_ifs <;> rfl

/-- There is no operation among the calls of `ProcessMonoMask`. -/
theorem operations_ProcessMonoMask (tbl : List HRESULT) (self : OUTPUTMANAGER) (env : MonoMaskEnv)
    (IsMono : Bool) (PtrInfo : PTR_INFO) :
    operations (self.ProcessMonoMask tbl env IsMono PtrInfo).calls = [] := by
  unfold OUTPUTMANAGER.ProcessMonoMask
  generalize OUTPUTMANAGER.ProcessMonoMask.clip self IsMono PtrInfo = k
  dsimp only
  split_ifs <;> rfl

/-- There is no operation among the calls of the shape `switch` of `DrawMouse`. -/
theorem operations_DrawMouse_shape (tbl : List HRESULT) (self : OUTPUTMANAGER) (env : DrawMouseEnv)
    (PtrInfo : PTR_INFO) :
    operations (OUTPUTMANAGER.DrawMouse.shape tbl self env PtrInfo).calls = [] := by
  unfold OUTPUTMANAGER.DrawMouse.shape
  split_ifs
  · rfl
  · exact operations_ProcessMonoMask tbl self env.monoMask _ PtrInfo
  · rfl

/-- The only operation among the calls of `DrawMouse` is its entry. -/
theorem operations_DrawMouse (tbl : List HRESULT) (self : OUTPUTMANAGER) (env : DrawMouseEnv)
    (PtrInfo : PTR_INFO) :
    operations (self.DrawMouse tbl env PtrInfo).2.1 = [Call.DrawMouse] := by
  have hs := operations_DrawMouse_shape tbl self env PtrInfo
  unfold OUTPUTMANAGER.DrawMouse
  simp only
  split_ifs <;> simp only [operations_append, hs] <;> rfl

/-- The only operation among the calls of `Present` is its entry. -/
theorem operations_Present (tbl : List HRESULT) (self : OUTPUTMANAGER) (env : PresentEnv) :
    operations (self.Present tbl env).calls = [Call.Present] := by
  unfold OUTPUTMANAGER.Present
  simp only
  split_ifs <;> rfl

/-- C3 (as stated) fails: in the sample cycle the acquire, `DrawFrame`, `DrawMouse` and the
release all succeed and the operations are the expected five, but the fence `Signal`
inside `Present` fails and `UpdateApplicationWindow` does not return success. -/
theorem C3_counterexample_signal_fails :
    ({ sampleUpdateEnv with present := { hrSignal := E_UNEXPECTED } } : UpdateEnv).hrAcquireSync
      ≠ castHRESULT WAIT_TIMEOUT ∧
    FAILED ({ sampleUpdateEnv with present := { hrSignal := E_UNEXPECTED } } : UpdateEnv).hrAcquireSync
      = false ∧
    (sampleManager.DrawFrame [] sampleUpdateEnv.drawFrame).2 = DUPL_RETURN_SUCCESS ∧
    (sampleManager.DrawMouse [] sampleUpdateEnv.drawMouse samplePointer).2.2
      = DUPL_RETURN_SUCCESS ∧
    FAILED ({ sampleUpdateEnv with present := { hrSignal := E_UNEXPECTED } } : UpdateEnv).hrReleaseSync
      = false ∧
    operations (sampleManager.UpdateApplicationWindow []
        { sampleUpdateEnv with present := { hrSignal := E_UNEXPECTED } } samplePointer).calls
      = [Call.AcquireSync 1 100, Call.DrawFrame, Call.DrawMouse, Call.ReleaseSync 0, Call.Present] ∧
    (sampleManager.UpdateApplicationWindow []
        { sampleUpdateEnv with present := { hrSignal := E_UNEXPECTED } } samplePointer).ret
      ≠ DUPL_RETURN_SUCCESS := by
  decide

/-- C3 (amended): for every pointer state, when the acquire, the draws and the release all
succeed, the operations of `UpdateApplicationWindow` are exactly `AcquireSync(1, 100)`,
`DrawFrame`, `DrawMouse` (present if and only if `PointerInfo.Visible`), `ReleaseSync(0)`,
`Present`, in that order, and the call returns what `Present` returns: success when the
fence `Signal` of `Present` succeeds. -/
theorem C3_cycle_operation_sequence (tbl : List HRESULT) (self : OUTPUTMANAGER)
    (env : UpdateEnv) (PointerInfo : PTR_INFO)
    (hA1 : env.hrAcquireSync ≠ castHRESULT WAIT_TIMEOUT)
    (hA2 : FAILED env.hrAcquireSync = false)
    (hF : (self.DrawFrame tbl env.drawFrame).2 = DUPL_RETURN_SUCCESS)
    (hM : PointerInfo.Visible = true →
      (self.DrawMouse tbl env.drawMouse PointerInfo).2.2 = DUPL_RETURN_SUCCESS)
    (hR : FAILED env.hrReleaseSync = false) :
    operations (self.UpdateApplicationWindow tbl env PointerInfo).calls
      = [Call.AcquireSync 1 100, Call.DrawFrame]
        ++ (if PointerInfo.Visible then [Call.DrawMouse] else [])
        ++ [Call.ReleaseSync 0, Call.Present] ∧
    (Call.DrawMouse ∈ (self.UpdateApplicationWindow tbl env PointerInfo).calls
      ↔ PointerInfo.Visible = true) ∧
    (self.UpdateApplicationWindow tbl env PointerInfo).ret = (self.Present tbl env.present).ret ∧
    (FAILED env.present.hrSignal = false →
      (self.UpdateApplicationWindow tbl env PointerInfo).ret = DUPL_RETURN_SUCCESS) := by
  have hops : operations (self.UpdateApplicationWindow tbl env PointerInfo).calls
      = [Call.AcquireSync 1 100, Call.DrawFrame]
        ++ (if PointerInfo.Visible then [Call.DrawMouse] else [])
        ++ [Call.ReleaseSync 0, Call.Present] := by
    cases hV : PointerInfo.Visible with
    | false =>
      simp [OUTPUTMANAGER.UpdateApplicationWindow, hA1, hA2, hF, hR, hV, operations_append,
        operations_cons, Call.isOperation, operations_DrawFrame, operations_Present]
    | true =>
      have hM2 := hM hV
      simp [OUTPUTMANAGER.UpdateApplicationWindow, hA1, hA2, hF, hR, hV, hM2, operations_append,
        operations_cons, Call.isOperation, operations_DrawFrame, operations_DrawMouse,
        operations_Present]
  have hret : (self.UpdateApplicationWindow tbl env PointerInfo).ret
      = (self.Present tbl env.present).ret := by
    cases hV : PointerInfo.Visible with
    | false => simp [OUTPUTMANAGER.UpdateApplicationWindow, hA1, hA2, hF, hR, hV]
    | true =>
      have hM2 := hM hV
      simp [OUTPUTMANAGER.UpdateApplicationWindow, hA1, hA2, hF, hR, hV, hM2]
  refine ⟨hops, ?_, hret, ?_⟩
  · rw [← mem_operations Call.DrawMouse _ rfl, hops]
    cases PointerInfo.Visible <;> simp
  · intro hS
    rw [hret]
    simp [OUTPUTMANAGER.Present, hS]

/-- C3 (amended) at a concrete input: the sample cycle, in which every call succeeds. -/
theorem C3_cycle_operation_sequence_witness :
    operations (sampleManager.UpdateApplicationWindow [] sampleUpdateEnv samplePointer).calls
      = [Call.AcquireSync 1 100, Call.DrawFrame]
        ++ (if samplePointer.Visible then [Call.DrawMouse] else [])
        ++ [Call.ReleaseSync 0, Call.Present] :=
  (C3_cycle_operation_sequence [] sampleManager sampleUpdateEnv samplePointer
    (by decide) (by decide) (by decide) (fun _ => by decide) (by decide)).1

/-- C4: when the acquire succeeds and `DrawFrame` fails, or `DrawFrame` succeeds and
`DrawMouse` (called because the pointer is visible) fails: `DrawMouse` is not called after
a failed `DrawFrame`; `ReleaseSync(0)` is called exactly once; `Present` is not called and
the manager state, with the render-fence counter and the output-surface index, is
unchanged; and if the release succeeds the value returned is that of the failing draw. -/
theorem C4_draw_failure_releases_and_skips_present (tbl : List HRESULT) (self : OUTPUTMANAGER)
    (env : UpdateEnv) (PointerInfo : PTR_INFO)
    (hA1 : env.hrAcquireSync ≠ castHRESULT WAIT_TIMEOUT)
    (hA2 : FAILED env.hrAcquireSync = false)
    (hD : (self.DrawFrame tbl env.drawFrame).2 ≠ DUPL_RETURN_SUCCESS ∨
      ((self.DrawFrame tbl env.drawFrame).2 = DUPL_RETURN_SUCCESS ∧ PointerInfo.Visible = true ∧
        (self.DrawMouse tbl env.drawMouse PointerInfo).2.2 ≠ DUPL_RETURN_SUCCESS)) :
    ((self.DrawFrame tbl env.drawFrame).2 ≠ DUPL_RETURN_SUCCESS →
      Call.DrawMouse ∉ (self.UpdateApplicationWindow tbl env PointerInfo).calls) ∧
    operations (self.UpdateApplicationWindow tbl env PointerInfo).calls
      = [Call.AcquireSync 1 100, Call.DrawFrame]
        ++ (if (self.DrawFrame tbl env.drawFrame).2 = DUPL_RETURN_SUCCESS then [Call.DrawMouse]
            else [])
        ++ [Call.ReleaseSync 0] ∧
    (self.UpdateApplicationWindow tbl env PointerInfo).calls.count (Call.ReleaseSync 0) = 1 ∧
    Call.Present ∉ (self.UpdateApplicationWindow tbl env PointerInfo).calls ∧
    (self.UpdateApplicationWindow tbl env PointerInfo).state.m_DisplayFenceValue
      = self.m_DisplayFenceValue ∧
    (self.UpdateApplicationWindow tbl env PointerInfo).state.m_OutputSurfaceIndex
      = self.m_OutputSurfaceIndex ∧
    (self.UpdateApplicationWindow tbl env PointerInfo).state = self ∧
    (FAILED env.hrReleaseSync = false →
      (self.UpdateApplicationWindow tbl env PointerInfo).ret
        = if (self.DrawFrame tbl env.drawFrame).2 = DUPL_RETURN_SUCCESS
          then (self.DrawMouse tbl env.drawMouse PointerInfo).2.2
          else (self.DrawFrame tbl env.drawFrame).2) := by
  have hops : operations (self.UpdateApplicationWindow tbl env PointerInfo).calls
      = [Call.AcquireSync 1 100, Call.DrawFrame]
        ++ (if (self.DrawFrame tbl env.drawFrame).2 = DUPL_RETURN_SUCCESS then [Call.DrawMouse]
            else [])
        ++ [Call.ReleaseSync 0] := by
    rcases hD with hF | ⟨hF, hV, hM⟩
    · by_cases hR : FAILED env.hrReleaseSync = true <;>
        simp [OUTPUTMANAGER.UpdateApplicationWindow, hA1, hA2, hF, hR, operations_append,
          operations_cons, operations_nil, Call.isOperation, operations_DrawFrame]
    · by_cases hR : FAILED env.hrReleaseSync = true <;>
        simp [OUTPUTMANAGER.UpdateApplicationWindow, hA1, hA2, hF, hV, hM, hR, operations_append,
          operations_cons, operations_nil, Call.isOperation, operations_DrawFrame,
          operations_DrawMouse]
  have hstate : (self.UpdateApplicationWindow tbl env PointerInfo).state = self := by
    rcases hD with hF | ⟨hF, hV, hM⟩
    · by_cases hR : FAILED env.hrReleaseSync = true <;>
        simp [OUTPUTMANAGER.UpdateApplicationWindow, hA1, hA2, hF, hR]
    · by_cases hR : FAILED env.hrReleaseSync = true <;>
        simp [OUTPUTMANAGER.UpdateApplicationWindow, hA1, hA2, hF, hV, hM, hR]
  refine ⟨?_, hops, ?_, ?_, by rw [hstate], by rw [hstate], hstate, ?_⟩
  · intro hF
    rw [← mem_operations Call.DrawMouse _ rfl, hops]
    simp [hF]
  · rw [← count_operations (Call.ReleaseSync 0) _ rfl, hops]
    by_cases hF : (self.DrawFrame tbl env.drawFrame).2 = DUPL_RETURN_SUCCESS <;>
      simp [hF, List.count_cons]
  · rw [← mem_operations Call.Present _ rfl, hops]
    by_cases hF : (self.DrawFrame tbl env.drawFrame).2 = DUPL_RETURN_SUCCESS <;> simp [hF]
  · intro hR
    rcases hD with hF | ⟨hF, hV, hM⟩
    · simp [OUTPUTMANAGER.UpdateApplicationWindow, hA1, hA2, hF, hR]
    · simp [OUTPUTMANAGER.UpdateApplicationWindow, hA1, hA2, hF, hV, hM, hR]

/-- C4 at a concrete input: the sample cycle with `CreateBuffer` failing in `DrawMouse`;
the call returns the value of `DrawMouse` and the manager state is the one before. -/
theorem C4_draw_failure_releases_and_skips_present_witness :
    (sampleManager.DrawFrame [] sampleUpdateEnv.drawFrame).2 = DUPL_RETURN_SUCCESS ∧
    (sampleManager.DrawMouse []
        { sampleDrawMouseEnv with hrCreateBuffer := E_OUTOFMEMORY } samplePointer).2.2
      ≠ DUPL_RETURN_SUCCESS ∧
    (sampleManager.UpdateApplicationWindow []
        { sampleUpdateEnv with drawMouse := { sampleDrawMouseEnv with hrCreateBuffer := E_OUTOFMEMORY } }
        samplePointer).state = sampleManager :=
  ⟨by decide, by decide,
   (C4_draw_failure_releases_and_skips_present [] sampleManager
      { sampleUpdateEnv with drawMouse := { sampleDrawMouseEnv with hrCreateBuffer := E_OUTOFMEMORY } }
      samplePointer (by decide) (by decide)
      (Or.inr ⟨by decide, by decide, by decide⟩)).2.2.2.2.2.2.1⟩

/-- The render-fence counter after any `Present` call is the old one plus one, modulo
`2^64`. -/
theorem Present_fence (tbl : List HRESULT) (self : OUTPUTMANAGER) (env : PresentEnv) :
    (self.Present tbl env).state.m_DisplayFenceValue
      = (self.m_DisplayFenceValue + 1) % UINT64_MOD := by
  unfold OUTPUTMANAGER.Present
  dsimp only
  split_ifs <;> rfl

/-- The render-fence counter after consecutive `Present` calls. -/
theorem afterPresents_fence (tbl : List HRESULT) (envs : List PresentEnv) :
    ∀ self : OUTPUTMANAGER, self.m_DisplayFenceValue < UINT64_MOD →
      (OUTPUTMANAGER.afterPresents tbl self envs).m_DisplayFenceValue
        = (self.m_DisplayFenceValue + envs.length) % UINT64_MOD := by
  induction envs with
  | nil =>
    intro self h
    simp [OUTPUTMANAGER.afterPresents, Nat.mod_eq_of_lt h]
  | cons e es ih =>
    intro self _
    have hlt : (self.Present tbl e).state.m_DisplayFenceValue < UINT64_MOD := by
      rw [Present_fence]
      exact Nat.mod_lt _ (by decide)
    rw [OUTPUTMANAGER.afterPresents, ih _ hlt, Present_fence, List.length_cons, Nat.mod_add_mod]
    congr 1
    omega

/-- If every outcome is a success, the number of successes is the number of outcomes. -/
theorem successes_of_all (os : List Outcome) (h : ∀ o ∈ os, o.ret = DUPL_RETURN_SUCCESS) :
    successes os = os.length := by
  unfold successes
  rw [List.filter_eq_self.mpr]
  intro o ho
  simp [h o ho]

/-- There is one outcome per environment record. -/
theorem presentOutcomes_length (tbl : List HRESULT) (envs : List PresentEnv) :
    ∀ self : OUTPUTMANAGER, (OUTPUTMANAGER.presentOutcomes tbl self envs).length = envs.length := by
  induction envs with
  | nil => intro self; rfl
  | cons e es ih => intro self; simp [OUTPUTMANAGER.presentOutcomes, ih]

/-- `OpenOutput` keeps the two fence counters. -/
theorem OpenOutput_counters (tbl : List HRESULT) (self : OUTPUTMANAGER) (env : OpenOutputEnv) :
    (self.OpenOutput tbl env).state.m_DisplayFenceValue = self.m_DisplayFenceValue ∧
    (self.OpenOutput tbl env).state.m_VBlankFenceValue = self.m_VBlankFenceValue := by
  generalize ho : self.OpenOutput tbl env = o
  unfold OUTPUTMANAGER.OpenOutput at ho
  dsimp only at ho
  by_cases h1 : env.targetFound = false
  · rw [if_pos h1] at ho; subst ho; simp
  rw [if_neg h1] at ho
  by_cases h2 : FAILED env.hrCreateEmptyState = true
  · rw [if_pos h2] at ho; subst ho; simp
  rw [if_neg h2] at ho
  by_cases h3 : env.bestMode = false
  · rw [if_pos h3] at ho; subst ho; simp
  rw [if_neg h3] at ho
  by_cases h4 : FAILED env.hrApply = true
  · rw [if_pos h4] at ho; subst ho; simp
  rw [if_neg h4] at ho
  by_cases h5 : FAILED env.hrReadCurrentState = true
  · rw [if_pos h5] at ho; subst ho; simp
  rw [if_neg h5] at ho
  by_cases h6 : FAILED env.hrCreateDXGIFactory2 = true
  · rw [if_pos h6] at ho; subst ho; simp
  rw [if_neg h6] at ho
  by_cases h7 : FAILED env.hrEnumAdapterByLuid = true
  · rw [if_pos h7] at ho; subst ho; simp
  rw [if_neg h7] at ho
  by_cases h8 : FAILED env.hrD3D11CreateDevice = true
  · rw [if_pos h8] at ho; subst ho; simp
  rw [if_neg h8] at ho
  split at ho
  · subst ho
    exact ⟨rfl, rfl⟩
  · split_ifs at ho <;> subst ho <;> simp

/-- `CreateSharedSurf` keeps the two fence counters. -/
theorem CreateSharedSurf_counters (tbl : List HRESULT) (self : OUTPUTMANAGER)
    (env : SharedSurfEnv) (SingleOutput : Int) (OutCount : Nat) (DeskBounds : RECT) :
    (self.CreateSharedSurf tbl env SingleOutput OutCount DeskBounds).state.m_DisplayFenceValue
      = self.m_DisplayFenceValue ∧
    (self.CreateSharedSurf tbl env SingleOutput OutCount DeskBounds).state.m_VBlankFenceValue
      = self.m_VBlankFenceValue := by
  generalize ho : self.CreateSharedSurf tbl env SingleOutput OutCount DeskBounds = o
  unfold OUTPUTMANAGER.CreateSharedSurf at ho
  dsimp only at ho
  split_ifs at ho <;> subst ho <;> simp

/-- `MakeRTV` keeps the two fence counters. -/
theorem MakeRTV_counters (tbl : List HRESULT) (self : OUTPUTMANAGER) (hr : HRESULT) :
    (self.MakeRTV tbl hr).state.m_DisplayFenceValue = self.m_DisplayFenceValue ∧
    (self.MakeRTV tbl hr).state.m_VBlankFenceValue = self.m_VBlankFenceValue := by
  by_cases h : FAILED hr = true
  · simp [OUTPUTMANAGER.MakeRTV, h]
  · simp [OUTPUTMANAGER.MakeRTV, h]

/-- `InitOutput` keeps the two fence counters. -/
theorem InitOutput_counters (tbl : List HRESULT) (self : OUTPUTMANAGER) (env : InitEnv)
    (SingleOutput : Int) (OutCount : Nat) (DeskBounds : RECT) :
    (self.InitOutput tbl env SingleOutput OutCount DeskBounds).state.m_DisplayFenceValue
      = self.m_DisplayFenceValue ∧
    (self.InitOutput tbl env SingleOutput OutCount DeskBounds).state.m_VBlankFenceValue
      = self.m_VBlankFenceValue := by
  obtain ⟨o1, o2⟩ := OpenOutput_counters tbl self env.openOutput
  obtain ⟨s1, s2⟩ := CreateSharedSurf_counters tbl (self.OpenOutput tbl env.openOutput).state
    env.sharedSurf SingleOutput OutCount DeskBounds
  obtain ⟨r1, r2⟩ := MakeRTV_counters tbl
    ((self.OpenOutput tbl env.openOutput).state.CreateSharedSurf tbl env.sharedSurf SingleOutput
      OutCount DeskBounds).state env.hrCreateRenderTargetView
  rw [s1, o1] at r1
  rw [s2, o2] at r2
  generalize ho : self.InitOutput tbl env SingleOutput OutCount DeskBounds = o
  unfold OUTPUTMANAGER.InitOutput at ho
  dsimp only at ho
  split_ifs at ho
  · subst ho
    exact ⟨s1.trans o1, s2.trans o2⟩
  all_goals
    subst ho
    exact ⟨r1, r2⟩

/-- C5: every `Present` call, successful or not, leaves the render-fence counter
`m_DisplayFenceValue` at the old value plus one modulo `2^64` (plus exactly one below the
wrap); the counter is 0 after construction and after `InitOutput`, and starting from a
state with counter 0, after `n` consecutive successful `Present` calls the counter equals
`n` modulo `2^64`. -/
theorem C5_render_fence_counts_presents (tbl : List HRESULT) (self start : OUTPUTMANAGER)
    (env : PresentEnv) (envs : List PresentEnv) (ienv : InitEnv) (SingleOutput : Int)
    (OutCount : Nat) (DeskBounds : RECT)
    (hstart : start.m_DisplayFenceValue = 0)
    (hn : ∀ o ∈ OUTPUTMANAGER.presentOutcomes tbl start envs, o.ret = DUPL_RETURN_SUCCESS) :
    (self.Present tbl env).state.m_DisplayFenceValue
      = (self.m_DisplayFenceValue + 1) % UINT64_MOD ∧
    (self.m_DisplayFenceValue + 1 < UINT64_MOD →
      (self.Present tbl env).state.m_DisplayFenceValue = self.m_DisplayFenceValue + 1) ∧
    OUTPUTMANAGER.new.m_DisplayFenceValue = 0 ∧
    (OUTPUTMANAGER.afterInit tbl ienv SingleOutput OutCount DeskBounds).m_DisplayFenceValue = 0 ∧
    successes (OUTPUTMANAGER.presentOutcomes tbl start envs) = envs.length ∧
    (OUTPUTMANAGER.afterPresents tbl start envs).m_DisplayFenceValue
      = envs.length % UINT64_MOD := by
  refine ⟨Present_fence tbl self env, ?_, rfl, ?_, ?_, ?_⟩
  · intro h
    rw [Present_fence, Nat.mod_eq_of_lt h]
  · unfold OUTPUTMANAGER.afterInit
    rw [(InitOutput_counters tbl OUTPUTMANAGER.new ienv SingleOutput OutCount DeskBounds).1]
    rfl
  · rw [successes_of_all _ hn, presentOutcomes_length]
  · rw [afterPresents_fence tbl envs start (by rw [hstart]; decide), hstart, Nat.zero_add]

/-- C5 at a concrete input: three successful `Present` calls from the sample manager. -/
theorem C5_render_fence_counts_presents_witness :
    sampleManager.m_DisplayFenceValue = 0 ∧
    (∀ o ∈ OUTPUTMANAGER.presentOutcomes [] sampleManager [⟨S_OK⟩, ⟨S_OK⟩, ⟨S_OK⟩],
      o.ret = DUPL_RETURN_SUCCESS) ∧
    (OUTPUTMANAGER.afterPresents [] sampleManager [⟨S_OK⟩, ⟨S_OK⟩, ⟨S_OK⟩]).m_DisplayFenceValue
      = [(⟨S_OK⟩ : PresentEnv), ⟨S_OK⟩, ⟨S_OK⟩].length % UINT64_MOD :=
  ⟨by decide, by decide,
   (C5_render_fence_counts_presents [] sampleManager sampleManager ⟨S_OK⟩ [⟨S_OK⟩, ⟨S_OK⟩, ⟨S_OK⟩]
      sampleInitEnv (-1) 0 { left := 0, top := 0, right := 0, bottom := 0 }
      (by decide) (by decide)).2.2.2.2.2⟩

/-- C6: in every `Present` call exactly one value is signalled, the freshly incremented
counter; every task handed to `ExecuteTask` waits for that same value and is preceded in
the call list by the `Signal`; exactly one task is submitted when `Signal` succeeds and
none when it fails. -/
theorem C6_scanout_waits_for_signalled_value (tbl : List HRESULT) (self : OUTPUTMANAGER)
    (env : PresentEnv) :
    signalledValues (self.Present tbl env).calls
      = [(self.m_DisplayFenceValue + 1) % UINT64_MOD] ∧
    (∀ t ∈ executedTasks (self.Present tbl env).calls,
      t.wait = some ((self.m_DisplayFenceValue + 1) % UINT64_MOD)) ∧
    (∀ t, Call.ExecuteTask t ∈ (self.Present tbl env).calls →
      ∃ pre post, (self.Present tbl env).calls = pre ++ Call.ExecuteTask t :: post ∧
        Call.Signal ((self.m_DisplayFenceValue + 1) % UINT64_MOD) ∈ pre) ∧
    executedTasks (self.Present tbl env).calls
      = (if FAILED env.hrSignal then []
         else [{ scanout := (self.m_OutputSurfaces[self.m_OutputSurfaceIndex]?).map
                   OutputSurface.scanout
                 wait := some ((self.m_DisplayFenceValue + 1) % UINT64_MOD) }]) ∧
    (FAILED env.hrSignal = true →
      ∀ t, Call.ExecuteTask t ∉ (self.Present tbl env).calls) := by
  by_cases hS : FAILED env.hrSignal = true
  · simp [OUTPUTMANAGER.Present, hS, signalledValues, executedTasks]
  · simp only [OUTPUTMANAGER.Present, hS, signalledValues, executedTasks]
    refine ⟨by simp, by simp, ?_, by simp, by simp⟩
    intro t ht
    refine ⟨[Call.Present, Call.Signal ((self.m_DisplayFenceValue + 1) % UINT64_MOD), Call.Flush,
      Call.CreateTask, Call.SetScanout self.m_OutputSurfaceIndex,
      Call.SetWait ((self.m_DisplayFenceValue + 1) % UINT64_MOD)], [], ?_, by simp⟩
    simp at ht
    simp [ht]

/-- The outcome of `WaitNextVBlank` when the event registration and the wait succeed. -/
theorem WaitNextVBlank_waited_eq (tbl : List HRESULT) (self : OUTPUTMANAGER) (env : VBlankEnv)
    (hS : FAILED env.hrSetEventOnCompletion = false) (hW : env.waited = WAIT_OBJECT_0) :
    self.WaitNextVBlank tbl env =
      { state := { self with
          m_VBlankFenceValue := (env.completedValue % UINT64_MOD + 1) % UINT64_MOD }
        calls := [Call.SetEventOnCompletion self.m_VBlankFenceValue, Call.WaitForSingleObject 200,
                  Call.GetCompletedValue]
        ret := DUPL_RETURN_SUCCESS } := by
  simp [OUTPUTMANAGER.WaitNextVBlank, hS, hW]

/-- C9 (as stated) fails: with the wait successful and the fence reporting the completed
value `2^64 - 1`, the expected vblank value becomes 0, not `(2^64 - 1) + 1`. -/
theorem C9_counterexample_wraps_at_max :
    FAILED ({ hrSetEventOnCompletion := S_OK, waited := WAIT_OBJECT_0,
              completedValue := 18446744073709551615 } : VBlankEnv).hrSetEventOnCompletion
      = false ∧
    ({ hrSetEventOnCompletion := S_OK, waited := WAIT_OBJECT_0,
       completedValue := 18446744073709551615 } : VBlankEnv).waited = WAIT_OBJECT_0 ∧
    (sampleManager.WaitNextVBlank []
        { hrSetEventOnCompletion := S_OK, waited := WAIT_OBJECT_0,
          completedValue := 18446744073709551615 }).ret = DUPL_RETURN_SUCCESS ∧
    (sampleManager.WaitNextVBlank []
        { hrSetEventOnCompletion := S_OK, waited := WAIT_OBJECT_0,
          completedValue := 18446744073709551615 }).state.m_VBlankFenceValue = 0 ∧
    (sampleManager.WaitNextVBlank []
        { hrSetEventOnCompletion := S_OK, waited := WAIT_OBJECT_0,
          completedValue := 18446744073709551615 }).state.m_VBlankFenceValue
      ≠ 18446744073709551615 + 1 := by
  decide

/-- C9 (amended): after a successful wait (the event registration succeeds and the 200 ms
wait returns `WAIT_OBJECT_0`) `WaitNextVBlank` returns success and the expected vblank
value `m_VBlankFenceValue` equals the completed value observed from the fence plus one,
modulo `2^64`, whatever the previous expected value was: it is the observed value plus one
for every observed value below `2^64 - 1`, in particular for the observed values 0, 1 and
100, and when a second successful wait observes a completed value two above the first. -/
theorem C9_vblank_expected_is_completed_plus_one (tbl : List HRESULT) (self : OUTPUTMANAGER)
    (env : VBlankEnv)
    (hS : FAILED env.hrSetEventOnCompletion = false)
    (hW : env.waited = WAIT_OBJECT_0)
    (hC : env.completedValue < UINT64_MOD) :
    (self.WaitNextVBlank tbl env).ret = DUPL_RETURN_SUCCESS ∧
    (self.WaitNextVBlank tbl env).state.m_VBlankFenceValue
      = (env.completedValue + 1) % UINT64_MOD ∧
    (env.completedValue + 1 < UINT64_MOD →
      (self.WaitNextVBlank tbl env).state.m_VBlankFenceValue = env.completedValue + 1) ∧
    (env.completedValue = 0 → (self.WaitNextVBlank tbl env).state.m_VBlankFenceValue = 1) ∧
    (env.completedValue = 1 → (self.WaitNextVBlank tbl env).state.m_VBlankFenceValue = 2) ∧
    (env.completedValue = 100 → (self.WaitNextVBlank tbl env).state.m_VBlankFenceValue = 101) ∧
    (∀ env2 : VBlankEnv,
      FAILED env2.hrSetEventOnCompletion = false →
      env2.waited = WAIT_OBJECT_0 →
      env2.completedValue = env.completedValue + 2 →
      env2.completedValue + 1 < UINT64_MOD →
      ((self.WaitNextVBlank tbl env).state.WaitNextVBlank tbl env2).state.m_VBlankFenceValue
        = env.completedValue + 3) := by
  have hv : (self.WaitNextVBlank tbl env).state.m_VBlankFenceValue
      = (env.completedValue + 1) % UINT64_MOD := by
    rw [WaitNextVBlank_waited_eq tbl self env hS hW, Nat.mod_eq_of_lt hC]
  refine ⟨by rw [WaitNextVBlank_waited_eq tbl self env hS hW], hv, ?_, ?_, ?_, ?_, ?_⟩
  · intro hlt
    rw [hv, Nat.mod_eq_of_lt hlt]
  · intro h0
    rw [hv, h0]
    decide
  · intro h1
    rw [hv, h1]
    decide
  · intro h100
    rw [hv, h100]
    decide
  · intro env2 hS2 hW2 hJ hC2
    have hC2' : env2.completedValue < UINT64_MOD := by omega
    rw [WaitNextVBlank_waited_eq tbl _ env2 hS2 hW2, Nat.mod_eq_of_lt hC2',
      Nat.mod_eq_of_lt hC2, hJ]

/-- C9 (amended) at a concrete input: the fence reports 100 while 7 was expected, then
102 on the next wait. -/
theorem C9_vblank_expected_is_completed_plus_one_witness :
    FAILED ({ hrSetEventOnCompletion := S_OK, waited := WAIT_OBJECT_0, completedValue := 100 }
      : VBlankEnv).hrSetEventOnCompletion = false ∧
    (({ sampleManager with m_VBlankFenceValue := 7 } : OUTPUTMANAGER).WaitNextVBlank []
        { hrSetEventOnCompletion := S_OK, waited := WAIT_OBJECT_0, completedValue := 100
          }).state.m_VBlankFenceValue = 101 ∧
    ((({ sampleManager with m_VBlankFenceValue := 7 } : OUTPUTMANAGER).WaitNextVBlank []
        { hrSetEventOnCompletion := S_OK, waited := WAIT_OBJECT_0, completedValue := 100
          }).state.WaitNextVBlank []
        { hrSetEventOnCompletion := S_OK, waited := WAIT_OBJECT_0, completedValue := 102
          }).state.m_VBlankFenceValue = 100 + 3 :=
  ⟨by decide,
   (C9_vblank_expected_is_completed_plus_one [] { sampleManager with m_VBlankFenceValue := 7 }
      { hrSetEventOnCompletion := S_OK, waited := WAIT_OBJECT_0, completedValue := 100 }
      (by decide) (by decide) (by decide)).2.2.2.2.2.1 rfl,
   (C9_vblank_expected_is_completed_plus_one [] { sampleManager with m_VBlankFenceValue := 7 }
      { hrSetEventOnCompletion := S_OK, waited := WAIT_OBJECT_0, completedValue := 100 }
      (by decide) (by decide) (by decide)).2.2.2.2.2.2
      { hrSetEventOnCompletion := S_OK, waited := WAIT_OBJECT_0, completedValue := 102 }
      (by decide) (by decide) (by decide) (by decide)⟩

/-- C10: when setting the completion event fails, or the 200 ms wait on the vblank event
does not return `WAIT_OBJECT_0`, `WaitNextVBlank` returns a value other than
`DUPL_RETURN_SUCCESS`, the expected vblank value `m_VBlankFenceValue` (and the whole
manager state) is unchanged, and the completed value is not read; a wait that was
started is the 200 ms wait. -/
theorem C10_vblank_wait_failure (tbl : List HRESULT) (self : OUTPUTMANAGER) (env : VBlankEnv)
    (h : FAILED env.hrSetEventOnCompletion = true ∨ env.waited ≠ WAIT_OBJECT_0) :
    (self.WaitNextVBlank tbl env).ret ≠ DUPL_RETURN_SUCCESS ∧
    (self.WaitNextVBlank tbl env).state.m_VBlankFenceValue = self.m_VBlankFenceValue ∧
    (self.WaitNextVBlank tbl env).state = self ∧
    Call.GetCompletedValue ∉ (self.WaitNextVBlank tbl env).calls ∧
    (∀ ms, Call.WaitForSingleObject ms ∈ (self.WaitNextVBlank tbl env).calls → ms = 200) ∧
    (FAILED env.hrSetEventOnCompletion = false →
      (self.WaitNextVBlank tbl env).calls
        = [Call.SetEventOnCompletion self.m_VBlankFenceValue, Call.WaitForSingleObject 200]) := by
  by_cases hS : FAILED env.hrSetEventOnCompletion = true
  · simp [OUTPUTMANAGER.WaitNextVBlank, hS, ProcessFailure_ne_success]
  · have hW : env.waited ≠ WAIT_OBJECT_0 := by
      rcases h with h | h
      · exact absurd h hS
      · exact h
    simp [OUTPUTMANAGER.WaitNextVBlank, hS, hW, ProcessFailure_ne_success]

/-- C10 at a concrete input: the wait answering `WAIT_TIMEOUT`. -/
theorem C10_vblank_wait_failure_witness :
    ({ hrSetEventOnCompletion := S_OK, waited := WAIT_TIMEOUT, completedValue := 5 }
      : VBlankEnv).waited ≠ WAIT_OBJECT_0 ∧
    (sampleManager.WaitNextVBlank []
        { hrSetEventOnCompletion := S_OK, waited := WAIT_TIMEOUT, completedValue := 5 }).ret
      ≠ DUPL_RETURN_SUCCESS :=
  ⟨by decide,
   (C10_vblank_wait_failure [] sampleManager
      { hrSetEventOnCompletion := S_OK, waited := WAIT_TIMEOUT, completedValue := 5 }
      (Or.inr (by decide))).1⟩

/-- Flipping the low bit of an index that is 0 or 1. -/
theorem xor_one_of_le_one (i : Nat) (h : i ≤ 1) : (i ^^^ 1) % UINT32_MOD = 1 - i := by
  have : i = 0 ∨ i = 1 := by omega
  rcases this with h0 | h1
  · subst h0; decide
  · subst h1; decide

/-- The output-surface index after a `Present` call: flipped on success, kept otherwise. -/
theorem Present_index (tbl : List HRESULT) (self : OUTPUTMANAGER) (env : PresentEnv) :
    (self.Present tbl env).state.m_OutputSurfaceIndex
      = if (self.Present tbl env).ret = DUPL_RETURN_SUCCESS
        then (self.m_OutputSurfaceIndex ^^^ 1) % UINT32_MOD else self.m_OutputSurfaceIndex := by
  by_cases hS : FAILED env.hrSignal = true
  · simp [OUTPUTMANAGER.Present, hS, ProcessFailure_ne_success]
  · simp [OUTPUTMANAGER.Present, hS]

/-- A `Present` call succeeds exactly if the fence `Signal` does. -/
theorem Present_success_iff (tbl : List HRESULT) (self : OUTPUTMANAGER) (env : PresentEnv) :
    (self.Present tbl env).ret = DUPL_RETURN_SUCCESS ↔ FAILED env.hrSignal = false := by
  by_cases hS : FAILED env.hrSignal = true
  · simp [OUTPUTMANAGER.Present, hS, ProcessFailure_ne_success]
  · simp [OUTPUTMANAGER.Present, hS]

/-- The index used by `SetScanout` in a `Present` call. -/
theorem Present_scanoutIndices (tbl : List HRESULT) (self : OUTPUTMANAGER) (env : PresentEnv) :
    scanoutIndices (self.Present tbl env).calls
      = if (self.Present tbl env).ret = DUPL_RETURN_SUCCESS then [self.m_OutputSurfaceIndex]
        else [] := by
  by_cases hS : FAILED env.hrSignal = true
  · simp [OUTPUTMANAGER.Present, hS, ProcessFailure_ne_success, scanoutIndices]
  · simp [OUTPUTMANAGER.Present, hS, scanoutIndices]

/-- `Present` keeps the output surfaces, the render-target view and the vblank value. -/
theorem Present_frame (tbl : List HRESULT) (self : OUTPUTMANAGER) (env : PresentEnv) :
    (self.Present tbl env).state.m_OutputSurfaces = self.m_OutputSurfaces ∧
    (self.Present tbl env).state.m_RTV = self.m_RTV ∧
    (self.Present tbl env).state.m_VBlankFenceValue = self.m_VBlankFenceValue := by
  by_cases hS : FAILED env.hrSignal = true
  · simp [OUTPUTMANAGER.Present, hS]
  · simp [OUTPUTMANAGER.Present, hS]

/-- An index that is 0 or 1 stays so across a `Present` call. -/
theorem Present_index_le_one (tbl : List HRESULT) (self : OUTPUTMANAGER) (env : PresentEnv)
    (h : self.m_OutputSurfaceIndex ≤ 1) :
    (self.Present tbl env).state.m_OutputSurfaceIndex ≤ 1 := by
  rw [Present_index]
  split_ifs
  · rw [xor_one_of_le_one _ h]; omega
  · exact h

/-- The state after `UpdateApplicationWindow` is the state before, or the state `Present`
leaves. -/
theorem UpdateApplicationWindow_state (tbl : List HRESULT) (self : OUTPUTMANAGER)
    (env : UpdateEnv) (PointerInfo : PTR_INFO) :
    (self.UpdateApplicationWindow tbl env PointerInfo).state = self ∨
    (self.UpdateApplicationWindow tbl env PointerInfo).state
      = (self.Present tbl env.present).state := by
  unfold OUTPUTMANAGER.UpdateApplicationWindow
  dsimp only
  split_ifs <;> simp

/-- The state after `WaitNextVBlank` differs from the state before at most in the expected
vblank value. -/
theorem WaitNextVBlank_frame (tbl : List HRESULT) (self : OUTPUTMANAGER) (env : VBlankEnv) :
    (self.WaitNextVBlank tbl env).state.m_OutputSurfaceIndex = self.m_OutputSurfaceIndex ∧
    (self.WaitNextVBlank tbl env).state.m_OutputSurfaces = self.m_OutputSurfaces ∧
    (self.WaitNextVBlank tbl env).state.m_RTV = self.m_RTV ∧
    (self.WaitNextVBlank tbl env).state.m_DisplayFenceValue = self.m_DisplayFenceValue := by
  unfold OUTPUTMANAGER.WaitNextVBlank
  dsimp only
  split_ifs <;> simp

/-- One public method call keeps the output surfaces and the render-target view, and keeps
an index that is 0 or 1 so. -/
theorem step_frame (tbl : List HRESULT) (self : OUTPUTMANAGER) (m : MethodCall) :
    (self.step tbl m).m_OutputSurfaces = self.m_OutputSurfaces ∧
    (self.step tbl m).m_RTV = self.m_RTV ∧
    (self.m_OutputSurfaceIndex ≤ 1 → (self.step tbl m).m_OutputSurfaceIndex ≤ 1) := by
  cases m with
  | UpdateApplicationWindow env PointerInfo =>
    simp only [OUTPUTMANAGER.step]
    rcases UpdateApplicationWindow_state tbl self env PointerInfo with h | h
    · rw [h]; simp
    · rw [h]
      exact ⟨(Present_frame tbl self env.present).1, (Present_frame tbl self env.present).2.1,
        Present_index_le_one tbl self env.present⟩
  | WaitNextVBlank env =>
    simp only [OUTPUTMANAGER.step]
    obtain ⟨h1, h2, h3, _⟩ := WaitNextVBlank_frame tbl self env
    rw [h1, h2, h3]
    simp

/-- A sequence of public method calls keeps the output surfaces and the render-target
view, and keeps an index that is 0 or 1 so. -/
theorem run_frame (tbl : List HRESULT) (ms : List MethodCall) :
    ∀ self : OUTPUTMANAGER,
      (OUTPUTMANAGER.run tbl self ms).m_OutputSurfaces = self.m_OutputSurfaces ∧
      (OUTPUTMANAGER.run tbl self ms).m_RTV = self.m_RTV ∧
      (self.m_OutputSurfaceIndex ≤ 1 → (OUTPUTMANAGER.run tbl self ms).m_OutputSurfaceIndex ≤ 1) := by
  induction ms with
  | nil => intro self; simp [OUTPUTMANAGER.run]
  | cons m ms ih =>
    intro self
    obtain ⟨h1, h2, h3⟩ := step_frame tbl self m
    obtain ⟨i1, i2, i3⟩ := ih (self.step tbl m)
    simp only [OUTPUTMANAGER.run]
    exact ⟨i1.trans h1, i2.trans h2, fun h => i3 (h3 h)⟩

/-- The surface loop of `OpenOutput`, when it runs to its end, appends one entry per
iteration, numbered by the loop counter. -/
theorem OpenOutput_surfaces_two (tbl : List HRESULT) (env : OpenOutputEnv)
    (acc : List OutputSurface)
    (h : (OUTPUTMANAGER.OpenOutput.surfaces tbl env 2 0 acc).2 = none) :
    (OUTPUTMANAGER.OpenOutput.surfaces tbl env 2 0 acc).1
      = acc ++ [{ primary := 0, scanout := 0, surface := 0 },
                { primary := 1, scanout := 1, surface := 1 }] := by
  simp only [OUTPUTMANAGER.OpenOutput.surfaces] at h ⊢
  split_ifs at h ⊢
  simp_all

/-- `OpenOutput` keeps the output-surface index and the render-target view; when it
succeeds it has appended the two output surfaces. -/
theorem OpenOutput_frame (tbl : List HRESULT) (self : OUTPUTMANAGER) (env : OpenOutputEnv) :
    (self.OpenOutput tbl env).state.m_OutputSurfaceIndex = self.m_OutputSurfaceIndex ∧
    (self.OpenOutput tbl env).state.m_RTV = self.m_RTV ∧
    ((self.OpenOutput tbl env).ret = DUPL_RETURN_SUCCESS →
      (self.OpenOutput tbl env).state.m_OutputSurfaces
        = self.m_OutputSurfaces ++ [{ primary := 0, scanout := 0, surface := 0 },
                                    { primary := 1, scanout := 1, surface := 1 }]) := by
  generalize ho : self.OpenOutput tbl env = o
  unfold OUTPUTMANAGER.OpenOutput at ho
  dsimp only at ho
  by_cases h1 : env.targetFound = false
  · rw [if_pos h1] at ho; subst ho; simp [ProcessFailure_ne_success]
  rw [if_neg h1] at ho
  by_cases h2 : FAILED env.hrCreateEmptyState = true
  · rw [if_pos h2] at ho; subst ho; simp [ProcessFailure_ne_success]
  rw [if_neg h2] at ho
  by_cases h3 : env.bestMode = false
  · rw [if_pos h3] at ho; subst ho; simp [ProcessFailure_ne_success]
  rw [if_neg h3] at ho
  by_cases h4 : FAILED env.hrApply = true
  · rw [if_pos h4] at ho; subst ho; simp [ProcessFailure_ne_success]
  rw [if_neg h4] at ho
  by_cases h5 : FAILED env.hrReadCurrentState = true
  · rw [if_pos h5] at ho; subst ho; simp [ProcessFailure_ne_success]
  rw [if_neg h5] at ho
  by_cases h6 : FAILED env.hrCreateDXGIFactory2 = true
  · rw [if_pos h6] at ho; subst ho; simp [ProcessFailure_ne_success]
  rw [if_neg h6] at ho
  by_cases h7 : FAILED env.hrEnumAdapterByLuid = true
  · rw [if_pos h7] at ho; subst ho; simp [ProcessFailure_ne_success]
  rw [if_neg h7] at ho
  by_cases h8 : FAILED env.hrD3D11CreateDevice = true
  · rw [if_pos h8] at ho; subst ho; simp [ProcessFailure_ne_success]
  rw [if_neg h8] at ho
  split at ho
  · rename_i Ret hr
    subst ho
    refine ⟨rfl, rfl, ?_⟩
    intro hret
    simp only at hret
    subst hret
    simp only [OUTPUTMANAGER.OpenOutput.surfaces] at hr
    split_ifs at hr <;> simp_all [ProcessFailure_ne_success]
  · rename_i hr
    have hs := OpenOutput_surfaces_two tbl env self.m_OutputSurfaces hr
    split_ifs at ho
    any_goals (subst ho; simp [ProcessFailure_ne_success]; done)
    subst ho
    simp [hs]

/-- `CreateSharedSurf` keeps the output surfaces, their index and the render-target view. -/
theorem CreateSharedSurf_frame (tbl : List HRESULT) (self : OUTPUTMANAGER) (env : SharedSurfEnv)
    (SingleOutput : Int) (OutCount : Nat) (DeskBounds : RECT) :
    (self.CreateSharedSurf tbl env SingleOutput OutCount DeskBounds).state.m_OutputSurfaceIndex
      = self.m_OutputSurfaceIndex ∧
    (self.CreateSharedSurf tbl env SingleOutput OutCount DeskBounds).state.m_OutputSurfaces
      = self.m_OutputSurfaces ∧
    (self.CreateSharedSurf tbl env SingleOutput OutCount DeskBounds).state.m_RTV = self.m_RTV := by
  generalize ho : self.CreateSharedSurf tbl env SingleOutput OutCount DeskBounds = o
  unfold OUTPUTMANAGER.CreateSharedSurf at ho
  dsimp only at ho
  split_ifs at ho <;> subst ho <;> simp

/-- `MakeRTV` keeps the output surfaces and their index; when it succeeds the view is on
the texture of the entry at the current index. -/
theorem MakeRTV_frame (tbl : List HRESULT) (self : OUTPUTMANAGER) (hr : HRESULT) :
    (self.MakeRTV tbl hr).state.m_OutputSurfaceIndex = self.m_OutputSurfaceIndex ∧
    (self.MakeRTV tbl hr).state.m_OutputSurfaces = self.m_OutputSurfaces ∧
    ((self.MakeRTV tbl hr).ret = DUPL_RETURN_SUCCESS →
      (self.MakeRTV tbl hr).state.m_RTV
        = (self.m_OutputSurfaces[self.m_OutputSurfaceIndex]?).map OutputSurface.surface) := by
  by_cases h : FAILED hr = true
  · simp [OUTPUTMANAGER.MakeRTV, h, ProcessFailure_ne_success]
  · simp [OUTPUTMANAGER.MakeRTV, h]

/-- `InitOutput` keeps the output-surface index and leaves the output surfaces as
`OpenOutput` left them; when it succeeds the render-target view is on the texture of the
entry at the current index. -/
theorem InitOutput_frame (tbl : List HRESULT) (self : OUTPUTMANAGER) (env : InitEnv)
    (SingleOutput : Int) (OutCount : Nat) (DeskBounds : RECT) :
    (self.InitOutput tbl env SingleOutput OutCount DeskBounds).state.m_OutputSurfaceIndex
      = self.m_OutputSurfaceIndex ∧
    (self.InitOutput tbl env SingleOutput OutCount DeskBounds).state.m_OutputSurfaces
      = (self.OpenOutput tbl env.openOutput).state.m_OutputSurfaces ∧
    ((self.InitOutput tbl env SingleOutput OutCount DeskBounds).ret = DUPL_RETURN_SUCCESS →
      (self.InitOutput tbl env SingleOutput OutCount DeskBounds).state.m_RTV
        = ((self.OpenOutput tbl env.openOutput).state.m_OutputSurfaces[self.m_OutputSurfaceIndex]?).map
            OutputSurface.surface) := by
  obtain ⟨o1, _, _⟩ := OpenOutput_frame tbl self env.openOutput
  obtain ⟨s1, s2, _⟩ := CreateSharedSurf_frame tbl (self.OpenOutput tbl env.openOutput).state
    env.sharedSurf SingleOutput OutCount DeskBounds
  obtain ⟨r1, r2, r3⟩ := MakeRTV_frame tbl
    ((self.OpenOutput tbl env.openOutput).state.CreateSharedSurf tbl env.sharedSurf SingleOutput
      OutCount DeskBounds).state env.hrCreateRenderTargetView
  rw [s1, s2, o1] at r3
  rw [s1, o1] at r1
  rw [s2] at r2
  generalize ho : self.InitOutput tbl env SingleOutput OutCount DeskBounds = o
  unfold OUTPUTMANAGER.InitOutput at ho
  dsimp only at ho
  split_ifs at ho with hss hrtv hsamp hblend
  · subst ho
    simp only
    exact ⟨s1.trans o1, s2, fun h => absurd h hss⟩
  · subst ho
    simp only
    exact ⟨r1, r2, fun h => absurd h hrtv⟩
  · subst ho
    simp only
    exact ⟨r1, r2, fun h => absurd h (ProcessFailure_ne_success _ _)⟩
  · subst ho
    simp only
    exact ⟨r1, r2, fun h => absurd h (ProcessFailure_ne_success _ _)⟩
  · subst ho
    simp only
    refine ⟨r1, r2, fun _ => r3 ?_⟩
    simpa using hrtv

/-- The scanout indices of a concatenation. -/
theorem scanoutIndices_append (a b : List Call) :
    scanoutIndices (a ++ b) = scanoutIndices a ++ scanoutIndices b := by
  induction a with
  | nil => rfl
  | cons c cs ih => cases c <;> simp [scanoutIndices, ih]

/-- Along consecutive `Present` calls from an index that is 0 or 1, the index after the
calls is the start index plus the number of successes, modulo 2, and the indices used by
`SetScanout` alternate from the start index on, one per success. -/
theorem presents_alternate (tbl : List HRESULT) (envs : List PresentEnv) :
    ∀ self : OUTPUTMANAGER, self.m_OutputSurfaceIndex ≤ 1 →
      (OUTPUTMANAGER.afterPresents tbl self envs).m_OutputSurfaceIndex
        = (self.m_OutputSurfaceIndex + successes (OUTPUTMANAGER.presentOutcomes tbl self envs)) % 2 ∧
      scanoutIndices (allCalls (OUTPUTMANAGER.presentOutcomes tbl self envs))
        = (List.range (successes (OUTPUTMANAGER.presentOutcomes tbl self envs))).map
            (fun j => (self.m_OutputSurfaceIndex + j) % 2) := by
  induction envs with
  | nil =>
    intro self h
    simp [OUTPUTMANAGER.afterPresents, OUTPUTMANAGER.presentOutcomes, successes, allCalls,
      scanoutIndices]
    omega
  | cons e es ih =>
    intro self h
    obtain ⟨ih1, ih2⟩ := ih (self.Present tbl e).state (Present_index_le_one tbl self e h)
    have hidx := Present_index tbl self e
    have hsc := Present_scanoutIndices tbl self e
    simp only [OUTPUTMANAGER.afterPresents, OUTPUTMANAGER.presentOutcomes, allCalls,
      List.map_cons, List.flatten_cons, scanoutIndices_append]
    simp only [allCalls] at ih2
    rw [ih1, ih2, hsc]
    by_cases hS : (self.Present tbl e).ret = DUPL_RETURN_SUCCESS
    · rw [if_pos hS, xor_one_of_le_one _ h] at hidx
      have hsucc : successes ((self.Present tbl e) ::
          OUTPUTMANAGER.presentOutcomes tbl (self.Present tbl e).state es)
          = successes (OUTPUTMANAGER.presentOutcomes tbl (self.Present tbl e).state es) + 1 := by
        simp [successes, List.filter_cons, hS]
      rw [hsucc, hidx, if_pos hS]
      constructor
      · omega
      · rw [List.range_succ_eq_map, List.map_cons, List.map_map]
        have h0 : (self.m_OutputSurfaceIndex + 0) % 2 = self.m_OutputSurfaceIndex := by omega
        rw [h0, List.singleton_append]
        congr 1
        apply List.map_congr_left
        intro j _
        simp only [Function.comp]
        omega
    · rw [if_neg hS] at hidx
      have hsucc : successes ((self.Present tbl e) ::
          OUTPUTMANAGER.presentOutcomes tbl (self.Present tbl e).state es)
          = successes (OUTPUTMANAGER.presentOutcomes tbl (self.Present tbl e).state es) := by
        simp [successes, List.filter_cons, hS]
      rw [hsucc, hidx, if_neg hS]
      simp

/-- In the list `0 % 2, 1 % 2, 2 % 2, ...` no two neighbours are equal. -/
theorem alternating_chain (k : Nat) :
    List.Chain' (fun a b => a ≠ b) ((List.range k).map (fun j => j % 2)) := by
  rw [List.chain'_map]
  cases k with
  | zero => simp
  | succ n =>
    rw [List.chain'_range_succ]
    intro m _
    omega

/-- The output-surface index is 0 in the state `InitOutput` leaves. -/
theorem afterInit_index (tbl : List HRESULT) (env : InitEnv) (SingleOutput : Int) (OutCount : Nat)
    (DeskBounds : RECT) :
    (OUTPUTMANAGER.afterInit tbl env SingleOutput OutCount DeskBounds).m_OutputSurfaceIndex = 0 := by
  unfold OUTPUTMANAGER.afterInit
  rw [(InitOutput_frame tbl OUTPUTMANAGER.new env SingleOutput OutCount DeskBounds).1]
  rfl

/-- C7: the output-surface index is 0 after construction and after `InitOutput`; it is 0
or 1 in every state reached from there by public method calls; in such a state a
successful `Present` flips it and a failed one keeps it; after consecutive `Present`
calls from the initial index 0 it equals the number of successful calls modulo 2, and the
indices used by the successful calls are 0, 1, 0, 1, ... with no two neighbours equal. -/
theorem C7_output_surface_index_alternates (tbl : List HRESULT) (ienv : InitEnv)
    (SingleOutput : Int) (OutCount : Nat) (DeskBounds : RECT) (ms : List MethodCall)
    (env : PresentEnv) (envs : List PresentEnv) :
    OUTPUTMANAGER.new.m_OutputSurfaceIndex = 0 ∧
    (OUTPUTMANAGER.afterInit tbl ienv SingleOutput OutCount DeskBounds).m_OutputSurfaceIndex = 0 ∧
    ((OUTPUTMANAGER.run tbl (OUTPUTMANAGER.afterInit tbl ienv SingleOutput OutCount DeskBounds)
        ms).m_OutputSurfaceIndex = 0 ∨
     (OUTPUTMANAGER.run tbl (OUTPUTMANAGER.afterInit tbl ienv SingleOutput OutCount DeskBounds)
        ms).m_OutputSurfaceIndex = 1) ∧
    ((OUTPUTMANAGER.run tbl (OUTPUTMANAGER.afterInit tbl ienv SingleOutput OutCount DeskBounds)
        ms).Present tbl env).state.m_OutputSurfaceIndex
      = (if ((OUTPUTMANAGER.run tbl (OUTPUTMANAGER.afterInit tbl ienv SingleOutput OutCount
              DeskBounds) ms).Present tbl env).ret = DUPL_RETURN_SUCCESS
         then 1 - (OUTPUTMANAGER.run tbl (OUTPUTMANAGER.afterInit tbl ienv SingleOutput OutCount
              DeskBounds) ms).m_OutputSurfaceIndex
         else (OUTPUTMANAGER.run tbl (OUTPUTMANAGER.afterInit tbl ienv SingleOutput OutCount
              DeskBounds) ms).m_OutputSurfaceIndex) ∧
    (OUTPUTMANAGER.afterPresents tbl
        (OUTPUTMANAGER.afterInit tbl ienv SingleOutput OutCount DeskBounds) envs).m_OutputSurfaceIndex
      = successes (OUTPUTMANAGER.presentOutcomes tbl
          (OUTPUTMANAGER.afterInit tbl ienv SingleOutput OutCount DeskBounds) envs) % 2 ∧
    scanoutIndices (allCalls (OUTPUTMANAGER.presentOutcomes tbl
        (OUTPUTMANAGER.afterInit tbl ienv SingleOutput OutCount DeskBounds) envs))
      = (List.range (successes (OUTPUTMANAGER.presentOutcomes tbl
          (OUTPUTMANAGER.afterInit tbl ienv SingleOutput OutCount DeskBounds) envs))).map
          (fun j => j % 2) ∧
    List.Chain' (fun a b => a ≠ b)
      (scanoutIndices (allCalls (OUTPUTMANAGER.presentOutcomes tbl
        (OUTPUTMANAGER.afterInit tbl ienv SingleOutput OutCount DeskBounds) envs))) := by
  have h0 := afterInit_index tbl ienv SingleOutput OutCount DeskBounds
  have hle : (OUTPUTMANAGER.afterInit tbl ienv SingleOutput OutCount DeskBounds).m_OutputSurfaceIndex
      ≤ 1 := by omega
  have hrun := (run_frame tbl ms
    (OUTPUTMANAGER.afterInit tbl ienv SingleOutput OutCount DeskBounds)).2.2 hle
  obtain ⟨hp1, hp2⟩ := presents_alternate tbl envs
    (OUTPUTMANAGER.afterInit tbl ienv SingleOutput OutCount DeskBounds) hle
  simp only [h0, Nat.zero_add] at hp1 hp2
  refine ⟨rfl, h0, by omega, ?_, hp1, hp2, ?_⟩
  · rw [Present_index]
    split_ifs
    · exact xor_one_of_le_one _ hrun
    · rfl
  · rw [hp2]
    exact alternating_chain _

/-- C8 (as stated) fails: in the state `InitOutput` leaves with every call succeeding, the
render-target view is on the texture of primary 0, `DrawFrame` of the first cycle binds
that view, and the scanout task that `Present` submits in that cycle is the scanout of
primary 0: render target and scanout surface are the same slot. -/
theorem C8_counterexample_first_present :
    (OUTPUTMANAGER.new.InitOutput [] sampleInitEnv (-1) 0
      { left := 0, top := 0, right := 0, bottom := 0 }).ret = DUPL_RETURN_SUCCESS ∧
    sampleManager.m_RTV = some 0 ∧
    (sampleManager.UpdateApplicationWindow [] sampleUpdateEnv samplePointer).ret
      = DUPL_RETURN_SUCCESS ∧
    Call.OMSetRenderTargets (some 0)
      ∈ (sampleManager.UpdateApplicationWindow [] sampleUpdateEnv samplePointer).calls ∧
    executedTasks (sampleManager.UpdateApplicationWindow [] sampleUpdateEnv samplePointer).calls
      = [{ scanout := some 0, wait := some 1 }] ∧
    (executedTasks (sampleManager.Present [] sampleUpdateEnv.present).calls).map DisplayTask.scanout
      = [sampleManager.m_RTV] := by
  decide

/-- C8 (amended): in every state reached from a successful `InitOutput` (with `OpenOutput`
successful) by public method calls, a `Present` whose fence `Signal` succeeds submits
exactly one scanout task; it is for the output surface at the current index
`m_OutputSurfaceIndex` and waits for the fence value signalled in that call, and the index
then moves to the other slot. In the state `InitOutput` leaves, that surface is the one
`MakeRTV` created the render-target view on, so the first `Present` scans out the render
target. -/
theorem C8_scanout_targets_current_index (tbl : List HRESULT) (ienv : InitEnv)
    (SingleOutput : Int) (OutCount : Nat) (DeskBounds : RECT) (ms : List MethodCall)
    (env : PresentEnv)
    (hO : (OUTPUTMANAGER.new.OpenOutput tbl ienv.openOutput).ret = DUPL_RETURN_SUCCESS)
    (hI : (OUTPUTMANAGER.new.InitOutput tbl ienv SingleOutput OutCount DeskBounds).ret
      = DUPL_RETURN_SUCCESS)
    (hS : FAILED env.hrSignal = false) :
    executedTasks ((OUTPUTMANAGER.run tbl
        (OUTPUTMANAGER.afterInit tbl ienv SingleOutput OutCount DeskBounds) ms).Present tbl env).calls
      = [{ scanout := some (OUTPUTMANAGER.run tbl
              (OUTPUTMANAGER.afterInit tbl ienv SingleOutput OutCount DeskBounds)
              ms).m_OutputSurfaceIndex
           wait := some (((OUTPUTMANAGER.run tbl
              (OUTPUTMANAGER.afterInit tbl ienv SingleOutput OutCount DeskBounds)
              ms).m_DisplayFenceValue + 1) % UINT64_MOD) }] ∧
    signalledValues ((OUTPUTMANAGER.run tbl
        (OUTPUTMANAGER.afterInit tbl ienv SingleOutput OutCount DeskBounds) ms).Present tbl env).calls
      = [((OUTPUTMANAGER.run tbl
              (OUTPUTMANAGER.afterInit tbl ienv SingleOutput OutCount DeskBounds)
              ms).m_DisplayFenceValue + 1) % UINT64_MOD] ∧
    ((OUTPUTMANAGER.run tbl (OUTPUTMANAGER.afterInit tbl ienv SingleOutput OutCount DeskBounds)
        ms).Present tbl env).state.m_OutputSurfaceIndex
      = 1 - (OUTPUTMANAGER.run tbl (OUTPUTMANAGER.afterInit tbl ienv SingleOutput OutCount
          DeskBounds) ms).m_OutputSurfaceIndex ∧
    (OUTPUTMANAGER.run tbl (OUTPUTMANAGER.afterInit tbl ienv SingleOutput OutCount DeskBounds)
        ms).m_OutputSurfaceIndex ≤ 1 ∧
    (OUTPUTMANAGER.afterInit tbl ienv SingleOutput OutCount DeskBounds).m_RTV
      = some (OUTPUTMANAGER.afterInit tbl ienv SingleOutput OutCount DeskBounds).m_OutputSurfaceIndex ∧
    (executedTasks ((OUTPUTMANAGER.afterInit tbl ienv SingleOutput OutCount DeskBounds).Present
        tbl env).calls).map DisplayTask.scanout
      = [(OUTPUTMANAGER.afterInit tbl ienv SingleOutput OutCount DeskBounds).m_RTV] := by
  have h0 := afterInit_index tbl ienv SingleOutput OutCount DeskBounds
  have hle : (OUTPUTMANAGER.afterInit tbl ienv SingleOutput OutCount DeskBounds).m_OutputSurfaceIndex
      ≤ 1 := by omega
  obtain ⟨_, hsurf, hrtv⟩ := InitOutput_frame tbl OUTPUTMANAGER.new ienv SingleOutput OutCount
    DeskBounds
  have hopen := (OpenOutput_frame tbl OUTPUTMANAGER.new ienv.openOutput).2.2 hO
  have hsurf0 : (OUTPUTMANAGER.afterInit tbl ienv SingleOutput OutCount DeskBounds).m_OutputSurfaces
      = [{ primary := 0, scanout := 0, surface := 0 },
         { primary := 1, scanout := 1, surface := 1 }] := by
    unfold OUTPUTMANAGER.afterInit
    rw [hsurf, hopen]
    rfl
  have hrtv0 : (OUTPUTMANAGER.afterInit tbl ienv SingleOutput OutCount DeskBounds).m_RTV
      = some 0 := by
    unfold OUTPUTMANAGER.afterInit
    rw [hrtv hI, hopen]
    rfl
  obtain ⟨r1, _, r3⟩ := run_frame tbl ms
    (OUTPUTMANAGER.afterInit tbl ienv SingleOutput OutCount DeskBounds)
  have hrun := r3 hle
  rw [hsurf0] at r1
  have hsucc := (Present_success_iff tbl (OUTPUTMANAGER.run tbl
    (OUTPUTMANAGER.afterInit tbl ienv SingleOutput OutCount DeskBounds) ms) env).mpr hS
  refine ⟨?_, ?_, ?_, hrun, ?_, ?_⟩
  · have hcases : (OUTPUTMANAGER.run tbl (OUTPUTMANAGER.afterInit tbl ienv SingleOutput OutCount
        DeskBounds) ms).m_OutputSurfaceIndex = 0 ∨ (OUTPUTMANAGER.run tbl
        (OUTPUTMANAGER.afterInit tbl ienv SingleOutput OutCount DeskBounds)
        ms).m_OutputSurfaceIndex = 1 := by omega
    rcases hcases with hc | hc <;>
      simp [OUTPUTMANAGER.Present, hS, executedTasks, r1, hc]
  · simp [OUTPUTMANAGER.Present, hS, signalledValues]
  · rw [Present_index, if_pos hsucc]
    exact xor_one_of_le_one _ hrun
  · rw [hrtv0, h0]
  · simp [OUTPUTMANAGER.Present, hS, executedTasks, hsurf0, h0, hrtv0]

/-- C8 (amended) at a concrete input: the sample manager after one successful cycle and
one wait; the next `Present` submits the scanout of the surface at index 1. -/
theorem C8_scanout_targets_current_index_witness :
    (OUTPUTMANAGER.new.OpenOutput [] sampleInitEnv.openOutput).ret = DUPL_RETURN_SUCCESS ∧
    (OUTPUTMANAGER.new.InitOutput [] sampleInitEnv (-1) 0
      { left := 0, top := 0, right := 0, bottom := 0 }).ret = DUPL_RETURN_SUCCESS ∧
    (OUTPUTMANAGER.run [] (OUTPUTMANAGER.afterInit [] sampleInitEnv (-1) 0
        { left := 0, top := 0, right := 0, bottom := 0 })
      [MethodCall.UpdateApplicationWindow sampleUpdateEnv samplePointer,
       MethodCall.WaitNextVBlank { hrSetEventOnCompletion := S_OK, waited := WAIT_OBJECT_0,
                                   completedValue := 1 }]).m_OutputSurfaceIndex = 1 ∧
    ((OUTPUTMANAGER.run [] (OUTPUTMANAGER.afterInit [] sampleInitEnv (-1) 0
        { left := 0, top := 0, right := 0, bottom := 0 })
      [MethodCall.UpdateApplicationWindow sampleUpdateEnv samplePointer,
       MethodCall.WaitNextVBlank { hrSetEventOnCompletion := S_OK, waited := WAIT_OBJECT_0,
                                   completedValue := 1 }]).Present []
        { hrSignal := S_OK }).state.m_OutputSurfaceIndex
      = 1 - (OUTPUTMANAGER.run [] (OUTPUTMANAGER.afterInit [] sampleInitEnv (-1) 0
        { left := 0, top := 0, right := 0, bottom := 0 })
      [MethodCall.UpdateApplicationWindow sampleUpdateEnv samplePointer,
       MethodCall.WaitNextVBlank { hrSetEventOnCompletion := S_OK, waited := WAIT_OBJECT_0,
                                   completedValue := 1 }]).m_OutputSurfaceIndex :=
  ⟨by decide, by decide, by decide,
   (C8_scanout_targets_current_index [] sampleInitEnv (-1) 0
      { left := 0, top := 0, right := 0, bottom := 0 }
      [MethodCall.UpdateApplicationWindow sampleUpdateEnv samplePointer,
       MethodCall.WaitNextVBlank { hrSetEventOnCompletion := S_OK, waited := WAIT_OBJECT_0,
                                   completedValue := 1 }]
      { hrSignal := S_OK } (by decide) (by decide) (by decide)).2.2.1⟩

/-- A `UINT` below `2^31` keeps its value when converted to `INT`. -/
theorem castINT_of_lt (u : Nat) (h : u < 2 ^ 31) : castINT u = (u : Int) := by
  unfold castINT castHRESULT
  have h1 : u % 2 ^ 32 = u := Nat.mod_eq_of_lt (by omega)
  rw [h1, if_pos h]

/-- The skip offset computed from a negative `LONG` coordinate is its absolute value. -/
theorem castUINT_neg (x : Int) (h0 : x < 0) (h1 : INT_MIN ≤ x) :
    ((castUINT (-1 * x) : Nat) : Int) = -x := by
  unfold castUINT
  unfold INT_MIN at h1
  have : (-1 * x) % (2 ^ 32 : Int) = -x := by omega
  rw [this]
  omega

/-- A `UINT` converted to `INT` and back is unchanged. -/
theorem castUINT_castINT (u : Nat) (h : u < 2 ^ 32) : castUINT (castINT u) = u := by
  unfold castUINT castINT castHRESULT
  have h1 : u % 2 ^ 32 = u := Nat.mod_eq_of_lt h
  rw [h1]
  split_ifs <;> omega

/-- The out-parameters and the pointer state that `ProcessMonoMask` leaves are those of
its clipping arithmetic, on every path. -/
theorem ProcessMonoMask_out (tbl : List HRESULT) (self : OUTPUTMANAGER) (env : MonoMaskEnv)
    (IsMono : Bool) (PtrInfo : PTR_INFO) :
    (self.ProcessMonoMask tbl env IsMono PtrInfo).PtrWidth
      = (OUTPUTMANAGER.ProcessMonoMask.clip self IsMono PtrInfo).PtrWidth ∧
    (self.ProcessMonoMask tbl env IsMono PtrInfo).PtrHeight
      = (OUTPUTMANAGER.ProcessMonoMask.clip self IsMono PtrInfo).PtrHeight ∧
    (self.ProcessMonoMask tbl env IsMono PtrInfo).PtrLeft
      = (OUTPUTMANAGER.ProcessMonoMask.clip self IsMono PtrInfo).PtrLeft ∧
    (self.ProcessMonoMask tbl env IsMono PtrInfo).PtrTop
      = (OUTPUTMANAGER.ProcessMonoMask.clip self IsMono PtrInfo).PtrTop ∧
    (self.ProcessMonoMask tbl env IsMono PtrInfo).PtrInfo
      = (OUTPUTMANAGER.ProcessMonoMask.clip self IsMono PtrInfo).PtrInfo := by
  unfold OUTPUTMANAGER.ProcessMonoMask
  generalize OUTPUTMANAGER.ProcessMonoMask.clip self IsMono PtrInfo = k
  dsimp only
  split_ifs <;> simp

/-- The results of the clipping arithmetic, for a desktop and a shape whose sizes are
below `2^31` (so that the conversions to `INT` keep them). -/
theorem clip_fields (self : OUTPUTMANAGER) (IsMono : Bool) (PtrInfo : PTR_INFO) (W H : Nat)
    (hS : self.m_SharedSurf = some (W, H)) (hW : W < 2 ^ 31) (hH : H < 2 ^ 31)
    (hw : PtrInfo.ShapeInfo.Width < 2 ^ 31)
    (hh : logicalHeight IsMono PtrInfo.ShapeInfo.Height < 2 ^ 31) :
    (OUTPUTMANAGER.ProcessMonoMask.clip self IsMono PtrInfo).PtrWidth
      = (if PtrInfo.Position.x < 0 then PtrInfo.Position.x + PtrInfo.ShapeInfo.Width
         else if PtrInfo.Position.x + PtrInfo.ShapeInfo.Width > W then W - PtrInfo.Position.x
         else PtrInfo.ShapeInfo.Width) ∧
    (OUTPUTMANAGER.ProcessMonoMask.clip self IsMono PtrInfo).PtrHeight
      = (if PtrInfo.Position.y < 0
         then PtrInfo.Position.y + logicalHeight IsMono PtrInfo.ShapeInfo.Height
         else if PtrInfo.Position.y + logicalHeight IsMono PtrInfo.ShapeInfo.Height > H
         then H - PtrInfo.Position.y
         else logicalHeight IsMono PtrInfo.ShapeInfo.Height) ∧
    (OUTPUTMANAGER.ProcessMonoMask.clip self IsMono PtrInfo).PtrLeft
      = (if PtrInfo.Position.x < 0 then 0 else PtrInfo.Position.x) ∧
    (OUTPUTMANAGER.ProcessMonoMask.clip self IsMono PtrInfo).PtrTop
      = (if PtrInfo.Position.y < 0 then 0 else PtrInfo.Position.y) ∧
    (OUTPUTMANAGER.ProcessMonoMask.clip self IsMono PtrInfo).SkipX
      = (if PtrInfo.Position.x < 0 then castUINT (-1 * PtrInfo.Position.x) else 0) ∧
    (OUTPUTMANAGER.ProcessMonoMask.clip self IsMono PtrInfo).SkipY
      = (if PtrInfo.Position.y < 0 then castUINT (-1 * PtrInfo.Position.y) else 0) := by
  have hh2 : castINT (if IsMono = true then PtrInfo.ShapeInfo.Height / 2
      else PtrInfo.ShapeInfo.Height) = (logicalHeight IsMono PtrInfo.ShapeInfo.Height : Int) := by
    rw [← castINT_of_lt _ hh]
    rfl
  simp only [OUTPUTMANAGER.ProcessMonoMask.clip, hS, Option.getD_some, castINT_of_lt _ hW,
    castINT_of_lt _ hH, castINT_of_lt _ hw, hh2, and_self]

/-- The switch of `DrawMouse` for a colour shape: position and size verbatim, no call. -/
theorem shape_of_color (tbl : List HRESULT) (self : OUTPUTMANAGER) (env : DrawMouseEnv)
    (PtrInfo : PTR_INFO)
    (h : PtrInfo.ShapeInfo.ShapeType = DXGI_OUTDUPL_POINTER_SHAPE_TYPE_COLOR) :
    OUTPUTMANAGER.DrawMouse.shape tbl self env PtrInfo =
      { PtrInfo := PtrInfo
        PtrWidth := castINT PtrInfo.ShapeInfo.Width
        PtrHeight := castINT PtrInfo.ShapeInfo.Height
        PtrLeft := PtrInfo.Position.x
        PtrTop := PtrInfo.Position.y
        InitBuffer := none
        calls := [] } := by
  unfold OUTPUTMANAGER.DrawMouse.shape
  rw [if_pos h]

/-- The switch of `DrawMouse` for a monochrome or masked-colour shape: the results of
`ProcessMonoMask`, called with `IsMono` according to the shape type. -/
theorem shape_of_masked (tbl : List HRESULT) (self : OUTPUTMANAGER) (env : DrawMouseEnv)
    (PtrInfo : PTR_INFO)
    (h : PtrInfo.ShapeInfo.ShapeType = DXGI_OUTDUPL_POINTER_SHAPE_TYPE_MONOCHROME ∨
      PtrInfo.ShapeInfo.ShapeType = DXGI_OUTDUPL_POINTER_SHAPE_TYPE_MASKED_COLOR) :
    OUTPUTMANAGER.DrawMouse.shape tbl self env PtrInfo =
      { PtrInfo := (self.ProcessMonoMask tbl env.monoMask
          (decide (PtrInfo.ShapeInfo.ShapeType = DXGI_OUTDUPL_POINTER_SHAPE_TYPE_MONOCHROME))
          PtrInfo).PtrInfo
        PtrWidth := (self.ProcessMonoMask tbl env.monoMask
          (decide (PtrInfo.ShapeInfo.ShapeType = DXGI_OUTDUPL_POINTER_SHAPE_TYPE_MONOCHROME))
          PtrInfo).PtrWidth
        PtrHeight := (self.ProcessMonoMask tbl env.monoMask
          (decide (PtrInfo.ShapeInfo.ShapeType = DXGI_OUTDUPL_POINTER_SHAPE_TYPE_MONOCHROME))
          PtrInfo).PtrHeight
        PtrLeft := (self.ProcessMonoMask tbl env.monoMask
          (decide (PtrInfo.ShapeInfo.ShapeType = DXGI_OUTDUPL_POINTER_SHAPE_TYPE_MONOCHROME))
          PtrInfo).PtrLeft
        PtrTop := (self.ProcessMonoMask tbl env.monoMask
          (decide (PtrInfo.ShapeInfo.ShapeType = DXGI_OUTDUPL_POINTER_SHAPE_TYPE_MONOCHROME))
          PtrInfo).PtrTop
        InitBuffer := (self.ProcessMonoMask tbl env.monoMask
          (decide (PtrInfo.ShapeInfo.ShapeType = DXGI_OUTDUPL_POINTER_SHAPE_TYPE_MONOCHROME))
          PtrInfo).InitBuffer
        calls := (self.ProcessMonoMask tbl env.monoMask
          (decide (PtrInfo.ShapeInfo.ShapeType = DXGI_OUTDUPL_POINTER_SHAPE_TYPE_MONOCHROME))
          PtrInfo).calls } := by
  have hne : ¬ PtrInfo.ShapeInfo.ShapeType = DXGI_OUTDUPL_POINTER_SHAPE_TYPE_COLOR := by
    rcases h with h | h <;> rw [h] <;> decide
  unfold OUTPUTMANAGER.DrawMouse.shape
  rw [if_neg hne, if_pos h]

/-- C13 (as stated) fails: a monochrome pointer of stated size 16x32 at (100, 100) lies
fully inside the 1920x1080 desktop, yet the resolved height is 16, not the stated 32. -/
theorem C13_counterexample_monochrome_height :
    (0 : Int) ≤ ({ monoPointer16x32 with Position := { x := 100, y := 100 } } : PTR_INFO).Position.x ∧
    (100 : Int) + 16 ≤ 1920 ∧ (100 : Int) + 32 ≤ 1080 ∧
    sampleManager.m_SharedSurf = some (1920, 1080) ∧
    (OUTPUTMANAGER.DrawMouse.shape [] sampleManager sampleDrawMouseEnv
        { monoPointer16x32 with Position := { x := 100, y := 100 } }).PtrWidth = 16 ∧
    (OUTPUTMANAGER.DrawMouse.shape [] sampleManager sampleDrawMouseEnv
        { monoPointer16x32 with Position := { x := 100, y := 100 } }).PtrHeight = 16 ∧
    (OUTPUTMANAGER.DrawMouse.shape [] sampleManager sampleDrawMouseEnv
        { monoPointer16x32 with Position := { x := 100, y := 100 } }).PtrHeight
      ≠ (({ monoPointer16x32 with Position := { x := 100, y := 100 } }
          : PTR_INFO).ShapeInfo.Height : Int) := by
  decide

/-- C13 (amended): for every pointer state of one of the three shape kinds whose position
is fully inside the desktop bounds (`0 <= x`, `x + Width <= desktopWidth`, `0 <= y`,
`y + Height <= desktopHeight`, desktop sizes below `2^31`), the switch of `DrawMouse`
resolves the left and top to the position, the width to `ShapeInfo.Width`, and the height
to `ShapeInfo.Height` for a colour or masked-colour shape and to half of it (rounded down)
for a monochrome shape; for the two masked kinds the skip offsets are (0, 0). -/
theorem C13_inside_desktop_resolves_unclipped (tbl : List HRESULT) (self : OUTPUTMANAGER)
    (env : DrawMouseEnv) (PtrInfo : PTR_INFO) (W H : Nat)
    (hS : self.m_SharedSurf = some (W, H)) (hW : W < 2 ^ 31) (hH : H < 2 ^ 31)
    (hT : PtrInfo.ShapeInfo.ShapeType = DXGI_OUTDUPL_POINTER_SHAPE_TYPE_COLOR ∨
      PtrInfo.ShapeInfo.ShapeType = DXGI_OUTDUPL_POINTER_SHAPE_TYPE_MONOCHROME ∨
      PtrInfo.ShapeInfo.ShapeType = DXGI_OUTDUPL_POINTER_SHAPE_TYPE_MASKED_COLOR)
    (hx : 0 ≤ PtrInfo.Position.x) (hxw : PtrInfo.Position.x + PtrInfo.ShapeInfo.Width ≤ W)
    (hy : 0 ≤ PtrInfo.Position.y) (hyh : PtrInfo.Position.y + PtrInfo.ShapeInfo.Height ≤ H) :
    (OUTPUTMANAGER.DrawMouse.shape tbl self env PtrInfo).PtrWidth = PtrInfo.ShapeInfo.Width ∧
    (OUTPUTMANAGER.DrawMouse.shape tbl self env PtrInfo).PtrHeight
      = (if PtrInfo.ShapeInfo.ShapeType = DXGI_OUTDUPL_POINTER_SHAPE_TYPE_MONOCHROME
         then ((PtrInfo.ShapeInfo.Height / 2 : Nat) : Int) else PtrInfo.ShapeInfo.Height) ∧
    (OUTPUTMANAGER.DrawMouse.shape tbl self env PtrInfo).PtrLeft = PtrInfo.Position.x ∧
    (OUTPUTMANAGER.DrawMouse.shape tbl self env PtrInfo).PtrTop = PtrInfo.Position.y ∧
    (PtrInfo.ShapeInfo.ShapeType ≠ DXGI_OUTDUPL_POINTER_SHAPE_TYPE_COLOR →
      (OUTPUTMANAGER.ProcessMonoMask.clip self
        (decide (PtrInfo.ShapeInfo.ShapeType = DXGI_OUTDUPL_POINTER_SHAPE_TYPE_MONOCHROME))
        PtrInfo).SkipX = 0 ∧
      (OUTPUTMANAGER.ProcessMonoMask.clip self
        (decide (PtrInfo.ShapeInfo.ShapeType = DXGI_OUTDUPL_POINTER_SHAPE_TYPE_MONOCHROME))
        PtrInfo).SkipY = 0) := by
  have hw : PtrInfo.ShapeInfo.Width < 2 ^ 31 := by omega
  have hh : PtrInfo.ShapeInfo.Height < 2 ^ 31 := by omega
  have hl : ∀ b : Bool, logicalHeight b PtrInfo.ShapeInfo.Height < 2 ^ 31 := by
    intro b
    unfold logicalHeight
    split_ifs <;> omega
  have hnx : ¬ PtrInfo.Position.x < 0 := by omega
  have hny : ¬ PtrInfo.Position.y < 0 := by omega
  have hclip : ∀ b : Bool,
      (OUTPUTMANAGER.ProcessMonoMask.clip self b PtrInfo).PtrWidth = PtrInfo.ShapeInfo.Width ∧
      (OUTPUTMANAGER.ProcessMonoMask.clip self b PtrInfo).PtrHeight
        = logicalHeight b PtrInfo.ShapeInfo.Height ∧
      (OUTPUTMANAGER.ProcessMonoMask.clip self b PtrInfo).PtrLeft = PtrInfo.Position.x ∧
      (OUTPUTMANAGER.ProcessMonoMask.clip self b PtrInfo).PtrTop = PtrInfo.Position.y ∧
      (OUTPUTMANAGER.ProcessMonoMask.clip self b PtrInfo).SkipX = 0 ∧
      (OUTPUTMANAGER.ProcessMonoMask.clip self b PtrInfo).SkipY = 0 := by
    intro b
    obtain ⟨h1, h2, h3, h4, h5, h6⟩ := clip_fields self b PtrInfo W H hS hW hH hw (hl b)
    have hb : logicalHeight b PtrInfo.ShapeInfo.Height ≤ PtrInfo.ShapeInfo.Height := by
      unfold logicalHeight
      split_ifs <;> omega
    rw [h1, h2, h3, h4, h5, h6]
    simp only [if_neg hnx, if_neg hny, and_true]
    constructor
    · rw [if_neg (by omega)]
    · rw [if_neg (by omega)]
  refine ⟨?_, ?_, ?_, ?_, fun _ => ⟨(hclip _).2.2.2.2.1, (hclip _).2.2.2.2.2⟩⟩
  all_goals
    rcases hT with hc | hm
    · simp [shape_of_color tbl self env PtrInfo hc, hc, castINT_of_lt _ hw, castINT_of_lt _ hh,
        DXGI_OUTDUPL_POINTER_SHAPE_TYPE_COLOR, DXGI_OUTDUPL_POINTER_SHAPE_TYPE_MONOCHROME]
    · rw [shape_of_masked tbl self env PtrInfo hm]
      obtain ⟨o1, o2, o3, o4, _⟩ := ProcessMonoMask_out tbl self env.monoMask
        (decide (PtrInfo.ShapeInfo.ShapeType = DXGI_OUTDUPL_POINTER_SHAPE_TYPE_MONOCHROME)) PtrInfo
      obtain ⟨h1, h2, h3, h4, _, _⟩ := hclip
        (decide (PtrInfo.ShapeInfo.ShapeType = DXGI_OUTDUPL_POINTER_SHAPE_TYPE_MONOCHROME))
      simp only [o1, o2, o3, o4, h1, h2, h3, h4]
      try (unfold logicalHeight; split_ifs <;> simp_all)

/-- C13 (amended) at a concrete input: the monochrome 16x32 pointer at (100, 100) on the
1920x1080 desktop resolves to 16 wide and 16 high. -/
theorem C13_inside_desktop_resolves_unclipped_witness :
    sampleManager.m_SharedSurf = some (1920, 1080) ∧
    (OUTPUTMANAGER.DrawMouse.shape [] sampleManager sampleDrawMouseEnv
        { monoPointer16x32 with Position := { x := 100, y := 100 } }).PtrWidth
      = (({ monoPointer16x32 with Position := { x := 100, y := 100 } }
          : PTR_INFO).ShapeInfo.Width : Int) :=
  ⟨by decide,
   (C13_inside_desktop_resolves_unclipped [] sampleManager sampleDrawMouseEnv
      { monoPointer16x32 with Position := { x := 100, y := 100 } } 1920 1080
      (by decide) (by decide) (by decide) (Or.inr (Or.inl (by decide)))
      (by decide) (by decide) (by decide) (by decide)).1⟩

/-- C14: for every pointer position with negative X (in the `LONG` range, shape width
below `2^31`), whether or not the right edge overflows, `PtrWidth + SkipX` equals
`ShapeInfo.Width`, `SkipX` is `|x|` and `PtrLeft` is 0; for every negative Y,
`PtrHeight + SkipY` equals the shape height used for clipping (half the stated height for
a monochrome shape), `SkipY` is `|y|` and `PtrTop` is 0. -/
theorem C14_negative_side_clip (tbl : List HRESULT) (self : OUTPUTMANAGER) (env : MonoMaskEnv)
    (IsMono : Bool) (PtrInfo : PTR_INFO)
    (hw : PtrInfo.ShapeInfo.Width < 2 ^ 31)
    (hh : logicalHeight IsMono PtrInfo.ShapeInfo.Height < 2 ^ 31)
    (hxr : INT_MIN ≤ PtrInfo.Position.x) (hyr : INT_MIN ≤ PtrInfo.Position.y) :
    (PtrInfo.Position.x < 0 →
      (self.ProcessMonoMask tbl env IsMono PtrInfo).PtrWidth
          + (OUTPUTMANAGER.ProcessMonoMask.clip self IsMono PtrInfo).SkipX
        = PtrInfo.ShapeInfo.Width ∧
      (OUTPUTMANAGER.ProcessMonoMask.clip self IsMono PtrInfo).SkipX
        = PtrInfo.Position.x.natAbs ∧
      (self.ProcessMonoMask tbl env IsMono PtrInfo).PtrLeft = 0) ∧
    (PtrInfo.Position.y < 0 →
      (self.ProcessMonoMask tbl env IsMono PtrInfo).PtrHeight
          + (OUTPUTMANAGER.ProcessMonoMask.clip self IsMono PtrInfo).SkipY
        = logicalHeight IsMono PtrInfo.ShapeInfo.Height ∧
      (OUTPUTMANAGER.ProcessMonoMask.clip self IsMono PtrInfo).SkipY
        = PtrInfo.Position.y.natAbs ∧
      (self.ProcessMonoMask tbl env IsMono PtrInfo).PtrTop = 0) := by
  obtain ⟨o1, o2, o3, o4, _⟩ := ProcessMonoMask_out tbl self env IsMono PtrInfo
  have hh2 : castINT (if IsMono = true then PtrInfo.ShapeInfo.Height / 2
      else PtrInfo.ShapeInfo.Height) = (logicalHeight IsMono PtrInfo.ShapeInfo.Height : Int) := by
    rw [← castINT_of_lt _ hh]
    rfl
  rw [o1, o2, o3, o4]
  constructor
  · intro hx
    have hs := castUINT_neg _ hx hxr
    simp only [OUTPUTMANAGER.ProcessMonoMask.clip, if_pos hx, castINT_of_lt _ hw, and_true]
    constructor <;> omega
  · intro hy
    have hs := castUINT_neg _ hy hyr
    simp only [OUTPUTMANAGER.ProcessMonoMask.clip, if_pos hy, hh2, and_true]
    constructor <;> omega

/-- C14 at a concrete input: the monochrome 16x32 pointer at (-5, -3) on the 800x600
desktop: width 11 with skip 5, height 13 with skip 3. -/
theorem C14_negative_side_clip_witness :
    (({ monoPointer16x32 with Position := { x := -5, y := -3 } } : PTR_INFO).Position.x < 0) ∧
    (desktop800x600.ProcessMonoMask [] sampleMonoMaskEnv true
        { monoPointer16x32 with Position := { x := -5, y := -3 } }).PtrWidth = 11 ∧
    (OUTPUTMANAGER.ProcessMonoMask.clip desktop800x600 true
        { monoPointer16x32 with Position := { x := -5, y := -3 } }).SkipX = 5 ∧
    (desktop800x600.ProcessMonoMask [] sampleMonoMaskEnv true
        { monoPointer16x32 with Position := { x := -5, y := -3 } }).PtrWidth
        + (OUTPUTMANAGER.ProcessMonoMask.clip desktop800x600 true
            { monoPointer16x32 with Position := { x := -5, y := -3 } }).SkipX
      = (({ monoPointer16x32 with Position := { x := -5, y := -3 } }
          : PTR_INFO).ShapeInfo.Width : Int) :=
  ⟨by decide, by decide, by decide,
   ((C14_negative_side_clip [] desktop800x600 sampleMonoMaskEnv true
      { monoPointer16x32 with Position := { x := -5, y := -3 } }
      (by decide) (by decide) (by decide) (by decide)).1 (by decide)).1⟩

/-- C15: for desktop and shape sizes below `2^31`, a pointer with `x >= 0` and
`x + Width > desktopWidth` is clipped to the width `desktopWidth - x`, and one with
`y >= 0` and `y + logicalHeight > desktopHeight` to the height `desktopHeight - y`
(`logicalHeight` is `Height / 2` for a monochrome shape); for the 800x600 desktop and the
monochrome 16x32 shape at (-5, 590) the result is `PtrWidth = 11`, `SkipX = 5`,
`PtrHeight = 10`, `SkipY = 0`, `PtrLeft = 0`, `PtrTop = 590`. -/
theorem C15_far_side_clip (tbl : List HRESULT) (self : OUTPUTMANAGER) (env : MonoMaskEnv)
    (IsMono : Bool) (PtrInfo : PTR_INFO) (W H : Nat)
    (hS : self.m_SharedSurf = some (W, H)) (hW : W < 2 ^ 31) (hH : H < 2 ^ 31)
    (hw : PtrInfo.ShapeInfo.Width < 2 ^ 31)
    (hh : logicalHeight IsMono PtrInfo.ShapeInfo.Height < 2 ^ 31) :
    (0 ≤ PtrInfo.Position.x → PtrInfo.Position.x + PtrInfo.ShapeInfo.Width > W →
      (self.ProcessMonoMask tbl env IsMono PtrInfo).PtrWidth = W - PtrInfo.Position.x) ∧
    (0 ≤ PtrInfo.Position.y →
      PtrInfo.Position.y + logicalHeight IsMono PtrInfo.ShapeInfo.Height > H →
      (self.ProcessMonoMask tbl env IsMono PtrInfo).PtrHeight = H - PtrInfo.Position.y) ∧
    logicalHeight true 32 = 16 ∧
    (desktop800x600.ProcessMonoMask tbl env true monoPointer16x32).PtrWidth = 11 ∧
    (OUTPUTMANAGER.ProcessMonoMask.clip desktop800x600 true monoPointer16x32).SkipX = 5 ∧
    (desktop800x600.ProcessMonoMask tbl env true monoPointer16x32).PtrHeight = 10 ∧
    (OUTPUTMANAGER.ProcessMonoMask.clip desktop800x600 true monoPointer16x32).SkipY = 0 ∧
    (desktop800x600.ProcessMonoMask tbl env true monoPointer16x32).PtrLeft = 0 ∧
    (desktop800x600.ProcessMonoMask tbl env true monoPointer16x32).PtrTop = 590 := by
  obtain ⟨o1, o2, _, _, _⟩ := ProcessMonoMask_out tbl self env IsMono PtrInfo
  obtain ⟨h1, h2, _, _, _, _⟩ := clip_fields self IsMono PtrInfo W H hS hW hH hw hh
  obtain ⟨e1, e2, e3, e4, _⟩ := ProcessMonoMask_out tbl desktop800x600 env true monoPointer16x32
  rw [o1, o2, h1, h2, e1, e2, e3, e4]
  refine ⟨?_, ?_, by decide, by decide, by decide, by decide, by decide, by decide, by decide⟩
  · intro hx ho
    rw [if_neg (by omega), if_pos ho]
  · intro hy ho
    rw [if_neg (by omega), if_pos ho]

/-- C15 at a concrete input: a masked-colour 32x32 pointer at (790, 590) on the 800x600
desktop is clipped to 10x10. -/
theorem C15_far_side_clip_witness :
    desktop800x600.m_SharedSurf = some (800, 600) ∧
    ((0 : Int) ≤ ({ maskedPointerOutside with Position := { x := 790, y := 590 } }
      : PTR_INFO).Position.x) ∧
    (desktop800x600.ProcessMonoMask [] sampleMonoMaskEnv false
        { maskedPointerOutside with Position := { x := 790, y := 590 } }).PtrWidth
      = ((800 : Nat) : Int) - ({ maskedPointerOutside with Position := { x := 790, y := 590 } }
          : PTR_INFO).Position.x :=
  ⟨by decide, by decide,
   (C15_far_side_clip [] desktop800x600 sampleMonoMaskEnv false
      { maskedPointerOutside with Position := { x := 790, y := 590 } } 800 600
      (by decide) (by decide) (by decide) (by decide) (by decide)).1 (by decide) (by decide)⟩

/-- C18 (as stated) fails: on the 800x600 desktop a 32x32 pointer at (-40, 10) lies
entirely left of the desktop and gets the negative width -8, and a pointer 1000 pixels
wide at (-100, 10) overflows both the left and the right edge and gets the width 900, so
that `PtrLeft + PtrWidth` exceeds the desktop width. -/
theorem C18_counterexample_outside_and_both_edges :
    desktop800x600.m_SharedSurf = some (800, 600) ∧
    (desktop800x600.ProcessMonoMask [] sampleMonoMaskEnv false maskedPointerOutside).PtrWidth
      = -8 ∧
    ¬ (0 ≤ (desktop800x600.ProcessMonoMask [] sampleMonoMaskEnv false
        maskedPointerOutside).PtrWidth) ∧
    (desktop800x600.ProcessMonoMask [] sampleMonoMaskEnv false maskedPointerWide).PtrLeft = 0 ∧
    (desktop800x600.ProcessMonoMask [] sampleMonoMaskEnv false maskedPointerWide).PtrWidth
      = 900 ∧
    ¬ ((desktop800x600.ProcessMonoMask [] sampleMonoMaskEnv false maskedPointerWide).PtrLeft
        + (desktop800x600.ProcessMonoMask [] sampleMonoMaskEnv false maskedPointerWide).PtrWidth
      ≤ 800) := by
  decide

/-- C18 (amended): for desktop and shape sizes below `2^31`, if the pointer meets the
desktop and is clipped on at most one side of an axis (`x < 0` with
`0 <= x + Width <= desktopWidth`, or `0 <= x <= desktopWidth`; for Y likewise with the
logical height), then on that axis the clipped interval is exactly the intersection of the
cursor interval with the desktop interval: it starts at `max x 0`, ends at
`min (x + Width) desktopWidth`, has a non-negative length and ends inside the desktop. The
box handed to `CopySubresourceRegion` is made of these intervals. -/
theorem C18_clip_is_visible_portion (tbl : List HRESULT) (self : OUTPUTMANAGER)
    (env : MonoMaskEnv) (IsMono : Bool) (PtrInfo : PTR_INFO) (W H : Nat)
    (hS : self.m_SharedSurf = some (W, H)) (hW : W < 2 ^ 31) (hH : H < 2 ^ 31)
    (hw : PtrInfo.ShapeInfo.Width < 2 ^ 31)
    (hh : logicalHeight IsMono PtrInfo.ShapeInfo.Height < 2 ^ 31) :
    ((PtrInfo.Position.x < 0 → 0 ≤ PtrInfo.Position.x + PtrInfo.ShapeInfo.Width ∧
        PtrInfo.Position.x + PtrInfo.ShapeInfo.Width ≤ W) →
     (0 ≤ PtrInfo.Position.x → PtrInfo.Position.x ≤ W) →
      (self.ProcessMonoMask tbl env IsMono PtrInfo).PtrLeft = max PtrInfo.Position.x 0 ∧
      (self.ProcessMonoMask tbl env IsMono PtrInfo).PtrLeft
          + (self.ProcessMonoMask tbl env IsMono PtrInfo).PtrWidth
        = min (PtrInfo.Position.x + PtrInfo.ShapeInfo.Width) W ∧
      0 ≤ (self.ProcessMonoMask tbl env IsMono PtrInfo).PtrWidth ∧
      (self.ProcessMonoMask tbl env IsMono PtrInfo).PtrLeft
          + (self.ProcessMonoMask tbl env IsMono PtrInfo).PtrWidth ≤ W) ∧
    ((PtrInfo.Position.y < 0 →
        0 ≤ PtrInfo.Position.y + logicalHeight IsMono PtrInfo.ShapeInfo.Height ∧
        PtrInfo.Position.y + logicalHeight IsMono PtrInfo.ShapeInfo.Height ≤ H) →
     (0 ≤ PtrInfo.Position.y → PtrInfo.Position.y ≤ H) →
      (self.ProcessMonoMask tbl env IsMono PtrInfo).PtrTop = max PtrInfo.Position.y 0 ∧
      (self.ProcessMonoMask tbl env IsMono PtrInfo).PtrTop
          + (self.ProcessMonoMask tbl env IsMono PtrInfo).PtrHeight
        = min (PtrInfo.Position.y + logicalHeight IsMono PtrInfo.ShapeInfo.Height) H ∧
      0 ≤ (self.ProcessMonoMask tbl env IsMono PtrInfo).PtrHeight ∧
      (self.ProcessMonoMask tbl env IsMono PtrInfo).PtrTop
          + (self.ProcessMonoMask tbl env IsMono PtrInfo).PtrHeight ≤ H) ∧
    (FAILED env.hrCreateTexture2D = false →
      Call.CopySubresourceRegion
          (self.ProcessMonoMask tbl env IsMono PtrInfo).PtrLeft
          (self.ProcessMonoMask tbl env IsMono PtrInfo).PtrTop
          ((self.ProcessMonoMask tbl env IsMono PtrInfo).PtrLeft
            + (self.ProcessMonoMask tbl env IsMono PtrInfo).PtrWidth)
          ((self.ProcessMonoMask tbl env IsMono PtrInfo).PtrTop
            + (self.ProcessMonoMask tbl env IsMono PtrInfo).PtrHeight)
        ∈ (self.ProcessMonoMask tbl env IsMono PtrInfo).calls) := by
  obtain ⟨o1, o2, o3, o4, _⟩ := ProcessMonoMask_out tbl self env IsMono PtrInfo
  obtain ⟨h1, h2, h3, h4, _, _⟩ := clip_fields self IsMono PtrInfo W H hS hW hH hw hh
  refine ⟨?_, ?_, ?_⟩
  · intro hneg hpos
    rw [o1, o3, h1, h3]
    by_cases hx : PtrInfo.Position.x < 0
    · obtain ⟨ha, hb⟩ := hneg hx
      simp only [if_pos hx]
      omega
    · have hc := hpos (by omega)
      simp only [if_neg hx]
      split_ifs <;> omega
  · intro hneg hpos
    rw [o2, o4, h2, h4]
    by_cases hy : PtrInfo.Position.y < 0
    · obtain ⟨ha, hb⟩ := hneg hy
      simp only [if_pos hy]
      omega
    · have hc := hpos (by omega)
      simp only [if_neg hy]
      split_ifs <;> omega
  · intro hCT
    rw [o1, o2, o3, o4]
    unfold OUTPUTMANAGER.ProcessMonoMask
    generalize OUTPUTMANAGER.ProcessMonoMask.clip self IsMono PtrInfo = k
    simp only [hCT, Bool.false_eq_true, if_false]
    split_ifs <;> simp

/-- C18 (amended) at a concrete input: the monochrome 16x32 pointer at (-5, 590) on the
800x600 desktop; the clipped rectangle is [0, 11) x [590, 600). -/
theorem C18_clip_is_visible_portion_witness :
    desktop800x600.m_SharedSurf = some (800, 600) ∧
    (desktop800x600.ProcessMonoMask [] sampleMonoMaskEnv true monoPointer16x32).PtrLeft
        + (desktop800x600.ProcessMonoMask [] sampleMonoMaskEnv true monoPointer16x32).PtrWidth
      = min (monoPointer16x32.Position.x + monoPointer16x32.ShapeInfo.Width) ((800 : Nat) : Int) ∧
    (desktop800x600.ProcessMonoMask [] sampleMonoMaskEnv true monoPointer16x32).PtrTop
        + (desktop800x600.ProcessMonoMask [] sampleMonoMaskEnv true monoPointer16x32).PtrHeight
      = min (monoPointer16x32.Position.y
          + logicalHeight true monoPointer16x32.ShapeInfo.Height) ((600 : Nat) : Int) :=
  ⟨by decide,
   ((C18_clip_is_visible_portion [] desktop800x600 sampleMonoMaskEnv true monoPointer16x32 800 600
      (by decide) (by decide) (by decide) (by decide) (by decide)).1
      (fun _ => by decide) (fun h => absurd h (by decide))).2.1,
   ((C18_clip_is_visible_portion [] desktop800x600 sampleMonoMaskEnv true monoPointer16x32 800 600
      (by decide) (by decide) (by decide) (by decide) (by decide)).2.1
      (fun h => absurd h (by decide)) (fun _ => by decide)).2.1⟩

/-- C16: for a colour shape (sizes in the `UINT` range) the switch of `DrawMouse` makes no
call and allocates no buffer, and takes the rectangle verbatim: left `Position.x`, top
`Position.y`, width and height the values of `ShapeInfo.Width` and `ShapeInfo.Height`
converted to `INT` (the values themselves below `2^31`); `DrawMouse` unmaps, maps or
copies no staging surface, leaves the pointer state as it is, and its first collaborator
call creates the cursor texture with width `ShapeInfo.Width`, height `ShapeInfo.Height`,
the raw `PtrShapeBuffer` as initial data and `ShapeInfo.Pitch` as row pitch. -/
theorem C16_color_shape_passthrough (tbl : List HRESULT) (self : OUTPUTMANAGER)
    (env : DrawMouseEnv) (PtrInfo : PTR_INFO)
    (hT : PtrInfo.ShapeInfo.ShapeType = DXGI_OUTDUPL_POINTER_SHAPE_TYPE_COLOR)
    (hw : PtrInfo.ShapeInfo.Width < 2 ^ 32) (hh : PtrInfo.ShapeInfo.Height < 2 ^ 32) :
    (OUTPUTMANAGER.DrawMouse.shape tbl self env PtrInfo).calls = [] ∧
    (OUTPUTMANAGER.DrawMouse.shape tbl self env PtrInfo).InitBuffer = none ∧
    (OUTPUTMANAGER.DrawMouse.shape tbl self env PtrInfo).PtrLeft = PtrInfo.Position.x ∧
    (OUTPUTMANAGER.DrawMouse.shape tbl self env PtrInfo).PtrTop = PtrInfo.Position.y ∧
    (OUTPUTMANAGER.DrawMouse.shape tbl self env PtrInfo).PtrWidth
      = castINT PtrInfo.ShapeInfo.Width ∧
    (OUTPUTMANAGER.DrawMouse.shape tbl self env PtrInfo).PtrHeight
      = castINT PtrInfo.ShapeInfo.Height ∧
    (PtrInfo.ShapeInfo.Width < 2 ^ 31 →
      (OUTPUTMANAGER.DrawMouse.shape tbl self env PtrInfo).PtrWidth = PtrInfo.ShapeInfo.Width) ∧
    (PtrInfo.ShapeInfo.Height < 2 ^ 31 →
      (OUTPUTMANAGER.DrawMouse.shape tbl self env PtrInfo).PtrHeight = PtrInfo.ShapeInfo.Height) ∧
    (self.DrawMouse tbl env PtrInfo).2.1.take 2
      = [Call.DrawMouse,
         Call.CreateTexture2D PtrInfo.ShapeInfo.Width PtrInfo.ShapeInfo.Height
           (SysMem.bytes PtrInfo.PtrShapeBuffer) PtrInfo.ShapeInfo.Pitch] ∧
    (∀ w h, Call.CreateStagingTexture w h ∉ (self.DrawMouse tbl env PtrInfo).2.1) ∧
    (∀ l t r b, Call.CopySubresourceRegion l t r b ∉ (self.DrawMouse tbl env PtrInfo).2.1) ∧
    Call.Map ∉ (self.DrawMouse tbl env PtrInfo).2.1 ∧
    Call.Unmap ∉ (self.DrawMouse tbl env PtrInfo).2.1 ∧
    (self.DrawMouse tbl env PtrInfo).1 = PtrInfo := by
  have hs := shape_of_color tbl self env PtrInfo hT
  refine ⟨by rw [hs], by rw [hs], by rw [hs], by rw [hs], by rw [hs], by rw [hs], ?_, ?_, ?_, ?_,
    ?_, ?_, ?_, ?_⟩
  · intro h
    rw [hs]
    exact castINT_of_lt _ h
  · intro h
    rw [hs]
    exact castINT_of_lt _ h
  all_goals
    unfold OUTPUTMANAGER.DrawMouse
    rw [hs]
    simp only [hT, decide_True, if_true, castUINT_castINT _ hw, castUINT_castINT _ hh]
    split_ifs <;> simp

/-- C16 at a concrete input: the colour 32x32 pointer at (100, 100) on the 1920x1080
desktop. -/
theorem C16_color_shape_passthrough_witness :
    sampleManager.m_SharedSurf = some (1920, 1080) ∧
    colorPointer32x32.ShapeInfo.ShapeType = DXGI_OUTDUPL_POINTER_SHAPE_TYPE_COLOR ∧
    (sampleManager.DrawMouse [] sampleDrawMouseEnv colorPointer32x32).2.1.take 2
      = [Call.DrawMouse,
         Call.CreateTexture2D colorPointer32x32.ShapeInfo.Width colorPointer32x32.ShapeInfo.Height
           (SysMem.bytes colorPointer32x32.PtrShapeBuffer) colorPointer32x32.ShapeInfo.Pitch] :=
  ⟨by decide, by decide,
   (C16_color_shape_passthrough [] sampleManager sampleDrawMouseEnv colorPointer32x32
      (by decide) (by decide) (by decide)).2.2.2.2.2.2.2.2.1⟩

/-- C17 at the failing input: a monochrome pointer, every collaborator call succeeding
except `Unmap` at the end of `ProcessMonoMask`. `ProcessMonoMask` returns a failure, yet
`DrawMouse` goes on to create the cursor texture from the resolved buffer, issues the
draw call and returns success. With the allocation returning no buffer instead,
`DrawMouse` still calls `CreateTexture2D`, with null initial data. -/
theorem C17_resolution_failure_not_checked :
    (sampleManager.ProcessMonoMask [] { monoMaskEnv2x2 with hrUnmap := E_FAIL } true
        monoPointer2x2).ret ≠ DUPL_RETURN_SUCCESS ∧
    Call.CreateTexture2D 2 2 (SysMem.words [0x11000000, 0x55000000, 0x01FDFCFB, 0x05F9F8F7]) 8
      ∈ (sampleManager.DrawMouse []
          { sampleDrawMouseEnv with monoMask := { monoMaskEnv2x2 with hrUnmap := E_FAIL } }
          monoPointer2x2).2.1 ∧
    Call.Draw NUMVERTICES
      ∈ (sampleManager.DrawMouse []
          { sampleDrawMouseEnv with monoMask := { monoMaskEnv2x2 with hrUnmap := E_FAIL } }
          monoPointer2x2).2.1 ∧
    (sampleManager.DrawMouse []
        { sampleDrawMouseEnv with monoMask := { monoMaskEnv2x2 with hrUnmap := E_FAIL } }
        monoPointer2x2).2.2 = DUPL_RETURN_SUCCESS ∧
    (sampleManager.ProcessMonoMask [] { monoMaskEnv2x2 with allocated := false } true
        monoPointer2x2).ret ≠ DUPL_RETURN_SUCCESS ∧
    Call.CreateTexture2D 2 2 SysMem.null 8
      ∈ (sampleManager.DrawMouse []
          { sampleDrawMouseEnv with monoMask := { monoMaskEnv2x2 with allocated := false } }
          monoPointer2x2).2.1 := by
  decide

/-- C19 at the failing input: with `OpenSharedFence`, the last step of `OpenOutput`,
failing and every other call succeeding, `OpenOutput` returns a failure, yet `InitOutput`
goes on to `CreateSharedSurf` and returns success; with no matching display target
`OpenOutput` fails at once and `InitOutput` still goes on to `CreateSharedSurf`. -/
theorem C19_OpenOutput_failure_not_checked :
    (OUTPUTMANAGER.new.OpenOutput []
        { sampleInitEnv.openOutput with hrOpenSharedFence := E_FAIL }).ret
      ≠ DUPL_RETURN_SUCCESS ∧
    Call.CreateSharedSurf
      ∈ (OUTPUTMANAGER.new.InitOutput []
          { sampleInitEnv with
            openOutput := { sampleInitEnv.openOutput with hrOpenSharedFence := E_FAIL } }
          (-1) 0 { left := 0, top := 0, right := 0, bottom := 0 }).calls ∧
    (OUTPUTMANAGER.new.InitOutput []
        { sampleInitEnv with
          openOutput := { sampleInitEnv.openOutput with hrOpenSharedFence := E_FAIL } }
        (-1) 0 { left := 0, top := 0, right := 0, bottom := 0 }).ret = DUPL_RETURN_SUCCESS ∧
    (OUTPUTMANAGER.new.OpenOutput []
        { sampleInitEnv.openOutput with targetFound := false }).ret
      ≠ DUPL_RETURN_SUCCESS ∧
    Call.CreateSharedSurf
      ∈ (OUTPUTMANAGER.new.InitOutput []
          { sampleInitEnv with
            openOutput := { sampleInitEnv.openOutput with targetFound := false } }
          (-1) 0 { left := 0, top := 0, right := 0, bottom := 0 }).calls := by
  decide

/-- The initial bit mask shifted by `k < 8` is the power of two `2^(7-k)`. -/
theorem mask_pow (k : Nat) (hk : k < 8) : 0x80 >>> k = 2 ^ (7 - k) := by
  interval_cases k <;> rfl

/-- One adjustment of the running bit mask moves it to the next bit position, wrapping
from the last bit of a byte to the first. -/
theorem mask_step : ∀ k < 8, (if (0x80 >>> k) = 0x01 then 0x80 else (0x80 >>> k) >>> 1)
    = 0x80 >>> ((k + 1) % 8) := by decide

/-- Masking with a power of two tests that bit. -/
theorem and_two_pow_ne_zero (b j : Nat) : b &&& 2 ^ j ≠ 0 ↔ b.testBit j = true := by
  constructor
  · intro h
    by_contra hb
    apply h
    apply Nat.eq_of_testBit_eq
    intro i
    simp only [Nat.testBit_and, Nat.testBit_two_pow, Nat.zero_testBit]
    by_cases hij : j = i
    · subst hij; simp [hb]
    · simp [hij]
  · intro hb h
    have := congrArg (fun n => n.testBit j) h
    simp [hb, Nat.testBit_two_pow_self] at this

/-- Masking with `0xFF000000` keeps the top byte in place. -/
theorem and_top_byte (s : Nat) : 0xFF000000 &&& s = topByte s * 2 ^ 24 := by
  unfold topByte
  apply Nat.eq_of_testBit_eq
  intro i
  have h1 : (0xFF000000 : Nat) = (2 ^ 8 - 1) <<< 24 := by decide
  have h2 : (256 : Nat) = 2 ^ 8 := by decide
  rw [h1, h2, ← Nat.shiftLeft_eq, ← Nat.shiftRight_eq_div_pow]
  simp only [Nat.testBit_and, Nat.testBit_shiftLeft, Nat.testBit_two_pow_sub_one,
    Nat.testBit_mod_two_pow, Nat.testBit_shiftRight]
  by_cases hi : 24 ≤ i
  · have : 24 + (i - 24) = i := by omega
    simp [hi, this, Bool.and_assoc]
  · simp [hi]

/-- A read inside a list yields the element. -/
theorem getElem?_eq_some_getD (l : List Nat) (i : Nat) (h : i < l.length) :
    l[i]? = some (l.getD i 0) := by
  simp [List.getD, List.getElem?_eq_getElem h]

/-- The inner loop of the monochrome branch, when every read stays inside its buffer and
no index wraps: the pixels of the row as the specification words them. -/
theorem monoCols_spec (P : PTR_INFO) (D : List Nat) (dp SkipX SkipY Row : Nat)
    (hLs : P.PtrShapeBuffer.length ≤ UINT32_MOD) (hLd : D.length ≤ UINT32_MOD)
    (hrw : Row + SkipY + P.ShapeInfo.Height / 2 < UINT32_MOD) :
    ∀ (n Col Mask : Nat), Mask = 0x80 >>> ((Col + SkipX) % 8) →
      (∀ c, Col ≤ c → c < Col + n → c + SkipX < UINT32_MOD ∧
        monoReadsInBounds P.PtrShapeBuffer D P.ShapeInfo.Pitch P.ShapeInfo.Height dp SkipX SkipY
          Row c) →
      monoCols P D dp SkipX SkipY Row n Col Mask
        = some ((List.range n).map (fun j =>
            monoPixel P.PtrShapeBuffer (D.getD (Row * dp + (Col + j)) 0) P.ShapeInfo.Pitch
              P.ShapeInfo.Height SkipX SkipY Row (Col + j))) := by
  intro n
  induction n with
  | zero => intro Col Mask _ _; rfl
  | succ n ih =>
    intro Col Mask hMask hin
    obtain ⟨hcw, hs, hd⟩ := hin Col (Nat.le_refl _) (by omega)
    unfold UINT32_MOD at hLs hLd hrw hcw
    have hmul : (Row + SkipY + P.ShapeInfo.Height / 2) * P.ShapeInfo.Pitch
        = (Row + SkipY) * P.ShapeInfo.Pitch + P.ShapeInfo.Height / 2 * P.ShapeInfo.Pitch := by
      rw [Nat.add_mul]
    have e1 : ((Col + SkipX) % 2 ^ 32 / 8
        + (Row + SkipY) % 2 ^ 32 * P.ShapeInfo.Pitch % 2 ^ 32) % 2 ^ 32
        = (Col + SkipX) / 8 + (Row + SkipY) * P.ShapeInfo.Pitch := by
      rw [Nat.mod_eq_of_lt hcw, Nat.mod_eq_of_lt (show Row + SkipY < 2 ^ 32 by omega),
        Nat.mod_eq_of_lt (show (Row + SkipY) * P.ShapeInfo.Pitch < 2 ^ 32 by omega),
        Nat.mod_eq_of_lt (by omega)]
    have e2 : ((Col + SkipX) % 2 ^ 32 / 8
        + (Row + SkipY + P.ShapeInfo.Height / 2) % 2 ^ 32 * P.ShapeInfo.Pitch % 2 ^ 32) % 2 ^ 32
        = (Col + SkipX) / 8 + (Row + SkipY) * P.ShapeInfo.Pitch
          + P.ShapeInfo.Height / 2 * P.ShapeInfo.Pitch := by
      rw [Nat.mod_eq_of_lt hcw, Nat.mod_eq_of_lt hrw, hmul,
        Nat.mod_eq_of_lt (show (Row + SkipY) * P.ShapeInfo.Pitch
          + P.ShapeInfo.Height / 2 * P.ShapeInfo.Pitch < 2 ^ 32 by omega),
        Nat.mod_eq_of_lt (by omega)]
      omega
    have e3 : (Row * dp % 2 ^ 32 + Col) % 2 ^ 32 = Row * dp + Col := by
      rw [Nat.mod_eq_of_lt (show Row * dp < 2 ^ 32 by omega), Nat.mod_eq_of_lt (by omega)]
    have hk : (Col + SkipX) % 8 < 8 := Nat.mod_lt _ (by decide)
    have hMask' : (if Mask = 0x01 then 0x80 else Mask >>> 1) = 0x80 >>> ((Col + 1 + SkipX) % 8) := by
      rw [hMask, mask_step _ hk]
      congr 1
      omega
    have ih' := ih (Col + 1) _ hMask' (fun c h1 h2 => hin c (by omega) (by omega))
    rw [monoCols]
    simp only [UINT32_MOD, e1, e2, e3, getElem?_eq_some_getD _ _ (show (Col + SkipX) / 8
      + (Row + SkipY) * P.ShapeInfo.Pitch < P.PtrShapeBuffer.length by omega),
      getElem?_eq_some_getD _ _ hs, getElem?_eq_some_getD _ _ hd, Option.bind_eq_bind,
      Option.some_bind, ih', Option.pure_def]
    rw [List.range_succ_eq_map, List.map_cons, List.map_map]
    congr 2
    · simp only [monoPixel, hMask, mask_pow _ hk, and_two_pow_ne_zero, Nat.add_zero]
    · apply List.map_congr_left
      intro j _
      simp only [Function.comp, Nat.add_assoc, Nat.add_comm 1 j]

/-- The word `Buffer32[i]` when its four bytes lie inside the shape buffer. -/
theorem Buffer32_eq (shape : List Nat) (i : Nat) (h : 4 * i + 3 < shape.length) :
    Buffer32 shape i = some (shapePixel shape i) := by
  unfold Buffer32 shapePixel
  simp only [getElem?_eq_some_getD _ _ (show 4 * i < shape.length by omega),
    getElem?_eq_some_getD _ _ (show 4 * i + 1 < shape.length by omega),
    getElem?_eq_some_getD _ _ (show 4 * i + 2 < shape.length by omega),
    getElem?_eq_some_getD _ _ h, Option.bind_eq_bind, Option.some_bind, Option.pure_def]

/-- The inner loop of the masked-colour branch, when every read stays inside its buffer
and no index wraps: the pixels of the row as the specification words them. -/
theorem maskedCols_spec (P : PTR_INFO) (D : List Nat) (dp SkipX SkipY Row : Nat)
    (hLs : P.PtrShapeBuffer.length ≤ UINT32_MOD) (hLd : D.length ≤ UINT32_MOD)
    (hrw : Row + SkipY < UINT32_MOD) :
    ∀ (n Col : Nat),
      (∀ c, Col ≤ c → c < Col + n → c + SkipX < UINT32_MOD ∧
        maskedReadsInBounds P.PtrShapeBuffer D P.ShapeInfo.Pitch dp SkipX SkipY Row c) →
      maskedCols P D dp SkipX SkipY Row n Col
        = some ((List.range n).map (fun j =>
            maskedPixel P.PtrShapeBuffer (D.getD (Row * dp + (Col + j)) 0) P.ShapeInfo.Pitch
              SkipX SkipY Row (Col + j))) := by
  intro n
  induction n with
  | zero => intro Col _; rfl
  | succ n ih =>
    intro Col hin
    obtain ⟨hcw, hs, hd⟩ := hin Col (Nat.le_refl _) (by omega)
    unfold UINT32_MOD at hLs hLd hrw hcw
    have e1 : ((Col + SkipX) % 2 ^ 32
        + (Row + SkipY) % 2 ^ 32 * (P.ShapeInfo.Pitch / 4) % 2 ^ 64) % 2 ^ 64
        = (Col + SkipX) + (Row + SkipY) * (P.ShapeInfo.Pitch / 4) := by
      rw [Nat.mod_eq_of_lt hcw, Nat.mod_eq_of_lt hrw,
        Nat.mod_eq_of_lt (show (Row + SkipY) * (P.ShapeInfo.Pitch / 4) < 2 ^ 64 by omega),
        Nat.mod_eq_of_lt (by omega)]
    have e3 : (Row * dp % 2 ^ 32 + Col) % 2 ^ 32 = Row * dp + Col := by
      rw [Nat.mod_eq_of_lt (show Row * dp < 2 ^ 32 by omega), Nat.mod_eq_of_lt (by omega)]
    have ih' := ih (Col + 1) (fun c h1 h2 => hin c (by omega) (by omega))
    rw [maskedCols]
    simp only [UINT32_MOD, UINT64_MOD, e1, e3, Buffer32_eq _ _ hs, getElem?_eq_some_getD _ _ hd,
      Option.bind_eq_bind, Option.some_bind, ih', Option.pure_def]
    rw [List.range_succ_eq_map, List.map_cons, List.map_map]
    congr 2
    · simp only [maskedPixel, and_top_byte, Nat.add_zero, ne_eq, Nat.mul_eq_zero,
        Nat.pow_eq_zero, OfNat.ofNat_ne_zero, false_and, or_false]
    · apply List.map_congr_left
      intro j _
      simp only [Function.comp, Nat.add_assoc, Nat.add_comm 1 j]

/-- The outer loop, when every row decodes to a list of `w` words: the rows one after the
other, so that the word at index `i * w + c` is word `c` of row `Row + i`. -/
theorem maskRows_spec (IsMono : Bool) (P : PTR_INFO) (D : List Nat) (dp SkipX SkipY w : Nat)
    (rowSpec : Nat → List Nat) (hlen : ∀ r, (rowSpec r).length = w) :
    ∀ (n Row : Nat),
      (∀ r, Row ≤ r → r < Row + n →
        (if IsMono then monoCols P D dp SkipX SkipY r w 0 (0x80 >>> (SkipX % 8))
         else maskedCols P D dp SkipX SkipY r w 0) = some (rowSpec r)) →
      ∃ buf, maskRows IsMono P D dp SkipX SkipY w n Row = some buf ∧ buf.length = n * w ∧
        ∀ i c, i < n → c < w → buf[i * w + c]? = (rowSpec (Row + i))[c]? := by
  intro n
  induction n with
  | zero =>
    intro Row _
    exact ⟨[], rfl, by simp, fun i c hi _ => absurd hi (Nat.not_lt_zero _)⟩
  | succ n ih =>
    intro Row hrows
    obtain ⟨rest, hrest, hrl, hri⟩ := ih (Row + 1) (fun r h1 h2 => hrows r (by omega) (by omega))
    have hrow := hrows Row (Nat.le_refl _) (by omega)
    refine ⟨rowSpec Row ++ rest, ?_, ?_, ?_⟩
    · rw [maskRows]
      cases IsMono
      · simp only [Bool.false_eq_true, if_false] at hrow ⊢
        simp only [hrow, hrest, Option.bind_eq_bind, Option.some_bind, Option.pure_def]
      · simp only [if_true] at hrow ⊢
        simp only [hrow, hrest, Option.bind_eq_bind, Option.some_bind, Option.pure_def]
    · rw [List.length_append, hlen, hrl, Nat.succ_mul, Nat.add_comm]
    · intro i c hi hc
      cases i with
      | zero =>
        rw [Nat.zero_mul, Nat.zero_add, Nat.add_zero,
          List.getElem?_append_left (by rw [hlen]; exact hc)]
      | succ i =>
        have hge : (rowSpec Row).length ≤ (i + 1) * w + c := by
          rw [hlen, Nat.succ_mul]; omega
        rw [List.getElem?_append_right hge, hlen]
        have hsub : (i + 1) * w + c - w = i * w + c := by
          rw [Nat.succ_mul]; omega
        rw [hsub, hri i c (by omega) hc]
        congr 2
        omega

/-- A `UINT` converted to `INT` is below `2^31`. -/
theorem castINT_lt (u : Nat) : castINT u < 2 ^ 31 := by
  unfold castINT castHRESULT
  split_ifs <;> omega

/-- Inside the clipped rectangle the shifted column and row stay below `2^31`, for a
position in the `LONG` range. -/
theorem clip_nowrap (self : OUTPUTMANAGER) (IsMono : Bool) (PtrInfo : PTR_INFO)
    (hxr : INT_MIN ≤ PtrInfo.Position.x) (hyr : INT_MIN ≤ PtrInfo.Position.y) :
    (∀ c : Nat, (c : Int) < (OUTPUTMANAGER.ProcessMonoMask.clip self IsMono PtrInfo).PtrWidth →
      c + (OUTPUTMANAGER.ProcessMonoMask.clip self IsMono PtrInfo).SkipX < 2 ^ 31) ∧
    (∀ r : Nat, (r : Int) < (OUTPUTMANAGER.ProcessMonoMask.clip self IsMono PtrInfo).PtrHeight →
      r + (OUTPUTMANAGER.ProcessMonoMask.clip self IsMono PtrInfo).SkipY < 2 ^ 31) := by
  have hw := castINT_lt PtrInfo.ShapeInfo.Width
  have hh1 := castINT_lt (PtrInfo.ShapeInfo.Height / 2)
  have hh2 := castINT_lt PtrInfo.ShapeInfo.Height
  constructor
  · intro c hc
    simp only [OUTPUTMANAGER.ProcessMonoMask.clip] at hc ⊢
    by_cases hx : PtrInfo.Position.x < 0
    · have hs := castUINT_neg _ hx hxr
      rw [if_pos hx] at hc ⊢
      omega
    · rw [if_neg hx] at hc ⊢
      split_ifs at hc <;> omega
  · intro r hr
    simp only [OUTPUTMANAGER.ProcessMonoMask.clip] at hr ⊢
    by_cases hy : PtrInfo.Position.y < 0
    · have hs := castUINT_neg _ hy hyr
      rw [if_pos hy] at hr ⊢
      split_ifs at hr <;> omega
    · rw [if_neg hy] at hr ⊢
      split_ifs at hr <;> omega

/-- The clipping arithmetic leaves the shape buffer and the pitch as they are; for a
stated height in the `UINT` range half the height it leaves is half the stated height. -/
theorem clip_PtrInfo (self : OUTPUTMANAGER) (IsMono : Bool) (PtrInfo : PTR_INFO)
    (hH : PtrInfo.ShapeInfo.Height < 2 ^ 32) :
    (OUTPUTMANAGER.ProcessMonoMask.clip self IsMono PtrInfo).PtrInfo.PtrShapeBuffer
      = PtrInfo.PtrShapeBuffer ∧
    (OUTPUTMANAGER.ProcessMonoMask.clip self IsMono PtrInfo).PtrInfo.ShapeInfo.Pitch
      = PtrInfo.ShapeInfo.Pitch ∧
    (OUTPUTMANAGER.ProcessMonoMask.clip self IsMono PtrInfo).PtrInfo.ShapeInfo.Height / 2
      = PtrInfo.ShapeInfo.Height / 2 := by
  refine ⟨rfl, rfl, ?_⟩
  simp only [OUTPUTMANAGER.ProcessMonoMask.clip, UINT32_MOD]
  split_ifs <;> omega

/-- The buffer that `ProcessMonoMask` leaves when the collaborator calls before the decode
succeed and the allocation yields a buffer: the result of the decode loops. -/
theorem ProcessMonoMask_InitBuffer (tbl : List HRESULT) (self : OUTPUTMANAGER) (env : MonoMaskEnv)
    (IsMono : Bool) (PtrInfo : PTR_INFO)
    (hCT : FAILED env.hrCreateTexture2D = false) (hQI : FAILED env.hrQueryInterface = false)
    (hMap : FAILED env.hrMap = false) (hA : env.allocated = true)
    (hsz : 0 ≤ (OUTPUTMANAGER.ProcessMonoMask.clip self IsMono PtrInfo).PtrWidth
      * (OUTPUTMANAGER.ProcessMonoMask.clip self IsMono PtrInfo).PtrHeight * BPP) :
    (self.ProcessMonoMask tbl env IsMono PtrInfo).InitBuffer
      = maskRows IsMono (OUTPUTMANAGER.ProcessMonoMask.clip self IsMono PtrInfo).PtrInfo env.pBits
          (DesktopPitchInPixels env)
          (OUTPUTMANAGER.ProcessMonoMask.clip self IsMono PtrInfo).SkipX
          (OUTPUTMANAGER.ProcessMonoMask.clip self IsMono PtrInfo).SkipY
          (OUTPUTMANAGER.ProcessMonoMask.clip self IsMono PtrInfo).PtrWidth.toNat
          (OUTPUTMANAGER.ProcessMonoMask.clip self IsMono PtrInfo).PtrHeight.toNat 0 := by
  unfold OUTPUTMANAGER.ProcessMonoMask DesktopPitchInPixels
  have hnot : ¬ ((OUTPUTMANAGER.ProcessMonoMask.clip self IsMono PtrInfo).PtrWidth
      * (OUTPUTMANAGER.ProcessMonoMask.clip self IsMono PtrInfo).PtrHeight * BPP < 0
      ∨ env.allocated = false) := by
    rw [hA]
    simp only [Bool.true_eq_false, or_false]
    omega
  simp only [hCT, hQI, hMap, Bool.false_eq_true, if_false, if_neg hnot]

/-- The monochrome decode, word by word: under the preconditions of the decode loop
(calls before it succeed, buffer allocated, clipped size non-negative, reads in bounds)
the buffer left by `ProcessMonoMask` holds `monoPixel` at every `(r, c)`. -/
theorem ProcessMonoMask_mono_pixels (tbl : List HRESULT) (self : OUTPUTMANAGER) (env : MonoMaskEnv)
    (PtrInfo : PTR_INFO)
    (hxr : INT_MIN ≤ PtrInfo.Position.x) (hyr : INT_MIN ≤ PtrInfo.Position.y)
    (hH : PtrInfo.ShapeInfo.Height < 2 ^ 32)
    (hLs : PtrInfo.PtrShapeBuffer.length ≤ UINT32_MOD) (hLd : env.pBits.length ≤ UINT32_MOD)
    (hCT : FAILED env.hrCreateTexture2D = false) (hQI : FAILED env.hrQueryInterface = false)
    (hMap : FAILED env.hrMap = false) (hA : env.allocated = true)
    (hw0 : 0 ≤ (OUTPUTMANAGER.ProcessMonoMask.clip self true PtrInfo).PtrWidth)
    (hh0 : 0 ≤ (OUTPUTMANAGER.ProcessMonoMask.clip self true PtrInfo).PtrHeight)
    (hin : ∀ r c : Nat,
      (r : Int) < (OUTPUTMANAGER.ProcessMonoMask.clip self true PtrInfo).PtrHeight →
      (c : Int) < (OUTPUTMANAGER.ProcessMonoMask.clip self true PtrInfo).PtrWidth →
      monoReadsInBounds PtrInfo.PtrShapeBuffer env.pBits PtrInfo.ShapeInfo.Pitch
        PtrInfo.ShapeInfo.Height (DesktopPitchInPixels env)
        (OUTPUTMANAGER.ProcessMonoMask.clip self true PtrInfo).SkipX
        (OUTPUTMANAGER.ProcessMonoMask.clip self true PtrInfo).SkipY r c) :
    (self.ProcessMonoMask tbl env true PtrInfo).PtrWidth
      = (OUTPUTMANAGER.ProcessMonoMask.clip self true PtrInfo).PtrWidth ∧
    (self.ProcessMonoMask tbl env true PtrInfo).PtrHeight
      = (OUTPUTMANAGER.ProcessMonoMask.clip self true PtrInfo).PtrHeight ∧
    ∃ buf, (self.ProcessMonoMask tbl env true PtrInfo).InitBuffer = some buf ∧
      buf.length = (OUTPUTMANAGER.ProcessMonoMask.clip self true PtrInfo).PtrHeight.toNat
        * (OUTPUTMANAGER.ProcessMonoMask.clip self true PtrInfo).PtrWidth.toNat ∧
      ∀ r c : Nat,
        (r : Int) < (OUTPUTMANAGER.ProcessMonoMask.clip self true PtrInfo).PtrHeight →
        (c : Int) < (OUTPUTMANAGER.ProcessMonoMask.clip self true PtrInfo).PtrWidth →
        buf[r * (OUTPUTMANAGER.ProcessMonoMask.clip self true PtrInfo).PtrWidth.toNat + c]?
          = some (monoPixel PtrInfo.PtrShapeBuffer
              (env.pBits.getD (r * DesktopPitchInPixels env + c) 0)
              PtrInfo.ShapeInfo.Pitch PtrInfo.ShapeInfo.Height
              (OUTPUTMANAGER.ProcessMonoMask.clip self true PtrInfo).SkipX
              (OUTPUTMANAGER.ProcessMonoMask.clip self true PtrInfo).SkipY r c) := by
  obtain ⟨o1, o2, _⟩ := ProcessMonoMask_out tbl self env true PtrInfo
  refine ⟨o1, o2, ?_⟩
  obtain ⟨hcw, hrw⟩ := clip_nowrap self true PtrInfo hxr hyr
  obtain ⟨hkb, hkp, hkh⟩ := clip_PtrInfo self true PtrInfo hH
  have hsz : 0 ≤ (OUTPUTMANAGER.ProcessMonoMask.clip self true PtrInfo).PtrWidth
      * (OUTPUTMANAGER.ProcessMonoMask.clip self true PtrInfo).PtrHeight * BPP :=
    Int.mul_nonneg (Int.mul_nonneg hw0 hh0) (by decide)
  rw [ProcessMonoMask_InitBuffer tbl self env true PtrInfo hCT hQI hMap hA hsz]
  generalize hk : OUTPUTMANAGER.ProcessMonoMask.clip self true PtrInfo = k at *
  have hrows := maskRows_spec true k.PtrInfo env.pBits (DesktopPitchInPixels env) k.SkipX k.SkipY
    k.PtrWidth.toNat
    (fun r => (List.range k.PtrWidth.toNat).map (fun j =>
      monoPixel k.PtrInfo.PtrShapeBuffer (env.pBits.getD (r * DesktopPitchInPixels env + (0 + j)) 0)
        k.PtrInfo.ShapeInfo.Pitch k.PtrInfo.ShapeInfo.Height k.SkipX k.SkipY r (0 + j)))
    (fun r => by simp) k.PtrHeight.toNat 0 (by
      intro r _ hr
      simp only [if_true]
      have hr' : (r : Int) < k.PtrHeight := by omega
      have hrs := hrw r hr'
      apply monoCols_spec k.PtrInfo env.pBits (DesktopPitchInPixels env) k.SkipX k.SkipY r
        (by rw [hkb]; exact hLs) hLd (by unfold UINT32_MOD; omega)
      · simp
      · intro c _ hc
        have hc' : (c : Int) < k.PtrWidth := by omega
        have hcs := hcw c hc'
        refine ⟨by unfold UINT32_MOD; omega, ?_⟩
        have := hin r c hr' hc'
        unfold monoReadsInBounds at this ⊢
        rw [hkb, hkp, hkh]
        exact this)
  obtain ⟨buf, hbuf, hlen, hidx⟩ := hrows
  refine ⟨buf, hbuf, hlen, ?_⟩
  intro r c hr hc
  have hr' : r < k.PtrHeight.toNat := by omega
  have hc' : c < k.PtrWidth.toNat := by omega
  rw [hidx r c hr' hc']
  simp only [List.getElem?_map, List.getElem?_range hc', Option.map_some', Nat.zero_add, hkb, hkp]
  unfold monoPixel
  rw [hkh]

/-- C11: for a monochrome shape, when the calls before the decode succeed, the
allocation yields a buffer, the clipped size is non-negative and every read of the decode
stays inside its buffer (position in the `LONG` range, stated height and buffer lengths
in the `UINT` range), `ProcessMonoMask` leaves a buffer of `PtrHeight * PtrWidth` words in
which, for every row `r < PtrHeight` and column `c < PtrWidth`, the word at index
`r * PtrWidth + c` is `(background[r][c] AND A) XOR X` as `monoPixel` words it: the AND
bit is bit `7 - ((c + SkipX) mod 8)` of shape byte `(c + SkipX) / 8 + (r + SkipY) * Pitch`
and the XOR bit the same bit of the byte `(Height / 2) * Pitch` further on. -/
theorem C11_monochrome_pixels (tbl : List HRESULT) (self : OUTPUTMANAGER) (env : MonoMaskEnv)
    (PtrInfo : PTR_INFO)
    (hxr : INT_MIN ≤ PtrInfo.Position.x) (hyr : INT_MIN ≤ PtrInfo.Position.y)
    (hH : PtrInfo.ShapeInfo.Height < 2 ^ 32)
    (hLs : PtrInfo.PtrShapeBuffer.length ≤ UINT32_MOD) (hLd : env.pBits.length ≤ UINT32_MOD)
    (hCT : FAILED env.hrCreateTexture2D = false) (hQI : FAILED env.hrQueryInterface = false)
    (hMap : FAILED env.hrMap = false) (hA : env.allocated = true)
    (hw0 : 0 ≤ (OUTPUTMANAGER.ProcessMonoMask.clip self true PtrInfo).PtrWidth)
    (hh0 : 0 ≤ (OUTPUTMANAGER.ProcessMonoMask.clip self true PtrInfo).PtrHeight)
    (hin : ∀ r c : Nat,
      (r : Int) < (OUTPUTMANAGER.ProcessMonoMask.clip self true PtrInfo).PtrHeight →
      (c : Int) < (OUTPUTMANAGER.ProcessMonoMask.clip self true PtrInfo).PtrWidth →
      monoReadsInBounds PtrInfo.PtrShapeBuffer env.pBits PtrInfo.ShapeInfo.Pitch
        PtrInfo.ShapeInfo.Height (DesktopPitchInPixels env)
        (OUTPUTMANAGER.ProcessMonoMask.clip self true PtrInfo).SkipX
        (OUTPUTMANAGER.ProcessMonoMask.clip self true PtrInfo).SkipY r c) :
    (self.ProcessMonoMask tbl env true PtrInfo).PtrWidth
      = (OUTPUTMANAGER.ProcessMonoMask.clip self true PtrInfo).PtrWidth ∧
    (self.ProcessMonoMask tbl env true PtrInfo).PtrHeight
      = (OUTPUTMANAGER.ProcessMonoMask.clip self true PtrInfo).PtrHeight ∧
    ∃ buf, (self.ProcessMonoMask tbl env true PtrInfo).InitBuffer = some buf ∧
      buf.length = (OUTPUTMANAGER.ProcessMonoMask.clip self true PtrInfo).PtrHeight.toNat
        * (OUTPUTMANAGER.ProcessMonoMask.clip self true PtrInfo).PtrWidth.toNat ∧
      ∀ r c : Nat,
        (r : Int) < (OUTPUTMANAGER.ProcessMonoMask.clip self true PtrInfo).PtrHeight →
        (c : Int) < (OUTPUTMANAGER.ProcessMonoMask.clip self true PtrInfo).PtrWidth →
        buf[r * (OUTPUTMANAGER.ProcessMonoMask.clip self true PtrInfo).PtrWidth.toNat + c]?
          = some (monoPixel PtrInfo.PtrShapeBuffer
              (env.pBits.getD (r * DesktopPitchInPixels env + c) 0)
              PtrInfo.ShapeInfo.Pitch PtrInfo.ShapeInfo.Height
              (OUTPUTMANAGER.ProcessMonoMask.clip self true PtrInfo).SkipX
              (OUTPUTMANAGER.ProcessMonoMask.clip self true PtrInfo).SkipY r c) :=
  ProcessMonoMask_mono_pixels tbl self env PtrInfo hxr hyr hH hLs hLd hCT hQI hMap hA hw0 hh0 hin

/-- The reads of the monochrome decode of the sample 2x2 pointer stay inside the four
shape bytes and the four background words. -/
theorem monoPointer2x2_reads (r c : Nat)
    (hr : (r : Int) < (OUTPUTMANAGER.ProcessMonoMask.clip sampleManager true monoPointer2x2).PtrHeight)
    (hc : (c : Int) < (OUTPUTMANAGER.ProcessMonoMask.clip sampleManager true monoPointer2x2).PtrWidth) :
    monoReadsInBounds monoPointer2x2.PtrShapeBuffer monoMaskEnv2x2.pBits
      monoPointer2x2.ShapeInfo.Pitch monoPointer2x2.ShapeInfo.Height
      (DesktopPitchInPixels monoMaskEnv2x2)
      (OUTPUTMANAGER.ProcessMonoMask.clip sampleManager true monoPointer2x2).SkipX
      (OUTPUTMANAGER.ProcessMonoMask.clip sampleManager true monoPointer2x2).SkipY r c := by
  have h1 : (OUTPUTMANAGER.ProcessMonoMask.clip sampleManager true monoPointer2x2).PtrHeight = 2 := by
    decide
  have h2 : (OUTPUTMANAGER.ProcessMonoMask.clip sampleManager true monoPointer2x2).PtrWidth = 2 := by
    decide
  rw [h1] at hr
  rw [h2] at hc
  have hr' : r < 2 := by omega
  have hc' : c < 2 := by omega
  interval_cases r <;> interval_cases c <;> refine ⟨?_, ?_⟩ <;> decide

/-- C11 at a concrete input: the sample 2x2 monochrome pointer over a 2x2 background; the
four output words are `0x11000000`, `0x55000000`, `0x01FDFCFB`, `0x05F9F8F7`. -/
theorem C11_monochrome_pixels_witness :
    FAILED monoMaskEnv2x2.hrCreateTexture2D = false ∧ monoMaskEnv2x2.allocated = true ∧
    (sampleManager.ProcessMonoMask [] monoMaskEnv2x2 true monoPointer2x2).InitBuffer
      = some [0x11000000, 0x55000000, 0x01FDFCFB, 0x05F9F8F7] ∧
    ∃ buf, (sampleManager.ProcessMonoMask [] monoMaskEnv2x2 true monoPointer2x2).InitBuffer
        = some buf ∧
      buf.length = (OUTPUTMANAGER.ProcessMonoMask.clip sampleManager true
          monoPointer2x2).PtrHeight.toNat
        * (OUTPUTMANAGER.ProcessMonoMask.clip sampleManager true monoPointer2x2).PtrWidth.toNat ∧
      ∀ r c : Nat,
        (r : Int) < (OUTPUTMANAGER.ProcessMonoMask.clip sampleManager true
          monoPointer2x2).PtrHeight →
        (c : Int) < (OUTPUTMANAGER.ProcessMonoMask.clip sampleManager true
          monoPointer2x2).PtrWidth →
        buf[r * (OUTPUTMANAGER.ProcessMonoMask.clip sampleManager true
            monoPointer2x2).PtrWidth.toNat + c]?
          = some (monoPixel monoPointer2x2.PtrShapeBuffer
              (monoMaskEnv2x2.pBits.getD (r * DesktopPitchInPixels monoMaskEnv2x2 + c) 0)
              monoPointer2x2.ShapeInfo.Pitch monoPointer2x2.ShapeInfo.Height
              (OUTPUTMANAGER.ProcessMonoMask.clip sampleManager true monoPointer2x2).SkipX
              (OUTPUTMANAGER.ProcessMonoMask.clip sampleManager true monoPointer2x2).SkipY r c) :=
  ⟨by decide, by decide, by decide,
   (C11_monochrome_pixels [] sampleManager monoMaskEnv2x2 monoPointer2x2
      (by decide) (by decide) (by decide) (by decide) (by decide) (by decide) (by decide)
      (by decide) (by decide) (by decide) (by decide) monoPointer2x2_reads).2.2⟩

/-- The masked-colour decode, word by word: under the preconditions of the decode loop
(calls before it succeed, buffer allocated, clipped size non-negative, reads in bounds)
the buffer left by `ProcessMonoMask` holds `maskedPixel` at every `(r, c)`. -/
theorem ProcessMonoMask_masked_pixels (tbl : List HRESULT) (self : OUTPUTMANAGER) (env : MonoMaskEnv)
    (PtrInfo : PTR_INFO)
    (hxr : INT_MIN ≤ PtrInfo.Position.x) (hyr : INT_MIN ≤ PtrInfo.Position.y)
    (hLs : PtrInfo.PtrShapeBuffer.length ≤ UINT32_MOD) (hLd : env.pBits.length ≤ UINT32_MOD)
    (hCT : FAILED env.hrCreateTexture2D = false) (hQI : FAILED env.hrQueryInterface = false)
    (hMap : FAILED env.hrMap = false) (hA : env.allocated = true)
    (hw0 : 0 ≤ (OUTPUTMANAGER.ProcessMonoMask.clip self false PtrInfo).PtrWidth)
    (hh0 : 0 ≤ (OUTPUTMANAGER.ProcessMonoMask.clip self false PtrInfo).PtrHeight)
    (hin : ∀ r c : Nat,
      (r : Int) < (OUTPUTMANAGER.ProcessMonoMask.clip self false PtrInfo).PtrHeight →
      (c : Int) < (OUTPUTMANAGER.ProcessMonoMask.clip self false PtrInfo).PtrWidth →
      maskedReadsInBounds PtrInfo.PtrShapeBuffer env.pBits PtrInfo.ShapeInfo.Pitch
        (DesktopPitchInPixels env)
        (OUTPUTMANAGER.ProcessMonoMask.clip self false PtrInfo).SkipX
        (OUTPUTMANAGER.ProcessMonoMask.clip self false PtrInfo).SkipY r c) :
    (self.ProcessMonoMask tbl env false PtrInfo).PtrWidth
      = (OUTPUTMANAGER.ProcessMonoMask.clip self false PtrInfo).PtrWidth ∧
    (self.ProcessMonoMask tbl env false PtrInfo).PtrHeight
      = (OUTPUTMANAGER.ProcessMonoMask.clip self false PtrInfo).PtrHeight ∧
    ∃ buf, (self.ProcessMonoMask tbl env false PtrInfo).InitBuffer = some buf ∧
      buf.length = (OUTPUTMANAGER.ProcessMonoMask.clip self false PtrInfo).PtrHeight.toNat
        * (OUTPUTMANAGER.ProcessMonoMask.clip self false PtrInfo).PtrWidth.toNat ∧
      ∀ r c : Nat,
        (r : Int) < (OUTPUTMANAGER.ProcessMonoMask.clip self false PtrInfo).PtrHeight →
        (c : Int) < (OUTPUTMANAGER.ProcessMonoMask.clip self false PtrInfo).PtrWidth →
        buf[r * (OUTPUTMANAGER.ProcessMonoMask.clip self false PtrInfo).PtrWidth.toNat + c]?
          = some (maskedPixel PtrInfo.PtrShapeBuffer
              (env.pBits.getD (r * DesktopPitchInPixels env + c) 0)
              PtrInfo.ShapeInfo.Pitch
              (OUTPUTMANAGER.ProcessMonoMask.clip self false PtrInfo).SkipX
              (OUTPUTMANAGER.ProcessMonoMask.clip self false PtrInfo).SkipY r c) := by
  obtain ⟨o1, o2, _⟩ := ProcessMonoMask_out tbl self env false PtrInfo
  refine ⟨o1, o2, ?_⟩
  obtain ⟨hcw, hrw⟩ := clip_nowrap self false PtrInfo hxr hyr
  have hkb : (OUTPUTMANAGER.ProcessMonoMask.clip self false PtrInfo).PtrInfo.PtrShapeBuffer
      = PtrInfo.PtrShapeBuffer := rfl
  have hkp : (OUTPUTMANAGER.ProcessMonoMask.clip self false PtrInfo).PtrInfo.ShapeInfo.Pitch
      = PtrInfo.ShapeInfo.Pitch := rfl
  have hsz : 0 ≤ (OUTPUTMANAGER.ProcessMonoMask.clip self false PtrInfo).PtrWidth
      * (OUTPUTMANAGER.ProcessMonoMask.clip self false PtrInfo).PtrHeight * BPP :=
    Int.mul_nonneg (Int.mul_nonneg hw0 hh0) (by decide)
  rw [ProcessMonoMask_InitBuffer tbl self env false PtrInfo hCT hQI hMap hA hsz]
  generalize hk : OUTPUTMANAGER.ProcessMonoMask.clip self false PtrInfo = k at *
  have hrows := maskRows_spec false k.PtrInfo env.pBits (DesktopPitchInPixels env) k.SkipX k.SkipY
    k.PtrWidth.toNat
    (fun r => (List.range k.PtrWidth.toNat).map (fun j =>
      maskedPixel k.PtrInfo.PtrShapeBuffer
        (env.pBits.getD (r * DesktopPitchInPixels env + (0 + j)) 0)
        k.PtrInfo.ShapeInfo.Pitch k.SkipX k.SkipY r (0 + j)))
    (fun r => by simp) k.PtrHeight.toNat 0 (by
      intro r _ hr
      simp only [Bool.false_eq_true, if_false]
      have hr' : (r : Int) < k.PtrHeight := by omega
      have hrs := hrw r hr'
      apply maskedCols_spec k.PtrInfo env.pBits (DesktopPitchInPixels env) k.SkipX k.SkipY r
        (by rw [hkb]; exact hLs) hLd (by unfold UINT32_MOD; omega)
      intro c _ hc
      have hc' : (c : Int) < k.PtrWidth := by omega
      have hcs := hcw c hc'
      refine ⟨by unfold UINT32_MOD; omega, ?_⟩
      have := hin r c hr' hc'
      rw [hkb, hkp]
      exact this)
  obtain ⟨buf, hbuf, hlen, hidx⟩ := hrows
  refine ⟨buf, hbuf, hlen, ?_⟩
  intro r c hr hc
  have hr' : r < k.PtrHeight.toNat := by omega
  have hc' : c < k.PtrWidth.toNat := by omega
  rw [hidx r c hr' hc']
  simp only [List.getElem?_map, List.getElem?_range hc', Option.map_some', Nat.zero_add, hkb, hkp]

/-- C12: for a masked-colour shape, when the calls before the decode succeed, the
allocation yields a buffer, the clipped size is non-negative and every read of the decode
stays inside its buffer (position in the `LONG` range, buffer lengths in the `UINT`
range), `ProcessMonoMask` leaves a buffer of `PtrHeight * PtrWidth` words in which, for
every row `r < PtrHeight` and column `c < PtrWidth`, with `s` the shape pixel at
`(c + SkipX) + (r + SkipY) * (Pitch / 4)` and `b` the background pixel at `(r, c)`, the
word at index `r * PtrWidth + c` is `(b XOR s) OR 0xFF000000` when the top byte of `s` is
nonzero and `s OR 0xFF000000` when it is zero. -/
theorem C12_masked_color_pixels (tbl : List HRESULT) (self : OUTPUTMANAGER) (env : MonoMaskEnv)
    (PtrInfo : PTR_INFO)
    (hxr : INT_MIN ≤ PtrInfo.Position.x) (hyr : INT_MIN ≤ PtrInfo.Position.y)
    (hLs : PtrInfo.PtrShapeBuffer.length ≤ UINT32_MOD) (hLd : env.pBits.length ≤ UINT32_MOD)
    (hCT : FAILED env.hrCreateTexture2D = false) (hQI : FAILED env.hrQueryInterface = false)
    (hMap : FAILED env.hrMap = false) (hA : env.allocated = true)
    (hw0 : 0 ≤ (OUTPUTMANAGER.ProcessMonoMask.clip self false PtrInfo).PtrWidth)
    (hh0 : 0 ≤ (OUTPUTMANAGER.ProcessMonoMask.clip self false PtrInfo).PtrHeight)
    (hin : ∀ r c : Nat,
      (r : Int) < (OUTPUTMANAGER.ProcessMonoMask.clip self false PtrInfo).PtrHeight →
      (c : Int) < (OUTPUTMANAGER.ProcessMonoMask.clip self false PtrInfo).PtrWidth →
      maskedReadsInBounds PtrInfo.PtrShapeBuffer env.pBits PtrInfo.ShapeInfo.Pitch
        (DesktopPitchInPixels env)
        (OUTPUTMANAGER.ProcessMonoMask.clip self false PtrInfo).SkipX
        (OUTPUTMANAGER.ProcessMonoMask.clip self false PtrInfo).SkipY r c) :
    (self.ProcessMonoMask tbl env false PtrInfo).PtrWidth
      = (OUTPUTMANAGER.ProcessMonoMask.clip self false PtrInfo).PtrWidth ∧
    (self.ProcessMonoMask tbl env false PtrInfo).PtrHeight
      = (OUTPUTMANAGER.ProcessMonoMask.clip self false PtrInfo).PtrHeight ∧
    ∃ buf, (self.ProcessMonoMask tbl env false PtrInfo).InitBuffer = some buf ∧
      buf.length = (OUTPUTMANAGER.ProcessMonoMask.clip self false PtrInfo).PtrHeight.toNat
        * (OUTPUTMANAGER.ProcessMonoMask.clip self false PtrInfo).PtrWidth.toNat ∧
      ∀ r c : Nat,
        (r : Int) < (OUTPUTMANAGER.ProcessMonoMask.clip self false PtrInfo).PtrHeight →
        (c : Int) < (OUTPUTMANAGER.ProcessMonoMask.clip self false PtrInfo).PtrWidth →
        buf[r * (OUTPUTMANAGER.ProcessMonoMask.clip self false PtrInfo).PtrWidth.toNat + c]?
          = some (maskedPixel PtrInfo.PtrShapeBuffer
              (env.pBits.getD (r * DesktopPitchInPixels env + c) 0)
              PtrInfo.ShapeInfo.Pitch
              (OUTPUTMANAGER.ProcessMonoMask.clip self false PtrInfo).SkipX
              (OUTPUTMANAGER.ProcessMonoMask.clip self false PtrInfo).SkipY r c) :=
  ProcessMonoMask_masked_pixels tbl self env PtrInfo hxr hyr hLs hLd hCT hQI hMap hA hw0 hh0 hin

/-- The reads of the masked-colour decode of the sample 2x2 pointer stay inside the
sixteen shape bytes and the four background words. -/
theorem maskedPointer2x2_reads (r c : Nat)
    (hr : (r : Int) < (OUTPUTMANAGER.ProcessMonoMask.clip sampleManager false
      maskedPointer2x2).PtrHeight)
    (hc : (c : Int) < (OUTPUTMANAGER.ProcessMonoMask.clip sampleManager false
      maskedPointer2x2).PtrWidth) :
    maskedReadsInBounds maskedPointer2x2.PtrShapeBuffer monoMaskEnv2x2.pBits
      maskedPointer2x2.ShapeInfo.Pitch (DesktopPitchInPixels monoMaskEnv2x2)
      (OUTPUTMANAGER.ProcessMonoMask.clip sampleManager false maskedPointer2x2).SkipX
      (OUTPUTMANAGER.ProcessMonoMask.clip sampleManager false maskedPointer2x2).SkipY r c := by
  have h1 : (OUTPUTMANAGER.ProcessMonoMask.clip sampleManager false maskedPointer2x2).PtrHeight
      = 2 := by decide
  have h2 : (OUTPUTMANAGER.ProcessMonoMask.clip sampleManager false maskedPointer2x2).PtrWidth
      = 2 := by decide
  rw [h1] at hr
  rw [h2] at hc
  have hr' : r < 2 := by omega
  have hc' : c < 2 := by omega
  interval_cases r <;> interval_cases c <;> refine ⟨?_, ?_⟩ <;> decide

/-- C12 at a concrete input: the sample 2x2 masked-colour pointer over a 2x2 background;
the four output words are `0xFF000000`, `0xFF223344`, `0xFF010105`, `0xFF090909`. -/
theorem C12_masked_color_pixels_witness :
    FAILED monoMaskEnv2x2.hrCreateTexture2D = false ∧ monoMaskEnv2x2.allocated = true ∧
    (sampleManager.ProcessMonoMask [] monoMaskEnv2x2 false maskedPointer2x2).InitBuffer
      = some [0xFF000000, 0xFF223344, 0xFF010105, 0xFF090909] ∧
    ∃ buf, (sampleManager.ProcessMonoMask [] monoMaskEnv2x2 false maskedPointer2x2).InitBuffer
        = some buf ∧
      buf.length = (OUTPUTMANAGER.ProcessMonoMask.clip sampleManager false
          maskedPointer2x2).PtrHeight.toNat
        * (OUTPUTMANAGER.ProcessMonoMask.clip sampleManager false maskedPointer2x2).PtrWidth.toNat ∧
      ∀ r c : Nat,
        (r : Int) < (OUTPUTMANAGER.ProcessMonoMask.clip sampleManager false
          maskedPointer2x2).PtrHeight →
        (c : Int) < (OUTPUTMANAGER.ProcessMonoMask.clip sampleManager false
          maskedPointer2x2).PtrWidth →
        buf[r * (OUTPUTMANAGER.ProcessMonoMask.clip sampleManager false
            maskedPointer2x2).PtrWidth.toNat + c]?
          = some (maskedPixel maskedPointer2x2.PtrShapeBuffer
              (monoMaskEnv2x2.pBits.getD (r * DesktopPitchInPixels monoMaskEnv2x2 + c) 0)
              maskedPointer2x2.ShapeInfo.Pitch
              (OUTPUTMANAGER.ProcessMonoMask.clip sampleManager false maskedPointer2x2).SkipX
              (OUTPUTMANAGER.ProcessMonoMask.clip sampleManager false maskedPointer2x2).SkipY
              r c) :=
  ⟨by decide, by decide, by decide,
   (C12_masked_color_pixels [] sampleManager monoMaskEnv2x2 maskedPointer2x2
      (by decide) (by decide) (by decide) (by decide) (by decide) (by decide) (by decide)
      (by decide) (by decide) (by decide) maskedPointer2x2_reads).2.2⟩

/-- With every shape byte zero the monochrome pixel is the background with only its top
byte kept. -/
theorem monoPixel_null (shape : List Nat) (hz : ∀ b ∈ shape, b = 0)
    (background Pitch Height SkipX SkipY r c : Nat) :
    monoPixel shape background Pitch Height SkipX SkipY r c = background &&& 0xFF000000 := by
  have h0 : ∀ i, shape.getD i 0 = 0 := by
    intro i
    rw [List.getD_eq_getElem?_getD]
    cases h : shape[i]? with
    | none => rfl
    | some b =>
      have hb : b ∈ shape := by
        obtain ⟨hlt, he⟩ := List.getElem?_eq_some.mp h
        exact he ▸ List.getElem_mem hlt
      simp [hz b hb]
  unfold monoPixel
  simp only [h0, Nat.zero_testBit, Bool.false_eq_true, if_false, Nat.xor_zero]

/-- C20: for a monochrome shape whose AND mask and XOR mask are all zero, under the
preconditions of the decode loop, every output word of `ProcessMonoMask` is the
background word AND `0xFF000000`; and resolving again over any staging surface whose
pixel at every `(r, c)` is the output word at `r * PtrWidth + c` leaves the same buffer. -/
theorem C20_null_masks_idempotent (tbl : List HRESULT) (self : OUTPUTMANAGER)
    (env env2 : MonoMaskEnv) (PtrInfo : PTR_INFO)
    (hz : ∀ b ∈ PtrInfo.PtrShapeBuffer, b = 0)
    (hxr : INT_MIN ≤ PtrInfo.Position.x) (hyr : INT_MIN ≤ PtrInfo.Position.y)
    (hH : PtrInfo.ShapeInfo.Height < 2 ^ 32)
    (hLs : PtrInfo.PtrShapeBuffer.length ≤ UINT32_MOD)
    (hw0 : 0 ≤ (OUTPUTMANAGER.ProcessMonoMask.clip self true PtrInfo).PtrWidth)
    (hh0 : 0 ≤ (OUTPUTMANAGER.ProcessMonoMask.clip self true PtrInfo).PtrHeight)
    (hLd : env.pBits.length ≤ UINT32_MOD)
    (hCT : FAILED env.hrCreateTexture2D = false) (hQI : FAILED env.hrQueryInterface = false)
    (hMap : FAILED env.hrMap = false) (hA : env.allocated = true)
    (hin : ∀ r c : Nat,
      (r : Int) < (OUTPUTMANAGER.ProcessMonoMask.clip self true PtrInfo).PtrHeight →
      (c : Int) < (OUTPUTMANAGER.ProcessMonoMask.clip self true PtrInfo).PtrWidth →
      monoReadsInBounds PtrInfo.PtrShapeBuffer env.pBits PtrInfo.ShapeInfo.Pitch
        PtrInfo.ShapeInfo.Height (DesktopPitchInPixels env)
        (OUTPUTMANAGER.ProcessMonoMask.clip self true PtrInfo).SkipX
        (OUTPUTMANAGER.ProcessMonoMask.clip self true PtrInfo).SkipY r c)
    (hLd2 : env2.pBits.length ≤ UINT32_MOD)
    (hCT2 : FAILED env2.hrCreateTexture2D = false) (hQI2 : FAILED env2.hrQueryInterface = false)
    (hMap2 : FAILED env2.hrMap = false) (hA2 : env2.allocated = true)
    (hin2 : ∀ r c : Nat,
      (r : Int) < (OUTPUTMANAGER.ProcessMonoMask.clip self true PtrInfo).PtrHeight →
      (c : Int) < (OUTPUTMANAGER.ProcessMonoMask.clip self true PtrInfo).PtrWidth →
      monoReadsInBounds PtrInfo.PtrShapeBuffer env2.pBits PtrInfo.ShapeInfo.Pitch
        PtrInfo.ShapeInfo.Height (DesktopPitchInPixels env2)
        (OUTPUTMANAGER.ProcessMonoMask.clip self true PtrInfo).SkipX
        (OUTPUTMANAGER.ProcessMonoMask.clip self true PtrInfo).SkipY r c) :
    ∃ buf, (self.ProcessMonoMask tbl env true PtrInfo).InitBuffer = some buf ∧
      (∀ r c : Nat,
        (r : Int) < (OUTPUTMANAGER.ProcessMonoMask.clip self true PtrInfo).PtrHeight →
        (c : Int) < (OUTPUTMANAGER.ProcessMonoMask.clip self true PtrInfo).PtrWidth →
        buf[r * (OUTPUTMANAGER.ProcessMonoMask.clip self true PtrInfo).PtrWidth.toNat + c]?
          = some (env.pBits.getD (r * DesktopPitchInPixels env + c) 0 &&& 0xFF000000)) ∧
      ((∀ r c : Nat,
        (r : Int) < (OUTPUTMANAGER.ProcessMonoMask.clip self true PtrInfo).PtrHeight →
        (c : Int) < (OUTPUTMANAGER.ProcessMonoMask.clip self true PtrInfo).PtrWidth →
        env2.pBits.getD (r * DesktopPitchInPixels env2 + c) 0
          = buf.getD (r * (OUTPUTMANAGER.ProcessMonoMask.clip self true
              PtrInfo).PtrWidth.toNat + c) 0) →
        (self.ProcessMonoMask tbl env2 true PtrInfo).InitBuffer = some buf) := by
  obtain ⟨_, _, buf, hb, hlen, hpix⟩ := ProcessMonoMask_mono_pixels tbl self env PtrInfo
    hxr hyr hH hLs hLd hCT hQI hMap hA hw0 hh0 hin
  obtain ⟨_, _, buf2, hb2, hlen2, hpix2⟩ := ProcessMonoMask_mono_pixels tbl self env2 PtrInfo
    hxr hyr hH hLs hLd2 hCT2 hQI2 hMap2 hA2 hw0 hh0 hin2
  generalize OUTPUTMANAGER.ProcessMonoMask.clip self true PtrInfo = k at *
  have hpix0 : ∀ r c : Nat, (r : Int) < k.PtrHeight → (c : Int) < k.PtrWidth →
      buf[r * k.PtrWidth.toNat + c]?
        = some (env.pBits.getD (r * DesktopPitchInPixels env + c) 0 &&& 0xFF000000) := by
    intro r c hr hc
    rw [hpix r c hr hc, monoPixel_null _ hz]
  refine ⟨buf, hb, hpix0, ?_⟩
  intro hbg
  rw [hb2]
  congr 1
  apply List.ext_getElem?
  intro i
  by_cases hi : i < k.PtrHeight.toNat * k.PtrWidth.toNat
  · have hwpos : 0 < k.PtrWidth.toNat := by
      rcases Nat.eq_zero_or_pos k.PtrWidth.toNat with h | h
      · rw [h, Nat.mul_zero] at hi
        omega
      · exact h
    have hr' : i / k.PtrWidth.toNat < k.PtrHeight.toNat :=
      Nat.div_lt_of_lt_mul (by rw [Nat.mul_comm]; exact hi)
    have hc' : i % k.PtrWidth.toNat < k.PtrWidth.toNat := Nat.mod_lt _ hwpos
    have hi_eq : i = i / k.PtrWidth.toNat * k.PtrWidth.toNat + i % k.PtrWidth.toNat := by
      rw [Nat.mul_comm]
      exact (Nat.div_add_mod i k.PtrWidth.toNat).symm
    have hr : ((i / k.PtrWidth.toNat : Nat) : Int) < k.PtrHeight := by omega
    have hc : ((i % k.PtrWidth.toNat : Nat) : Int) < k.PtrWidth := by omega
    have e1 := hpix0 _ _ hr hc
    have e2 := hpix2 _ _ hr hc
    have e3 := hbg _ _ hr hc
    rw [monoPixel_null _ hz, e3, List.getD_eq_getElem?_getD, e1] at e2
    rw [← hi_eq] at e1 e2
    rw [e1, e2, Option.getD_some, Nat.and_assoc, Nat.and_self]
  · rw [List.getElem?_eq_none (by omega), List.getElem?_eq_none (by omega)]

/-- The reads of the monochrome decode of the all-zero 2x2 pointer over the sample
background stay inside their buffers. -/
theorem monoPointerNull2x2_reads (r c : Nat)
    (hr : (r : Int) < (OUTPUTMANAGER.ProcessMonoMask.clip sampleManager true
      monoPointerNull2x2).PtrHeight)
    (hc : (c : Int) < (OUTPUTMANAGER.ProcessMonoMask.clip sampleManager true
      monoPointerNull2x2).PtrWidth) :
    monoReadsInBounds monoPointerNull2x2.PtrShapeBuffer monoMaskEnv2x2.pBits
      monoPointerNull2x2.ShapeInfo.Pitch monoPointerNull2x2.ShapeInfo.Height
      (DesktopPitchInPixels monoMaskEnv2x2)
      (OUTPUTMANAGER.ProcessMonoMask.clip sampleManager true monoPointerNull2x2).SkipX
      (OUTPUTMANAGER.ProcessMonoMask.clip sampleManager true monoPointerNull2x2).SkipY r c := by
  have h1 : (OUTPUTMANAGER.ProcessMonoMask.clip sampleManager true monoPointerNull2x2).PtrHeight
      = 2 := by decide
  have h2 : (OUTPUTMANAGER.ProcessMonoMask.clip sampleManager true monoPointerNull2x2).PtrWidth
      = 2 := by decide
  rw [h1] at hr
  rw [h2] at hc
  have hr' : r < 2 := by omega
  have hc' : c < 2 := by omega
  interval_cases r <;> interval_cases c <;> refine ⟨?_, ?_⟩ <;> decide

/-- The reads of the monochrome decode of the all-zero 2x2 pointer over the resolved
background stay inside their buffers. -/
theorem monoPointerNull2x2_reads_again (r c : Nat)
    (hr : (r : Int) < (OUTPUTMANAGER.ProcessMonoMask.clip sampleManager true
      monoPointerNull2x2).PtrHeight)
    (hc : (c : Int) < (OUTPUTMANAGER.ProcessMonoMask.clip sampleManager true
      monoPointerNull2x2).PtrWidth) :
    monoReadsInBounds monoPointerNull2x2.PtrShapeBuffer monoMaskEnvResolved2x2.pBits
      monoPointerNull2x2.ShapeInfo.Pitch monoPointerNull2x2.ShapeInfo.Height
      (DesktopPitchInPixels monoMaskEnvResolved2x2)
      (OUTPUTMANAGER.ProcessMonoMask.clip sampleManager true monoPointerNull2x2).SkipX
      (OUTPUTMANAGER.ProcessMonoMask.clip sampleManager true monoPointerNull2x2).SkipY r c := by
  have h1 : (OUTPUTMANAGER.ProcessMonoMask.clip sampleManager true monoPointerNull2x2).PtrHeight
      = 2 := by decide
  have h2 : (OUTPUTMANAGER.ProcessMonoMask.clip sampleManager true monoPointerNull2x2).PtrWidth
      = 2 := by decide
  rw [h1] at hr
  rw [h2] at hc
  have hr' : r < 2 := by omega
  have hc' : c < 2 := by omega
  interval_cases r <;> interval_cases c <;> refine ⟨?_, ?_⟩ <;> decide

/-- C20 at a concrete input: the all-zero 2x2 monochrome pointer over the background
words `0x11223344`, `0x55667788`, `0x01020304`, `0x05060708` leaves `0x11000000`,
`0x55000000`, `0x01000000`, `0x05000000`, and resolving over these words leaves them. -/
theorem C20_null_masks_idempotent_witness :
    (∀ b ∈ monoPointerNull2x2.PtrShapeBuffer, b = 0) ∧
    (sampleManager.ProcessMonoMask [] monoMaskEnv2x2 true monoPointerNull2x2).InitBuffer
      = some [0x11000000, 0x55000000, 0x01000000, 0x05000000] ∧
    (sampleManager.ProcessMonoMask [] monoMaskEnvResolved2x2 true monoPointerNull2x2).InitBuffer
      = some [0x11000000, 0x55000000, 0x01000000, 0x05000000] ∧
    ∃ buf, (sampleManager.ProcessMonoMask [] monoMaskEnv2x2 true monoPointerNull2x2).InitBuffer
        = some buf ∧
      (∀ r c : Nat,
        (r : Int) < (OUTPUTMANAGER.ProcessMonoMask.clip sampleManager true
          monoPointerNull2x2).PtrHeight →
        (c : Int) < (OUTPUTMANAGER.ProcessMonoMask.clip sampleManager true
          monoPointerNull2x2).PtrWidth →
        buf[r * (OUTPUTMANAGER.ProcessMonoMask.clip sampleManager true
            monoPointerNull2x2).PtrWidth.toNat + c]?
          = some (monoMaskEnv2x2.pBits.getD (r * DesktopPitchInPixels monoMaskEnv2x2 + c) 0
              &&& 0xFF000000)) ∧
      ((∀ r c : Nat,
        (r : Int) < (OUTPUTMANAGER.ProcessMonoMask.clip sampleManager true
          monoPointerNull2x2).PtrHeight →
        (c : Int) < (OUTPUTMANAGER.ProcessMonoMask.clip sampleManager true
          monoPointerNull2x2).PtrWidth →
        monoMaskEnvResolved2x2.pBits.getD (r * DesktopPitchInPixels monoMaskEnvResolved2x2 + c) 0
          = buf.getD (r * (OUTPUTMANAGER.ProcessMonoMask.clip sampleManager true
              monoPointerNull2x2).PtrWidth.toNat + c) 0) →
        (sampleManager.ProcessMonoMask [] monoMaskEnvResolved2x2 true
          monoPointerNull2x2).InitBuffer = some buf) :=
  ⟨by decide, by decide, by decide,
   C20_null_masks_idempotent [] sampleManager monoMaskEnv2x2 monoMaskEnvResolved2x2
      monoPointerNull2x2 (by decide) (by decide) (by decide) (by decide) (by decide)
      (by decide) (by decide) (by decide) (by decide) (by decide) (by decide) (by decide)
      monoPointerNull2x2_reads (by decide) (by decide) (by decide) (by decide) (by decide)
      monoPointerNull2x2_reads_again⟩

/-- C21 (as stated) fails: the masked-colour pointer whose first pixel is `0x11223344`
resolves that pixel to `0xFF000000` over the background word `0x11223344` and to
`0xFF223344` over the background word 0, so the output depends on the background. -/
theorem C21_counterexample_background_shows :
    shapePixel maskedPointer2x2.PtrShapeBuffer 0 = 0x11223344 ∧
    monoMaskEnv2x2.pBits[0]? = some 0x11223344 ∧
    (sampleManager.ProcessMonoMask [] monoMaskEnv2x2 false maskedPointer2x2).InitBuffer
      = some [0xFF000000, 0xFF223344, 0xFF010105, 0xFF090909] ∧
    (0xFF000000 : Nat) ≠ 0xFF223344 ∧
    monoMaskEnvBlack2x2.pBits[0]? = some 0 ∧
    (sampleManager.ProcessMonoMask [] monoMaskEnvBlack2x2 false maskedPointer2x2).InitBuffer
      = some [0xFF223344, 0xFF223344, 0xFF030201, 0xFF090909] := by
  decide

/-- C21 (amended): for a masked-colour shape, under the preconditions of the decode loop,
the output word for a shape pixel `s` whose top byte is zero is `s OR 0xFF000000`
whatever the background, so the shape pixel `0x00223344` gives `0xFF223344`; for the shape
pixel `0x11223344`, whose top byte `0x11` is nonzero, the output word is
`(background XOR 0x11223344) OR 0xFF000000`. -/
theorem C21_masked_pixel_by_top_byte (tbl : List HRESULT) (self : OUTPUTMANAGER)
    (env : MonoMaskEnv) (PtrInfo : PTR_INFO)
    (hxr : INT_MIN ≤ PtrInfo.Position.x) (hyr : INT_MIN ≤ PtrInfo.Position.y)
    (hLs : PtrInfo.PtrShapeBuffer.length ≤ UINT32_MOD) (hLd : env.pBits.length ≤ UINT32_MOD)
    (hCT : FAILED env.hrCreateTexture2D = false) (hQI : FAILED env.hrQueryInterface = false)
    (hMap : FAILED env.hrMap = false) (hA : env.allocated = true)
    (hw0 : 0 ≤ (OUTPUTMANAGER.ProcessMonoMask.clip self false PtrInfo).PtrWidth)
    (hh0 : 0 ≤ (OUTPUTMANAGER.ProcessMonoMask.clip self false PtrInfo).PtrHeight)
    (hin : ∀ r c : Nat,
      (r : Int) < (OUTPUTMANAGER.ProcessMonoMask.clip self false PtrInfo).PtrHeight →
      (c : Int) < (OUTPUTMANAGER.ProcessMonoMask.clip self false PtrInfo).PtrWidth →
      maskedReadsInBounds PtrInfo.PtrShapeBuffer env.pBits PtrInfo.ShapeInfo.Pitch
        (DesktopPitchInPixels env)
        (OUTPUTMANAGER.ProcessMonoMask.clip self false PtrInfo).SkipX
        (OUTPUTMANAGER.ProcessMonoMask.clip self false PtrInfo).SkipY r c) :
    ∃ buf, (self.ProcessMonoMask tbl env false PtrInfo).InitBuffer = some buf ∧
      ∀ r c s : Nat,
        (r : Int) < (OUTPUTMANAGER.ProcessMonoMask.clip self false PtrInfo).PtrHeight →
        (c : Int) < (OUTPUTMANAGER.ProcessMonoMask.clip self false PtrInfo).PtrWidth →
        shapePixel PtrInfo.PtrShapeBuffer
          ((c + (OUTPUTMANAGER.ProcessMonoMask.clip self false PtrInfo).SkipX)
            + (r + (OUTPUTMANAGER.ProcessMonoMask.clip self false PtrInfo).SkipY)
              * (PtrInfo.ShapeInfo.Pitch / 4)) = s →
        (topByte s = 0 →
          buf[r * (OUTPUTMANAGER.ProcessMonoMask.clip self false PtrInfo).PtrWidth.toNat + c]?
            = some (s ||| 0xFF000000)) ∧
        (s = 0x00223344 →
          buf[r * (OUTPUTMANAGER.ProcessMonoMask.clip self false PtrInfo).PtrWidth.toNat + c]?
            = some 0xFF223344) ∧
        (s = 0x11223344 →
          buf[r * (OUTPUTMANAGER.ProcessMonoMask.clip self false PtrInfo).PtrWidth.toNat + c]?
            = some ((env.pBits.getD (r * DesktopPitchInPixels env + c) 0 ^^^ 0x11223344)
                ||| 0xFF000000)) := by
  obtain ⟨_, _, buf, hb, _, hpix⟩ := ProcessMonoMask_masked_pixels tbl self env PtrInfo
    hxr hyr hLs hLd hCT hQI hMap hA hw0 hh0 hin
  refine ⟨buf, hb, ?_⟩
  intro r c s hr hc hs
  have h := hpix r c hr hc
  unfold maskedPixel at h
  simp only [hs] at h
  refine ⟨?_, ?_, ?_⟩
  · intro h0
    rw [h, if_neg (by simp [h0])]
  · intro h0
    subst h0
    rw [h, if_neg (by decide)]
    rfl
  · intro h0
    subst h0
    rw [h, if_pos (by decide)]

/-- C21 at a concrete input: the sample 2x2 masked-colour pointer, whose pixel (0, 1) is
`0x00223344`, over the sample background. -/
theorem C21_masked_pixel_by_top_byte_witness :
    FAILED monoMaskEnv2x2.hrCreateTexture2D = false ∧ monoMaskEnv2x2.allocated = true ∧
    ∃ buf, (sampleManager.ProcessMonoMask [] monoMaskEnv2x2 false maskedPointer2x2).InitBuffer
        = some buf ∧
      ∀ r c s : Nat,
        (r : Int) < (OUTPUTMANAGER.ProcessMonoMask.clip sampleManager false
          maskedPointer2x2).PtrHeight →
        (c : Int) < (OUTPUTMANAGER.ProcessMonoMask.clip sampleManager false
          maskedPointer2x2).PtrWidth →
        shapePixel maskedPointer2x2.PtrShapeBuffer
          ((c + (OUTPUTMANAGER.ProcessMonoMask.clip sampleManager false maskedPointer2x2).SkipX)
            + (r + (OUTPUTMANAGER.ProcessMonoMask.clip sampleManager false
                maskedPointer2x2).SkipY)
              * (maskedPointer2x2.ShapeInfo.Pitch / 4)) = s →
        (topByte s = 0 →
          buf[r * (OUTPUTMANAGER.ProcessMonoMask.clip sampleManager false
              maskedPointer2x2).PtrWidth.toNat + c]?
            = some (s ||| 0xFF000000)) ∧
        (s = 0x00223344 →
          buf[r * (OUTPUTMANAGER.ProcessMonoMask.clip sampleManager false
              maskedPointer2x2).PtrWidth.toNat + c]?
            = some 0xFF223344) ∧
        (s = 0x11223344 →
          buf[r * (OUTPUTMANAGER.ProcessMonoMask.clip sampleManager false
              maskedPointer2x2).PtrWidth.toNat + c]?
            = some ((monoMaskEnv2x2.pBits.getD (r * DesktopPitchInPixels monoMaskEnv2x2 + c) 0
                ^^^ 0x11223344) ||| 0xFF000000)) :=
  ⟨by decide, by decide,
   C21_masked_pixel_by_top_byte [] sampleManager monoMaskEnv2x2 maskedPointer2x2
      (by decide) (by decide) (by decide) (by decide) (by decide) (by decide) (by decide)
      (by decide) (by decide) (by decide) maskedPointer2x2_reads⟩

/-- C22 (as stated) fails: for a monochrome pointer of odd stated height 5 the height
after `ProcessMonoMask` is 4, whether the call succeeds or fails. -/
theorem C22_counterexample_odd_height :
    monoPointerOddHeight.ShapeInfo.Height = 5 ∧
    (sampleManager.ProcessMonoMask [] monoMaskEnv2x2 true monoPointerOddHeight).ret
      = DUPL_RETURN_SUCCESS ∧
    (sampleManager.ProcessMonoMask [] monoMaskEnv2x2 true
        monoPointerOddHeight).PtrInfo.ShapeInfo.Height = 4 ∧
    (sampleManager.ProcessMonoMask [] monoMaskEnv2x2 true monoPointerOddHeight).PtrInfo
      ≠ monoPointerOddHeight ∧
    (sampleManager.ProcessMonoMask [] { monoMaskEnv2x2 with hrCreateTexture2D := E_FAIL } true
        monoPointerOddHeight).PtrInfo.ShapeInfo.Height = 4 := by
  decide

/-- C22 (amended): for every `PTR_INFO` whose stated height is in the `UINT` range, both
values of `IsMono` and every outcome of the collaborator calls, `ProcessMonoMask` leaves
`Position`, `Width`, `Pitch`, `Type`, the visible flag and the shape buffer unchanged, and
`ShapeInfo.Height` after the call is the height before it for a masked-colour shape and
the height before it rounded down to an even number for a monochrome shape; so the whole
pointer state is as found when the shape is not monochrome or its stated height is even. -/
theorem C22_pointer_state_restored (tbl : List HRESULT) (self : OUTPUTMANAGER)
    (env : MonoMaskEnv) (IsMono : Bool) (PtrInfo : PTR_INFO)
    (hH : PtrInfo.ShapeInfo.Height < 2 ^ 32) :
    (self.ProcessMonoMask tbl env IsMono PtrInfo).PtrInfo.Position = PtrInfo.Position ∧
    (self.ProcessMonoMask tbl env IsMono PtrInfo).PtrInfo.ShapeInfo.Width
      = PtrInfo.ShapeInfo.Width ∧
    (self.ProcessMonoMask tbl env IsMono PtrInfo).PtrInfo.ShapeInfo.Pitch
      = PtrInfo.ShapeInfo.Pitch ∧
    (self.ProcessMonoMask tbl env IsMono PtrInfo).PtrInfo.ShapeInfo.ShapeType
      = PtrInfo.ShapeInfo.ShapeType ∧
    (self.ProcessMonoMask tbl env IsMono PtrInfo).PtrInfo.Visible = PtrInfo.Visible ∧
    (self.ProcessMonoMask tbl env IsMono PtrInfo).PtrInfo.PtrShapeBuffer
      = PtrInfo.PtrShapeBuffer ∧
    (self.ProcessMonoMask tbl env IsMono PtrInfo).PtrInfo.ShapeInfo.Height
      = (if IsMono then PtrInfo.ShapeInfo.Height - PtrInfo.ShapeInfo.Height % 2
         else PtrInfo.ShapeInfo.Height) ∧
    ((IsMono = false ∨ PtrInfo.ShapeInfo.Height % 2 = 0) →
      (self.ProcessMonoMask tbl env IsMono PtrInfo).PtrInfo = PtrInfo) := by
  obtain ⟨_, _, _, _, hP⟩ := ProcessMonoMask_out tbl self env IsMono PtrInfo
  rw [hP]
  have hHeight : (OUTPUTMANAGER.ProcessMonoMask.clip self IsMono PtrInfo).PtrInfo.ShapeInfo.Height
      = (if IsMono then PtrInfo.ShapeInfo.Height - PtrInfo.ShapeInfo.Height % 2
         else PtrInfo.ShapeInfo.Height) := by
    simp only [OUTPUTMANAGER.ProcessMonoMask.clip, UINT32_MOD]
    split_ifs <;> omega
  refine ⟨rfl, rfl, rfl, rfl, rfl, rfl, hHeight, ?_⟩
  intro he
  have hsame : (OUTPUTMANAGER.ProcessMonoMask.clip self IsMono PtrInfo).PtrInfo.ShapeInfo.Height
      = PtrInfo.ShapeInfo.Height := by
    rw [hHeight]
    rcases he with he | he
    · simp [he]
    · split_ifs <;> omega
  have hk : (OUTPUTMANAGER.ProcessMonoMask.clip self IsMono PtrInfo).PtrInfo
      = { PtrInfo with ShapeInfo := { PtrInfo.ShapeInfo with
            Height := (OUTPUTMANAGER.ProcessMonoMask.clip self IsMono
              PtrInfo).PtrInfo.ShapeInfo.Height } } := rfl
  rw [hk, hsame]

/-- C22 at a concrete input: the sample 2x2 monochrome pointer (stated height 4) is
returned as it was given. -/
theorem C22_pointer_state_restored_witness :
    monoPointer2x2.ShapeInfo.Height < 2 ^ 32 ∧
    (sampleManager.ProcessMonoMask [] monoMaskEnv2x2 true monoPointer2x2).PtrInfo.ShapeInfo.Height
      = (if true = true then monoPointer2x2.ShapeInfo.Height - monoPointer2x2.ShapeInfo.Height % 2
         else monoPointer2x2.ShapeInfo.Height) ∧
    (((true = false) ∨ monoPointer2x2.ShapeInfo.Height % 2 = 0) →
      (sampleManager.ProcessMonoMask [] monoMaskEnv2x2 true monoPointer2x2).PtrInfo
        = monoPointer2x2) :=
  ⟨by decide,
   (C22_pointer_state_restored [] sampleManager monoMaskEnv2x2 true monoPointer2x2
      (by decide)).2.2.2.2.2.2⟩

/-- The XOR mask byte of a well-formed monochrome shape lies inside the shape buffer. -/
theorem mono_index_lt (L Pitch Height Width cs rs : Nat) (hbuf : Pitch * Height ≤ L)
    (hp : Width ≤ Pitch * 8) (hc : cs < Width) (hr : rs < Height / 2) :
    cs / 8 + rs * Pitch + (Height / 2) * Pitch < L := by
  have h1 : cs / 8 < Pitch := Nat.div_lt_of_lt_mul (by omega)
  have h2 : (rs + 1) * Pitch ≤ (Height / 2) * Pitch := Nat.mul_le_mul_right _ (by omega)
  have h3 : (2 * (Height / 2)) * Pitch ≤ Height * Pitch := Nat.mul_le_mul_right _ (by omega)
  rw [Nat.add_mul, Nat.one_mul] at h2
  rw [Nat.mul_assoc, Nat.mul_comm Height Pitch] at h3
  omega

/-- The four bytes of a pixel of a well-formed masked-colour shape lie inside the shape
buffer. -/
theorem masked_index_lt (L Pitch Height Width cs rs : Nat) (hbuf : Pitch * Height ≤ L)
    (hp : 4 * Width ≤ Pitch) (hc : cs < Width) (hr : rs < Height) :
    4 * (cs + rs * (Pitch / 4)) + 3 < L := by
  have h1 : cs < Pitch / 4 := by omega
  have h2 : (rs + 1) * (Pitch / 4) ≤ Height * (Pitch / 4) := Nat.mul_le_mul_right _ (by omega)
  have h3 : Height * (4 * (Pitch / 4)) ≤ Height * Pitch := Nat.mul_le_mul_left _ (by omega)
  rw [Nat.add_mul, Nat.one_mul] at h2
  rw [Nat.mul_comm Height Pitch] at h3
  rw [Nat.mul_left_comm] at h3
  omega

/-- The background word of pixel `(r, c)` lies inside a staging surface of `h` rows whose
row pitch holds `w` pixels. -/
theorem desktop_index_lt (len p w h r c : Nat) (hp : 4 * w ≤ p) (hl : p * h ≤ 4 * len)
    (hr : r < h) (hc : c < w) : r * (p / 4) + c < len := by
  have h2 : (r + 1) * (p / 4) ≤ h * (p / 4) := Nat.mul_le_mul_right _ (by omega)
  have h3 : h * (4 * (p / 4)) ≤ h * p := Nat.mul_le_mul_left _ (by omega)
  rw [Nat.add_mul, Nat.one_mul] at h2
  rw [Nat.mul_comm h p] at h3
  rw [Nat.mul_left_comm] at h3
  omega

/-- For a cursor that meets the desktop and is clipped on at most one side of each axis,
the clipped size is non-negative and the shifted column and row stay inside the shape. -/
theorem clip_inside (self : OUTPUTMANAGER) (IsMono : Bool) (PtrInfo : PTR_INFO) (W H : Nat)
    (hS : self.m_SharedSurf = some (W, H)) (hW : W < 2 ^ 31) (hH : H < 2 ^ 31)
    (hw : PtrInfo.ShapeInfo.Width < 2 ^ 31)
    (hh : logicalHeight IsMono PtrInfo.ShapeInfo.Height < 2 ^ 31)
    (hx1 : PtrInfo.Position.x < 0 → 0 ≤ PtrInfo.Position.x + PtrInfo.ShapeInfo.Width)
    (hx2 : 0 ≤ PtrInfo.Position.x → PtrInfo.Position.x ≤ W)
    (hy1 : PtrInfo.Position.y < 0 →
      0 ≤ PtrInfo.Position.y + logicalHeight IsMono PtrInfo.ShapeInfo.Height)
    (hy2 : 0 ≤ PtrInfo.Position.y → PtrInfo.Position.y ≤ H) :
    0 ≤ (OUTPUTMANAGER.ProcessMonoMask.clip self IsMono PtrInfo).PtrWidth ∧
    0 ≤ (OUTPUTMANAGER.ProcessMonoMask.clip self IsMono PtrInfo).PtrHeight ∧
    (∀ c : Nat, (c : Int) < (OUTPUTMANAGER.ProcessMonoMask.clip self IsMono PtrInfo).PtrWidth →
      c + (OUTPUTMANAGER.ProcessMonoMask.clip self IsMono PtrInfo).SkipX
        < PtrInfo.ShapeInfo.Width) ∧
    (∀ r : Nat, (r : Int) < (OUTPUTMANAGER.ProcessMonoMask.clip self IsMono PtrInfo).PtrHeight →
      r + (OUTPUTMANAGER.ProcessMonoMask.clip self IsMono PtrInfo).SkipY
        < logicalHeight IsMono PtrInfo.ShapeInfo.Height) := by
  obtain ⟨e1, e2, _, _, e5, e6⟩ := clip_fields self IsMono PtrInfo W H hS hW hH hw hh
  rw [e1, e2, e5, e6]
  refine ⟨?_, ?_, ?_, ?_⟩
  · split_ifs <;> omega
  · split_ifs <;> omega
  · intro c hc
    by_cases hx : PtrInfo.Position.x < 0
    · have hs := castUINT_neg PtrInfo.Position.x hx (by unfold INT_MIN; have := hx1 hx; omega)
      rw [if_pos hx] at hc ⊢
      omega
    · rw [if_neg hx] at hc ⊢
      split_ifs at hc <;> omega
  · intro r hr
    by_cases hy : PtrInfo.Position.y < 0
    · have hs := castUINT_neg PtrInfo.Position.y hy (by unfold INT_MIN; have := hy1 hy; omega)
      rw [if_pos hy] at hr ⊢
      omega
    · rw [if_neg hy] at hr ⊢
      split_ifs at hr <;> omega

/-- Every index below `h * w` is `r * w + c` for exactly one row `r < h` and column
`c < w`: the row-major store of the decode loops writes each output word once. -/
theorem row_major_unique (h w i : Nat) (hi : i < h * w) :
    ∃! p : Nat × Nat, p.1 < h ∧ p.2 < w ∧ p.1 * w + p.2 = i := by
  have hwpos : 0 < w := by
    rcases Nat.eq_zero_or_pos w with h0 | h0
    · rw [h0, Nat.mul_zero] at hi
      omega
    · exact h0
  refine ⟨(i / w, i % w), ⟨?_, Nat.mod_lt _ hwpos, ?_⟩, ?_⟩
  · exact Nat.div_lt_of_lt_mul (by rw [Nat.mul_comm]; exact hi)
  · show i / w * w + i % w = i
    rw [Nat.mul_comm]
    exact Nat.div_add_mod i w
  · rintro ⟨r, c⟩ ⟨_, hc, he⟩
    have he2 : c + w * r = i := by
      rw [Nat.mul_comm, Nat.add_comm]
      exact he
    have hu : i / w = r ∧ i % w = c := (Nat.div_mod_unique hwpos).mpr ⟨he2, hc⟩
    simp only [Prod.mk.injEq]
    exact ⟨hu.1.symm, hu.2.symm⟩

/-- C24: for a well-formed shape (buffer of at least `Pitch * Height` bytes, with
`Width <= Pitch * 8` for a monochrome and `4 * Width <= Pitch` for a masked-colour shape),
a mapped staging surface of `PtrHeight` rows whose row pitch holds `PtrWidth` pixels, and
a cursor that meets the desktop (`x < 0` with `0 <= x + Width`, or `0 <= x <= desktopWidth`;
likewise for `y` with the logical height), with sizes in the range of their C types and the
decode loop reached, `ProcessMonoMask` leaves a buffer of `PtrHeight * PtrWidth` words:
every shape-buffer read and background read of every `(r, c)` is inside its buffer, every
output index `r * PtrWidth + c` is inside the output buffer, and every output index is
written for exactly one `(r, c)`. -/
theorem C24_decode_in_bounds (tbl : List HRESULT) (self : OUTPUTMANAGER) (env : MonoMaskEnv)
    (IsMono : Bool) (PtrInfo : PTR_INFO) (W H : Nat)
    (hS : self.m_SharedSurf = some (W, H)) (hW : W < 2 ^ 31) (hH : H < 2 ^ 31)
    (hw : PtrInfo.ShapeInfo.Width < 2 ^ 31)
    (hh : logicalHeight IsMono PtrInfo.ShapeInfo.Height < 2 ^ 31)
    (hLs : PtrInfo.PtrShapeBuffer.length ≤ UINT32_MOD) (hLd : env.pBits.length ≤ UINT32_MOD)
    (hbuf : PtrInfo.ShapeInfo.Pitch * PtrInfo.ShapeInfo.Height ≤ PtrInfo.PtrShapeBuffer.length)
    (hpitch : if IsMono then PtrInfo.ShapeInfo.Width ≤ PtrInfo.ShapeInfo.Pitch * 8
      else 4 * PtrInfo.ShapeInfo.Width ≤ PtrInfo.ShapeInfo.Pitch)
    (hsp : 4 * (OUTPUTMANAGER.ProcessMonoMask.clip self IsMono PtrInfo).PtrWidth ≤ env.Pitch)
    (hP : env.Pitch ≤ INT_MAX)
    (hsl : env.Pitch * (OUTPUTMANAGER.ProcessMonoMask.clip self IsMono PtrInfo).PtrHeight
      ≤ 4 * (env.pBits.length : Int))
    (hx1 : PtrInfo.Position.x < 0 → 0 ≤ PtrInfo.Position.x + PtrInfo.ShapeInfo.Width)
    (hx2 : 0 ≤ PtrInfo.Position.x → PtrInfo.Position.x ≤ W)
    (hy1 : PtrInfo.Position.y < 0 →
      0 ≤ PtrInfo.Position.y + logicalHeight IsMono PtrInfo.ShapeInfo.Height)
    (hy2 : 0 ≤ PtrInfo.Position.y → PtrInfo.Position.y ≤ H)
    (hCT : FAILED env.hrCreateTexture2D = false) (hQI : FAILED env.hrQueryInterface = false)
    (hMap : FAILED env.hrMap = false) (hA : env.allocated = true) :
    ∃ buf, (self.ProcessMonoMask tbl env IsMono PtrInfo).InitBuffer = some buf ∧
      buf.length = (OUTPUTMANAGER.ProcessMonoMask.clip self IsMono PtrInfo).PtrHeight.toNat
        * (OUTPUTMANAGER.ProcessMonoMask.clip self IsMono PtrInfo).PtrWidth.toNat ∧
      (∀ r c : Nat,
        (r : Int) < (OUTPUTMANAGER.ProcessMonoMask.clip self IsMono PtrInfo).PtrHeight →
        (c : Int) < (OUTPUTMANAGER.ProcessMonoMask.clip self IsMono PtrInfo).PtrWidth →
        (if IsMono then
          monoReadsInBounds PtrInfo.PtrShapeBuffer env.pBits PtrInfo.ShapeInfo.Pitch
            PtrInfo.ShapeInfo.Height (DesktopPitchInPixels env)
            (OUTPUTMANAGER.ProcessMonoMask.clip self IsMono PtrInfo).SkipX
            (OUTPUTMANAGER.ProcessMonoMask.clip self IsMono PtrInfo).SkipY r c
         else
          maskedReadsInBounds PtrInfo.PtrShapeBuffer env.pBits PtrInfo.ShapeInfo.Pitch
            (DesktopPitchInPixels env)
            (OUTPUTMANAGER.ProcessMonoMask.clip self IsMono PtrInfo).SkipX
            (OUTPUTMANAGER.ProcessMonoMask.clip self IsMono PtrInfo).SkipY r c) ∧
        r * (OUTPUTMANAGER.ProcessMonoMask.clip self IsMono PtrInfo).PtrWidth.toNat + c
          < buf.length) ∧
      (∀ i : Nat, i < buf.length → ∃! p : Nat × Nat,
        p.1 < (OUTPUTMANAGER.ProcessMonoMask.clip self IsMono PtrInfo).PtrHeight.toNat ∧
        p.2 < (OUTPUTMANAGER.ProcessMonoMask.clip self IsMono PtrInfo).PtrWidth.toNat ∧
        p.1 * (OUTPUTMANAGER.ProcessMonoMask.clip self IsMono PtrInfo).PtrWidth.toNat + p.2
          = i) := by
  obtain ⟨hw0, hh0, hcs, hrs⟩ := clip_inside self IsMono PtrInfo W H hS hW hH hw hh hx1 hx2 hy1 hy2
  have hxr : INT_MIN ≤ PtrInfo.Position.x := by
    unfold INT_MIN
    by_cases hx : PtrInfo.Position.x < 0
    · have := hx1 hx
      omega
    · omega
  have hyr : INT_MIN ≤ PtrInfo.Position.y := by
    unfold INT_MIN
    by_cases hy : PtrInfo.Position.y < 0
    · have := hy1 hy
      omega
    · omega
  have hdp : DesktopPitchInPixels env = env.Pitch.toNat / 4 := by
    unfold DesktopPitchInPixels castSIZE_T UINT32_MOD
    unfold INT_MAX at hP
    omega
  have hdesk : ∀ r c : Nat,
      (r : Int) < (OUTPUTMANAGER.ProcessMonoMask.clip self IsMono PtrInfo).PtrHeight →
      (c : Int) < (OUTPUTMANAGER.ProcessMonoMask.clip self IsMono PtrInfo).PtrWidth →
      r * DesktopPitchInPixels env + c < env.pBits.length := by
    intro r c hr hc
    rw [hdp]
    have hp0 : 0 ≤ env.Pitch := by omega
    have hcast : ((env.Pitch.toNat
        * (OUTPUTMANAGER.ProcessMonoMask.clip self IsMono PtrInfo).PtrHeight.toNat : Nat) : Int)
        = env.Pitch * (OUTPUTMANAGER.ProcessMonoMask.clip self IsMono PtrInfo).PtrHeight := by
      push_cast
      rw [Int.toNat_of_nonneg hp0, Int.toNat_of_nonneg hh0]
    exact desktop_index_lt env.pBits.length env.Pitch.toNat
      (OUTPUTMANAGER.ProcessMonoMask.clip self IsMono PtrInfo).PtrWidth.toNat
      (OUTPUTMANAGER.ProcessMonoMask.clip self IsMono PtrInfo).PtrHeight.toNat r c
      (by omega) (by omega) (by omega) (by omega)
  have hout : ∀ (h w r c : Nat), r < h → c < w → r * w + c < h * w := by
    intro h w r c hr hc
    have h2 : (r + 1) * w ≤ h * w := Nat.mul_le_mul_right _ (by omega)
    rw [Nat.add_mul, Nat.one_mul] at h2
    omega
  cases IsMono with
  | true =>
    have hin : ∀ r c : Nat,
        (r : Int) < (OUTPUTMANAGER.ProcessMonoMask.clip self true PtrInfo).PtrHeight →
        (c : Int) < (OUTPUTMANAGER.ProcessMonoMask.clip self true PtrInfo).PtrWidth →
        monoReadsInBounds PtrInfo.PtrShapeBuffer env.pBits PtrInfo.ShapeInfo.Pitch
          PtrInfo.ShapeInfo.Height (DesktopPitchInPixels env)
          (OUTPUTMANAGER.ProcessMonoMask.clip self true PtrInfo).SkipX
          (OUTPUTMANAGER.ProcessMonoMask.clip self true PtrInfo).SkipY r c := by
      intro r c hr hc
      refine ⟨?_, hdesk r c hr hc⟩
      exact mono_index_lt _ _ _ _ _ _ hbuf (by simpa using hpitch) (hcs c hc)
        (by have := hrs r hr; simpa [logicalHeight] using this)
    have hH32 : PtrInfo.ShapeInfo.Height < 2 ^ 32 := by
      simp only [logicalHeight, if_true] at hh
      omega
    obtain ⟨_, _, buf, hb, hlen, _⟩ := ProcessMonoMask_mono_pixels tbl self env PtrInfo
      hxr hyr hH32 hLs hLd hCT hQI hMap hA hw0 hh0 hin
    refine ⟨buf, hb, hlen, ?_, ?_⟩
    · intro r c hr hc
      refine ⟨by simpa using hin r c hr hc, ?_⟩
      rw [hlen]
      exact hout _ _ r c (by omega) (by omega)
    · intro i hi
      rw [hlen] at hi
      exact row_major_unique _ _ i hi
  | false =>
    have hin : ∀ r c : Nat,
        (r : Int) < (OUTPUTMANAGER.ProcessMonoMask.clip self false PtrInfo).PtrHeight →
        (c : Int) < (OUTPUTMANAGER.ProcessMonoMask.clip self false PtrInfo).PtrWidth →
        maskedReadsInBounds PtrInfo.PtrShapeBuffer env.pBits PtrInfo.ShapeInfo.Pitch
          (DesktopPitchInPixels env)
          (OUTPUTMANAGER.ProcessMonoMask.clip self false PtrInfo).SkipX
          (OUTPUTMANAGER.ProcessMonoMask.clip self false PtrInfo).SkipY r c := by
      intro r c hr hc
      refine ⟨?_, hdesk r c hr hc⟩
      exact masked_index_lt _ _ _ _ _ _ hbuf (by simpa using hpitch) (hcs c hc)
        (by have := hrs r hr; simpa [logicalHeight] using this)
    obtain ⟨_, _, buf, hb, hlen, _⟩ := ProcessMonoMask_masked_pixels tbl self env PtrInfo
      hxr hyr hLs hLd hCT hQI hMap hA hw0 hh0 hin
    refine ⟨buf, hb, hlen, ?_, ?_⟩
    · intro r c hr hc
      refine ⟨by simpa using hin r c hr hc, ?_⟩
      rw [hlen]
      exact hout _ _ r c (by omega) (by omega)
    · intro i hi
      rw [hlen] at hi
      exact row_major_unique _ _ i hi

/-- C24 at a concrete input: the sample 2x2 monochrome pointer (four shape bytes, pitch 1)
over the mapped 2x2 background of row pitch 8 bytes. -/
theorem C24_decode_in_bounds_witness :
    monoPointer2x2.ShapeInfo.Pitch * monoPointer2x2.ShapeInfo.Height
      ≤ monoPointer2x2.PtrShapeBuffer.length ∧
    monoPointer2x2.ShapeInfo.Width ≤ monoPointer2x2.ShapeInfo.Pitch * 8 ∧
    4 * (OUTPUTMANAGER.ProcessMonoMask.clip sampleManager true monoPointer2x2).PtrWidth
      ≤ monoMaskEnv2x2.Pitch ∧
    ∃ buf, (sampleManager.ProcessMonoMask [] monoMaskEnv2x2 true monoPointer2x2).InitBuffer
        = some buf ∧
      buf.length = (OUTPUTMANAGER.ProcessMonoMask.clip sampleManager true
          monoPointer2x2).PtrHeight.toNat
        * (OUTPUTMANAGER.ProcessMonoMask.clip sampleManager true monoPointer2x2).PtrWidth.toNat ∧
      (∀ r c : Nat,
        (r : Int) < (OUTPUTMANAGER.ProcessMonoMask.clip sampleManager true
          monoPointer2x2).PtrHeight →
        (c : Int) < (OUTPUTMANAGER.ProcessMonoMask.clip sampleManager true
          monoPointer2x2).PtrWidth →
        (if true = true then
          monoReadsInBounds monoPointer2x2.PtrShapeBuffer monoMaskEnv2x2.pBits
            monoPointer2x2.ShapeInfo.Pitch monoPointer2x2.ShapeInfo.Height
            (DesktopPitchInPixels monoMaskEnv2x2)
            (OUTPUTMANAGER.ProcessMonoMask.clip sampleManager true monoPointer2x2).SkipX
            (OUTPUTMANAGER.ProcessMonoMask.clip sampleManager true monoPointer2x2).SkipY r c
         else
          maskedReadsInBounds monoPointer2x2.PtrShapeBuffer monoMaskEnv2x2.pBits
            monoPointer2x2.ShapeInfo.Pitch (DesktopPitchInPixels monoMaskEnv2x2)
            (OUTPUTMANAGER.ProcessMonoMask.clip sampleManager true monoPointer2x2).SkipX
            (OUTPUTMANAGER.ProcessMonoMask.clip sampleManager true monoPointer2x2).SkipY r c) ∧
        r * (OUTPUTMANAGER.ProcessMonoMask.clip sampleManager true
            monoPointer2x2).PtrWidth.toNat + c < buf.length) ∧
      (∀ i : Nat, i < buf.length → ∃! p : Nat × Nat,
        p.1 < (OUTPUTMANAGER.ProcessMonoMask.clip sampleManager true
          monoPointer2x2).PtrHeight.toNat ∧
        p.2 < (OUTPUTMANAGER.ProcessMonoMask.clip sampleManager true
          monoPointer2x2).PtrWidth.toNat ∧
        p.1 * (OUTPUTMANAGER.ProcessMonoMask.clip sampleManager true
            monoPointer2x2).PtrWidth.toNat + p.2 = i) :=
  ⟨by decide, by decide, by decide,
   C24_decode_in_bounds [] sampleManager monoMaskEnv2x2 true monoPointer2x2 1920 1080
      (by decide) (by decide) (by decide) (by decide) (by decide) (by decide) (by decide)
      (by decide) (by decide) (by decide) (by decide) (by decide) (by decide) (by decide)
      (by decide) (by decide) (by decide) (by decide) (by decide) (by decide)⟩

/-- The vertex positions in the words of the specification, for a desktop whose sizes are
below `2^31`: the quad has the corners (left, bottom), (left, top), (right, bottom),
(right, top) mapped by `deviceX` and `deviceY` about the centre `(W / 2, H / 2)`. -/
theorem Vertices_eq (self : OUTPUTMANAGER) (W H : Nat) (PtrLeft PtrTop PtrWidth PtrHeight : Int)
    (hS : self.m_SharedSurf = some (W, H)) (hW : W < 2 ^ 31) (hH : H < 2 ^ 31) :
    OUTPUTMANAGER.DrawMouse.Vertices self PtrLeft PtrTop PtrWidth PtrHeight
      = [ { x := deviceX ((W / 2 : Nat) : Int) PtrLeft,
            y := deviceY ((H / 2 : Nat) : Int) (PtrTop + PtrHeight) },
          { x := deviceX ((W / 2 : Nat) : Int) PtrLeft,
            y := deviceY ((H / 2 : Nat) : Int) PtrTop },
          { x := deviceX ((W / 2 : Nat) : Int) (PtrLeft + PtrWidth),
            y := deviceY ((H / 2 : Nat) : Int) (PtrTop + PtrHeight) },
          { x := deviceX ((W / 2 : Nat) : Int) (PtrLeft + PtrWidth),
            y := deviceY ((H / 2 : Nat) : Int) (PtrTop + PtrHeight) },
          { x := deviceX ((W / 2 : Nat) : Int) PtrLeft,
            y := deviceY ((H / 2 : Nat) : Int) PtrTop },
          { x := deviceX ((W / 2 : Nat) : Int) (PtrLeft + PtrWidth),
            y := deviceY ((H / 2 : Nat) : Int) PtrTop } ] := by
  have hcx : Int.tdiv (W : Int) 2 = ((W / 2 : Nat) : Int) := by
    rw [Int.tdiv_eq_ediv (by omega) (by decide)]
    omega
  have hcy : Int.tdiv (H : Int) 2 = ((H / 2 : Nat) : Int) := by
    rw [Int.tdiv_eq_ediv (by omega) (by decide)]
    omega
  simp only [OUTPUTMANAGER.DrawMouse.Vertices, hS, Option.getD_some, castINT_of_lt _ hW,
    castINT_of_lt _ hH, hcx, hcy, deviceX, deviceY]
  push_cast
  simp only [neg_mul, one_mul]

/-- Range of `deviceX` over the columns of the desktop. -/
theorem deviceX_range (cx px W : Int) (hc : 0 < cx) (h0 : 0 ≤ px) (h1 : px ≤ W) :
    -1 ≤ deviceX cx px ∧ deviceX cx px ≤ deviceX cx W := by
  have hcq : (0 : ℚ) < (cx : ℚ) := by exact_mod_cast hc
  have h0q : (0 : ℚ) ≤ (px : ℚ) := by exact_mod_cast h0
  have h1q : (px : ℚ) ≤ (W : ℚ) := by exact_mod_cast h1
  unfold deviceX
  constructor
  · rw [le_div_iff₀ hcq]
    linarith
  · exact div_le_div_of_nonneg_right (by linarith) hcq.le

/-- Range of `deviceY` over the rows of the desktop. -/
theorem deviceY_range (cy py H : Int) (hc : 0 < cy) (h0 : 0 ≤ py) (h1 : py ≤ H) :
    deviceY cy H ≤ deviceY cy py ∧ deviceY cy py ≤ 1 := by
  have hcq : (0 : ℚ) < (cy : ℚ) := by exact_mod_cast hc
  have h0q : (0 : ℚ) ≤ (py : ℚ) := by exact_mod_cast h0
  have h1q : (py : ℚ) ≤ (H : ℚ) := by exact_mod_cast h1
  unfold deviceY
  constructor
  · exact div_le_div_of_nonneg_right (by linarith) hcq.le
  · rw [div_le_iff₀ hcq]
    linarith

/-- The device coordinate of the far desktop edge: 1 for an even size, `1 + 1 / Center`
for an odd one. -/
theorem deviceX_edge (W : Nat) (hW : 2 ≤ W) :
    (W % 2 = 0 → deviceX ((W / 2 : Nat) : Int) W = 1) ∧
    (W % 2 = 1 → deviceX ((W / 2 : Nat) : Int) W = 1 + 1 / ((W / 2 : Nat) : ℚ)) := by
  have hpos : (0 : ℚ) < ((W / 2 : Nat) : ℚ) := by
    have : 0 < W / 2 := by omega
    exact_mod_cast this
  unfold deviceX
  simp only [Int.cast_natCast]
  constructor
  · intro he
    have h2 : W = 2 * (W / 2) := by omega
    have h2q : (W : ℚ) = 2 * ((W / 2 : Nat) : ℚ) := by exact_mod_cast h2
    rw [div_eq_iff hpos.ne']
    linarith
  · intro ho
    have h2 : W = 2 * (W / 2) + 1 := by omega
    have h2q : (W : ℚ) = 2 * ((W / 2 : Nat) : ℚ) + 1 := by exact_mod_cast h2
    rw [div_eq_iff hpos.ne', add_mul, one_div, inv_mul_cancel₀ hpos.ne']
    linarith

/-- The device coordinate of the bottom desktop edge: -1 for an even size,
`-1 - 1 / Center` for an odd one. -/
theorem deviceY_edge (H : Nat) (hH : 2 ≤ H) :
    (H % 2 = 0 → deviceY ((H / 2 : Nat) : Int) H = -1) ∧
    (H % 2 = 1 → deviceY ((H / 2 : Nat) : Int) H = -1 - 1 / ((H / 2 : Nat) : ℚ)) := by
  have hpos : (0 : ℚ) < ((H / 2 : Nat) : ℚ) := by
    have : 0 < H / 2 := by omega
    exact_mod_cast this
  unfold deviceY
  simp only [Int.cast_natCast]
  constructor
  · intro he
    have h2 : H = 2 * (H / 2) := by omega
    have h2q : (H : ℚ) = 2 * ((H / 2 : Nat) : ℚ) := by exact_mod_cast h2
    rw [div_eq_iff hpos.ne']
    linarith
  · intro ho
    have h2 : H = 2 * (H / 2) + 1 := by omega
    have h2q : (H : ℚ) = 2 * ((H / 2 : Nat) : ℚ) + 1 := by exact_mod_cast h2
    rw [div_eq_iff hpos.ne', sub_mul, one_div, inv_mul_cancel₀ hpos.ne']
    linarith

/-- C23 (as stated) fails: on a desktop 801 pixels wide (`CenterX = 400`) the colour
pointer 32 wide at (769, 0) lies inside the desktop, and the device X of its right edge is
`401 / 400`, above 1. -/
theorem C23_counterexample_odd_desktop_width :
    desktop801x600.m_SharedSurf = some (801, 600) ∧
    (OUTPUTMANAGER.DrawMouse.shape [] desktop801x600 sampleDrawMouseEnv
      colorPointerAtRightEdge).PtrLeft = 769 ∧
    (OUTPUTMANAGER.DrawMouse.shape [] desktop801x600 sampleDrawMouseEnv
      colorPointerAtRightEdge).PtrTop = 0 ∧
    (OUTPUTMANAGER.DrawMouse.shape [] desktop801x600 sampleDrawMouseEnv
      colorPointerAtRightEdge).PtrWidth = 32 ∧
    (OUTPUTMANAGER.DrawMouse.shape [] desktop801x600 sampleDrawMouseEnv
      colorPointerAtRightEdge).PtrHeight = 32 ∧
    (0 : Int) ≤ 769 ∧ (769 : Int) + 32 ≤ 801 ∧ (0 : Int) ≤ 0 ∧ (0 : Int) + 32 ≤ 600 ∧
    OUTPUTMANAGER.DrawMouse.vertexPositions [] desktop801x600 sampleDrawMouseEnv
        colorPointerAtRightEdge
      = [ { x := 369 / 400, y := 67 / 75 }, { x := 369 / 400, y := 1 },
          { x := 401 / 400, y := 67 / 75 }, { x := 401 / 400, y := 67 / 75 },
          { x := 369 / 400, y := 1 }, { x := 401 / 400, y := 1 } ] ∧
    ¬ ((401 / 400 : ℚ) ≤ 1) := by
  have h1 : (OUTPUTMANAGER.DrawMouse.shape [] desktop801x600 sampleDrawMouseEnv
      colorPointerAtRightEdge).PtrLeft = 769 := by decide
  have h2 : (OUTPUTMANAGER.DrawMouse.shape [] desktop801x600 sampleDrawMouseEnv
      colorPointerAtRightEdge).PtrTop = 0 := by decide
  have h3 : (OUTPUTMANAGER.DrawMouse.shape [] desktop801x600 sampleDrawMouseEnv
      colorPointerAtRightEdge).PtrWidth = 32 := by decide
  have h4 : (OUTPUTMANAGER.DrawMouse.shape [] desktop801x600 sampleDrawMouseEnv
      colorPointerAtRightEdge).PtrHeight = 32 := by decide
  refine ⟨rfl, h1, h2, h3, h4, by decide, by decide, by decide, by decide, ?_, by norm_num⟩
  unfold OUTPUTMANAGER.DrawMouse.vertexPositions
  simp only [h1, h2, h3, h4]
  rw [Vertices_eq desktop801x600 801 600 769 0 32 32 rfl (by norm_num) (by norm_num)]
  norm_num [deviceX, deviceY]

/-- C23 (amended): reading the `FLOAT` operations as exact rational arithmetic, with
`CenterX = desktopWidth / 2` and `CenterY = desktopHeight / 2` (integer division, desktop
sizes at least 2 and below `2^31`), for every clipped cursor rectangle of non-negative
size inside the desktop the six vertex positions are `x = (px - CenterX) / CenterX` and
`y = -(py - CenterY) / CenterY` at the four corners; every `x` lies between -1 and the
device X of the right desktop edge, which is 1 for an even width and `1 + 1 / CenterX`
for an odd one, and every `y` between the device Y of the bottom desktop edge, which is
-1 for an even height and `-1 - 1 / CenterY` for an odd one, and 1; so for even desktop
sizes all six positions lie in `[-1,1] x [-1,1]`. The screen top-left maps to `(-1, 1)`
and a larger screen Y gives a smaller device Y. -/
theorem C23_vertices_in_device_range (self : OUTPUTMANAGER) (W H : Nat)
    (PtrLeft PtrTop PtrWidth PtrHeight : Int)
    (hS : self.m_SharedSurf = some (W, H)) (hW : W < 2 ^ 31) (hH : H < 2 ^ 31)
    (hW2 : 2 ≤ W) (hH2 : 2 ≤ H)
    (hl : 0 ≤ PtrLeft) (hw : 0 ≤ PtrWidth) (hr : PtrLeft + PtrWidth ≤ W)
    (ht : 0 ≤ PtrTop) (hh : 0 ≤ PtrHeight) (hb : PtrTop + PtrHeight ≤ H) :
    OUTPUTMANAGER.DrawMouse.Vertices self PtrLeft PtrTop PtrWidth PtrHeight
      = [ { x := deviceX ((W / 2 : Nat) : Int) PtrLeft,
            y := deviceY ((H / 2 : Nat) : Int) (PtrTop + PtrHeight) },
          { x := deviceX ((W / 2 : Nat) : Int) PtrLeft,
            y := deviceY ((H / 2 : Nat) : Int) PtrTop },
          { x := deviceX ((W / 2 : Nat) : Int) (PtrLeft + PtrWidth),
            y := deviceY ((H / 2 : Nat) : Int) (PtrTop + PtrHeight) },
          { x := deviceX ((W / 2 : Nat) : Int) (PtrLeft + PtrWidth),
            y := deviceY ((H / 2 : Nat) : Int) (PtrTop + PtrHeight) },
          { x := deviceX ((W / 2 : Nat) : Int) PtrLeft,
            y := deviceY ((H / 2 : Nat) : Int) PtrTop },
          { x := deviceX ((W / 2 : Nat) : Int) (PtrLeft + PtrWidth),
            y := deviceY ((H / 2 : Nat) : Int) PtrTop } ] ∧
    (∀ v ∈ OUTPUTMANAGER.DrawMouse.Vertices self PtrLeft PtrTop PtrWidth PtrHeight,
      -1 ≤ v.x ∧ v.x ≤ deviceX ((W / 2 : Nat) : Int) W ∧
      deviceY ((H / 2 : Nat) : Int) H ≤ v.y ∧ v.y ≤ 1) ∧
    (W % 2 = 0 → deviceX ((W / 2 : Nat) : Int) W = 1) ∧
    (W % 2 = 1 → deviceX ((W / 2 : Nat) : Int) W = 1 + 1 / ((W / 2 : Nat) : ℚ)) ∧
    (H % 2 = 0 → deviceY ((H / 2 : Nat) : Int) H = -1) ∧
    (H % 2 = 1 → deviceY ((H / 2 : Nat) : Int) H = -1 - 1 / ((H / 2 : Nat) : ℚ)) ∧
    (W % 2 = 0 → H % 2 = 0 →
      ∀ v ∈ OUTPUTMANAGER.DrawMouse.Vertices self PtrLeft PtrTop PtrWidth PtrHeight,
        -1 ≤ v.x ∧ v.x ≤ 1 ∧ -1 ≤ v.y ∧ v.y ≤ 1) ∧
    deviceX ((W / 2 : Nat) : Int) 0 = -1 ∧
    deviceY ((H / 2 : Nat) : Int) 0 = 1 ∧
    (∀ py py2 : Int, py < py2 →
      deviceY ((H / 2 : Nat) : Int) py2 < deviceY ((H / 2 : Nat) : Int) py) := by
  have hcx : (0 : Int) < ((W / 2 : Nat) : Int) := by omega
  have hcy : (0 : Int) < ((H / 2 : Nat) : Int) := by omega
  have hcxq : (0 : ℚ) < (((W / 2 : Nat) : Int) : ℚ) := by exact_mod_cast hcx
  have hcyq : (0 : ℚ) < (((H / 2 : Nat) : Int) : ℚ) := by exact_mod_cast hcy
  have hV := Vertices_eq self W H PtrLeft PtrTop PtrWidth PtrHeight hS hW hH
  have hxL := deviceX_range _ PtrLeft W hcx hl (by omega)
  have hxR := deviceX_range _ (PtrLeft + PtrWidth) W hcx (by omega) hr
  have hyT := deviceY_range _ PtrTop H hcy ht (by omega)
  have hyB := deviceY_range _ (PtrTop + PtrHeight) H hcy (by omega) hb
  have hall : ∀ v ∈ OUTPUTMANAGER.DrawMouse.Vertices self PtrLeft PtrTop PtrWidth PtrHeight,
      -1 ≤ v.x ∧ v.x ≤ deviceX ((W / 2 : Nat) : Int) W ∧
      deviceY ((H / 2 : Nat) : Int) H ≤ v.y ∧ v.y ≤ 1 := by
    intro v hv
    rw [hV] at hv
    simp only [List.mem_cons, List.mem_singleton, List.not_mem_nil, or_false] at hv
    rcases hv with rfl | rfl | rfl | rfl | rfl | rfl
    · exact ⟨hxL.1, hxL.2, hyB.1, hyB.2⟩
    · exact ⟨hxL.1, hxL.2, hyT.1, hyT.2⟩
    · exact ⟨hxR.1, hxR.2, hyB.1, hyB.2⟩
    · exact ⟨hxR.1, hxR.2, hyB.1, hyB.2⟩
    · exact ⟨hxL.1, hxL.2, hyT.1, hyT.2⟩
    · exact ⟨hxR.1, hxR.2, hyT.1, hyT.2⟩
  obtain ⟨hxe, hxo⟩ := deviceX_edge W hW2
  obtain ⟨hye, hyo⟩ := deviceY_edge H hH2
  refine ⟨hV, hall, hxe, hxo, hye, hyo, ?_, ?_, ?_, ?_⟩
  · intro he1 he2 v hv
    obtain ⟨a, b, c, d⟩ := hall v hv
    rw [hxe he1] at b
    rw [hye he2] at c
    exact ⟨a, b, c, d⟩
  · unfold deviceX
    rw [div_eq_iff hcxq.ne']
    push_cast
    ring
  · unfold deviceY
    rw [div_eq_iff hcyq.ne']
    push_cast
    ring
  · intro py py2 hlt
    have hq : (py : ℚ) < (py2 : ℚ) := by exact_mod_cast hlt
    unfold deviceY
    exact div_lt_div_of_pos_right (by linarith) hcyq

/-- C23 at a concrete input: the 32x32 rectangle at (100, 100) on the 1920x1080 desktop;
all six vertex positions lie in `[-1,1] x [-1,1]`. -/
theorem C23_vertices_in_device_range_witness :
    sampleManager.m_SharedSurf = some (1920, 1080) ∧
    (100 : Int) + 32 ≤ 1920 ∧ (100 : Int) + 32 ≤ 1080 ∧
    ∀ v ∈ OUTPUTMANAGER.DrawMouse.Vertices sampleManager 100 100 32 32,
      -1 ≤ v.x ∧ v.x ≤ 1 ∧ -1 ≤ v.y ∧ v.y ≤ 1 :=
  ⟨by decide, by decide, by decide,
   (C23_vertices_in_device_range sampleManager 1920 1080 100 100 32 32
      (by decide) (by decide) (by decide) (by decide) (by decide) (by decide) (by decide)
      (by decide) (by decide) (by decide) (by decide)).2.2.2.2.2.2.1 (by decide) (by decide)⟩

end DDHMD
